import Mathlib

/-!
# go-users: the user-resource handler and its error mapping

A shallow embedding of `internal/api/handler.go`, of the request and response
types, the `Visit…Response` methods and the HTTP wrappers of
`internal/api/api.gen.go`, of the sentinels of `internal/ownErrors/errors.go`, of
the store client of `internal/database/database.go`, of `internal/config/config.go`
and of the OpenAPI document route of `internal/api/swagger.go`.

Conventions of the embedding:

* a Go pointer `*T` is `Option T` (`nil` is `none`);
* a Go `error` interface value is `Option GoError` (`nil` is `none`);
* a Go interface result such as `PostUserResponseObject` is a sum type with one
  constructor per implementing type, and a returned interface value is an
  `Option` of it (`nil` is `none`);
* the store behind the `DB` interface is a state machine over a state type `σ`;
  every method call is recorded in a trace of `Effect`s, in program order;
* a run-time panic (nil dereference, method call on a nil interface) is the
  `Outcome.panicked` outcome;
* an `http.ResponseWriter` is the list of the calls made on it, and serving a
  request is a function on an `Exchange` (writer, store, events);
* the functions of the libraries the generated code calls (parameter binding,
  JSON decoding and marshaling) are the fields of `Libraries`;
* the connection pool is a state machine over a state type `π`, and a `pgx.Row` is
  what its `Scan` does; the `users` table itself is modelled from the spec;
* the file system (`OS`), the router library (`Chi`), the reading of the
  environment and of the bytes of a JSON body are parameters; the package-level
  variable `OpenAPISpecPath` is the state `Package`.
-/

namespace GoUsers

set_option linter.dupNamespace false

/-! ## Data model (`api.gen.go`) -/

/-- Instants of `time.Time`, as nanoseconds since the epoch. -/
structure Time where
  nanos : Int
  deriving DecidableEq, Repr

/-- The `openapi_types.Email` string type. -/
abbrev Email := String

/-- The `Error` model: `Error *string`. -/
structure Error where
  Error : Option String
  deriving DecidableEq, Repr

/-- The `Health` model: `Status *string`. -/
structure Health where
  Status : Option String
  deriving DecidableEq, Repr

/-- The `User` model. -/
structure User where
  CreatedAt : Time
  Email : Email
  FirstName : String
  Id : Nat
  LastName : String
  UpdatedAt : Time
  deriving DecidableEq, Repr

/-- The `UserRequest` model (`PostUserJSONRequestBody`, `PutUserJSONRequestBody`). -/
structure UserRequest where
  Email : Email
  FirstName : String
  LastName : String
  deriving DecidableEq, Repr

/-- A `context.Context` value; the handler only passes it on to the store. -/
structure Context where
  token : Nat
  deriving DecidableEq, Repr

/-! ## Errors (`ownErrors/errors.go`, package `errors`) -/

/-- Go error values. The two sentinels of `ownErrors` are values of their own;
`errorString` is any other leaf error with its text (`errors.New`, `fmt.Errorf`
without `%w`); `wrapError` is an error with its full text that unwraps to
another one (`fmt.Errorf` with `%w`); `sqlErrNoRows` is the sentinel
`sql.ErrNoRows` that `database.go` tests for; `PgError` is a `*pgconn.PgError`,
the type `isDuplicateKeyError` looks for, a leaf (it has no `Unwrap`). Errors
are chains: an error unwraps to at most one error, and none has an `Is` or `As`
method of its own. -/
inductive GoError where
  | ErrNotFound
  | ErrUserAlreadyExists
  | errorString (s : String)
  | wrapError (msg : String) (err : GoError)
  | sqlErrNoRows
  | PgError (Severity Code Message : String)
  deriving DecidableEq, Repr

namespace GoError

/-- The `Error()` method. -/
def Error : GoError → String
  | ErrNotFound => "record not found"
  | ErrUserAlreadyExists => "user already exists"
  | errorString s => s
  | wrapError msg _ => msg
  | sqlErrNoRows => "sql: no rows in result set"
  | PgError Severity Code Message => Severity ++ ": " ++ Message ++ " (SQLSTATE " ++ Code ++ ")"

/-- The `Unwrap()` method, when the error has one. -/
def Unwrap : GoError → Option GoError
  | wrapError _ err => some err
  | _ => none

/-- The chain of an error: the error itself, then what it unwraps to, and so on.
An error "is or wraps" `target` when `target` is a member of its chain. -/
def chain : GoError → List GoError
  | wrapError msg err => wrapError msg err :: chain err
  | e => [e]

end GoError

/-- The function `errors.Is` for non-nil `err` and `target`: walks the `Unwrap`
chain of `err` and reports whether one of its links is the value `target`
(`err == target`). The targets of this program are the two sentinels, each a
value of its own, distinct from every `errorString` whatever its text. -/
def errorsIs : GoError → GoError → Bool
  | .wrapError msg err, target =>
      decide (GoError.wrapError msg err = target) || errorsIs err target
  | err, target => decide (err = target)

/-! ## Request and response objects (`api.gen.go`) -/

structure HealthRequestObject where
  deriving DecidableEq, Repr

structure PostUserRequestObject where
  Body : Option UserRequest
  deriving DecidableEq, Repr

structure GetUserRequestObject where
  Id : Nat
  deriving DecidableEq, Repr

structure PutUserRequestObject where
  Id : Nat
  Body : Option UserRequest
  deriving DecidableEq, Repr

/-- The implementations of `HealthResponseObject`. -/
inductive HealthResponseObject where
  | Health200JSONResponse (response : Health)
  | Health500JSONResponse (response : Error)
  | HealthdefaultJSONResponse (Body : Error) (StatusCode : Int)
  deriving DecidableEq, Repr

/-- The implementations of `PostUserResponseObject`. -/
inductive PostUserResponseObject where
  | PostUser201JSONResponse (response : User)
  | PostUser400JSONResponse (response : Error)
  | PostUser409JSONResponse (response : Error)
  | PostUser500JSONResponse (response : Error)
  deriving DecidableEq, Repr

/-- The implementations of `GetUserResponseObject`. -/
inductive GetUserResponseObject where
  | GetUser200JSONResponse (response : User)
  | GetUser404JSONResponse (response : Error)
  | GetUser500JSONResponse (response : Error)
  deriving DecidableEq, Repr

/-- The implementations of `PutUserResponseObject`. -/
inductive PutUserResponseObject where
  | PutUser200JSONResponse (response : User)
  | PutUser400JSONResponse (response : Error)
  | PutUser404JSONResponse (response : Error)
  | PutUser500JSONResponse (response : Error)
  deriving DecidableEq, Repr

/-! ## The store interface and the effects of a handler call -/

/-- What a handler call does besides returning: the calls of the methods of the
`DB` interface, with their arguments, and the lines given to `log.Printf`. -/
inductive Effect where
  | CreateUser (ctx : Context) (user : UserRequest)
  | GetUser (ctx : Context) (id : Nat)
  | UpdateUser (ctx : Context) (u : UserRequest) (id : Nat)
  | Close
  | logPrintf (line : String)
  deriving DecidableEq, Repr

/-- Whether an effect is a call of a store operation. -/
def Effect.isStoreCall : Effect → Bool
  | .logPrintf _ => false
  | _ => true

/-- The `DB` interface of `handler.go`, over a store with states `σ`. Each of the
three user operations returns the pair `(*User, error)` and the next state. -/
structure DB (σ : Type) where
  CreateUser : Context → UserRequest → σ → (Option User × Option GoError) × σ
  GetUser : Context → Nat → σ → (Option User × Option GoError) × σ
  UpdateUser : Context → UserRequest → Nat → σ → (Option User × Option GoError) × σ
  Close : σ → σ

/-- The `UserHandler` struct: `repo DB`, an interface value that may be nil. -/
structure UserHandler (σ : Type) where
  repo : Option (DB σ)

/-- How a handler call ends: it returns its pair `(response, error)`, or it
panics. -/
inductive Outcome (ρ : Type) where
  | returned (response : Option ρ) (err : Option GoError)
  | panicked
  deriving DecidableEq, Repr

/-- A handler call run to its end: the outcome, the store's state afterwards and
the effects in the order they happened. -/
structure Run (σ ρ : Type) where
  outcome : Outcome ρ
  store : σ
  trace : List Effect

/-- The store calls of a run, in order. -/
def Run.storeCalls {σ ρ : Type} (r : Run σ ρ) : List Effect :=
  r.trace.filter Effect.isStoreCall

/-! ## The handler (`handler.go`) -/

namespace UserHandler

variable {σ : Type}

/-- The method `Health`, lines 76-81. -/
def Health (_h : UserHandler σ) (_ctx : Context) (_request : HealthRequestObject) (s : σ) :
    Run σ HealthResponseObject :=
  let status := "OK"
  ⟨.returned (some (.Health200JSONResponse ⟨some status⟩)) none, s, []⟩

/-- The method `PostUser`, lines 84-108. -/
def PostUser (h : UserHandler σ) (ctx : Context) (request : PostUserRequestObject) (s : σ) :
    Run σ PostUserResponseObject :=
  match request.Body with
  | none =>
    let errorMsg := "Missing request body"
    ⟨.returned (some (.PostUser400JSONResponse ⟨some errorMsg⟩)) none, s, []⟩
  | some body =>
    match h.repo with
    | none => ⟨.panicked, s, []⟩
    | some repo =>
      match repo.CreateUser ctx body s with
      | ((user, err), s1) =>
        match err with
        | some err =>
          if errorsIs err .ErrUserAlreadyExists then
            let errorMsg := "User already exists"
            ⟨.returned (some (.PostUser409JSONResponse ⟨some errorMsg⟩)) none, s1,
              [.CreateUser ctx body]⟩
          else
            let errorMsg := err.Error
            ⟨.returned (some (.PostUser500JSONResponse ⟨some errorMsg⟩)) none, s1,
              [.CreateUser ctx body, .logPrintf ("error: " ++ err.Error)]⟩
        | none =>
          match user with
          | none => ⟨.panicked, s1, [.CreateUser ctx body]⟩
          | some user =>
            ⟨.returned (some (.PostUser201JSONResponse user)) none, s1, [.CreateUser ctx body]⟩

/-- The method `GetUser`, lines 111-128. -/
def GetUser (h : UserHandler σ) (ctx : Context) (request : GetUserRequestObject) (s : σ) :
    Run σ GetUserResponseObject :=
  match h.repo with
  | none => ⟨.panicked, s, []⟩
  | some repo =>
    match repo.GetUser ctx request.Id s with
    | ((user, err), s1) =>
      match err with
      | some err =>
        if errorsIs err .ErrNotFound then
          let errorMsg := "User not found"
          ⟨.returned (some (.GetUser404JSONResponse ⟨some errorMsg⟩)) none, s1,
            [.GetUser ctx request.Id]⟩
        else
          let errorMsg := "Internal server error"
          ⟨.returned (some (.GetUser500JSONResponse ⟨some errorMsg⟩)) none, s1,
            [.GetUser ctx request.Id]⟩
      | none =>
        match user with
        | none => ⟨.panicked, s1, [.GetUser ctx request.Id]⟩
        | some user =>
          ⟨.returned (some (.GetUser200JSONResponse user)) none, s1, [.GetUser ctx request.Id]⟩

/-- The method `PutUser`, lines 131-154. -/
def PutUser (h : UserHandler σ) (ctx : Context) (request : PutUserRequestObject) (s : σ) :
    Run σ PutUserResponseObject :=
  match request.Body with
  | none =>
    let errorMsg := "Missing request body"
    ⟨.returned (some (.PutUser400JSONResponse ⟨some errorMsg⟩)) none, s, []⟩
  | some body =>
    match h.repo with
    | none => ⟨.panicked, s, []⟩
    | some repo =>
      match repo.UpdateUser ctx body request.Id s with
      | ((user, err), s1) =>
        match err with
        | some err =>
          if errorsIs err .ErrNotFound then
            let errorMsg := "User not found"
            ⟨.returned (some (.PutUser404JSONResponse ⟨some errorMsg⟩)) none, s1,
              [.UpdateUser ctx body request.Id]⟩
          else
            let errorMsg := "Internal server error"
            ⟨.returned (some (.PutUser500JSONResponse ⟨some errorMsg⟩)) none, s1,
              [.UpdateUser ctx body request.Id]⟩
        | none =>
          match user with
          | none => ⟨.panicked, s1, [.UpdateUser ctx body request.Id]⟩
          | some user =>
            ⟨.returned (some (.PutUser200JSONResponse user)) none, s1,
              [.UpdateUser ctx body request.Id]⟩

end UserHandler

/-! ## A scripted store, as `MockUserRepository` of `handler_test.go`

Its state is the list of calls received so far; each user operation records its
call and returns the configured pair. -/

/-- The mock store: every user operation returns `(response, err)`. -/
def MockUserRepository (response : Option User) (err : Option GoError) : DB (List Effect) where
  CreateUser := fun ctx user s => ((response, err), s ++ [.CreateUser ctx user])
  GetUser := fun ctx id s => ((response, err), s ++ [.GetUser ctx id])
  UpdateUser := fun ctx u id s => ((response, err), s ++ [.UpdateUser ctx u id])
  Close := fun s => s ++ [.Close]

/-- The fixed time of the handler tests, 2020-11-10 12:00:00 UTC. -/
def fixedTime : Time := ⟨1605009600000000000⟩

/-- The user of the handler tests. -/
def johnDoe : User :=
  { Id := 1, FirstName := "John", LastName := "Doe", Email := "john.doe@example.com",
    CreatedAt := fixedTime, UpdatedAt := fixedTime }

/-- The request body of the handler tests. -/
def johnDoeRequest : UserRequest :=
  { FirstName := "John", LastName := "Doe", Email := "john.doe@example.com" }

/-- Whether a store result `(*User, error)` has a non-nil user or a non-nil
error. -/
def userOrError (o : Option User × Option GoError) : Bool :=
  o.2.isSome || o.1.isSome

/-! ## The HTTP response writer (`net/http`) and the JSON encoder -/

/-- The values of the members of the JSON objects the service writes. -/
inductive JSONValue where
  | string (s : String)
  | number (n : Nat)
  deriving DecidableEq, Repr

/-- What a `Write` on the response writer carries: a plain text, or the encoding
of a JSON object with these members, in this order, and the newline that
`json.Encoder.Encode` puts after it. -/
inductive Payload where
  | text (s : String)
  | json (members : List (String × JSONValue))
  deriving DecidableEq, Repr

/-- The calls a handler makes on its `http.ResponseWriter`. -/
inductive WriterOp where
  | HeaderSet (key value : String)
  | HeaderDel (key : String)
  | WriteHeader (statusCode : Nat)
  | Write (data : Payload)
  deriving DecidableEq, Repr

/-- An `http.ResponseWriter`, as the calls made on it so far, in order. -/
abbrev ResponseWriter := List WriterOp

/-- The status code of the response: the one of the first `WriteHeader`, or 200
when a `Write` comes first; `none` as long as neither happened. -/
def statusCode : ResponseWriter → Option Nat
  | [] => none
  | .WriteHeader c :: _ => some c
  | .Write _ :: _ => some 200
  | _ :: rest => statusCode rest

/-- The header map when the header is sent (at the first `WriteHeader` or
`Write`), starting from the map `hdr`. -/
def sentHeaders (hdr : List (String × String)) : ResponseWriter → List (String × String)
  | [] => hdr
  | .WriteHeader _ :: _ => hdr
  | .Write _ :: _ => hdr
  | .HeaderSet k v :: rest => sentHeaders ((k, v) :: hdr.filter (fun kv => kv.1 != k)) rest
  | .HeaderDel k :: rest => sentHeaders (hdr.filter (fun kv => kv.1 != k)) rest

/-- The value of a header of the response as sent. -/
def sentHeader (w : ResponseWriter) (key : String) : Option String :=
  ((sentHeaders [] w).find? (fun kv => kv.1 == key)).map Prod.snd

/-- The body of the response: what was written, in order. -/
def sentBody (w : ResponseWriter) : List Payload :=
  w.filterMap fun
    | .Write p => some p
    | _ => none

/-- The function `http.Error`: a plain-text reply with the given code. -/
def httpError (w : ResponseWriter) (error : String) (code : Nat) : ResponseWriter :=
  w ++ [.HeaderDel "Content-Length",
        .HeaderSet "Content-Type" "text/plain; charset=utf-8",
        .HeaderSet "X-Content-Type-Options" "nosniff",
        .WriteHeader code,
        .Write (.text (error ++ "\n"))]

/-- The functions of the libraries the generated code calls, as far as their
results matter here: `runtime.BindStyledParameterWithOptions` for the path
parameter `id` into a `uint`, `json.Decoder.Decode` of a request body into a
`UserRequest`, and `json.Marshal` of a `User` (its `Email` and `time.Time` members
have marshalers of their own, which can fail). -/
structure Libraries where
  BindStyledParameterWithOptions : String → Except GoError Nat
  DecodeUserRequest : String → Except GoError UserRequest
  MarshalUser : User → Except GoError (List (String × JSONValue))

/-- The JSON object of an `Error`: the member `error`, left out when the pointer
is nil (`omitempty`). -/
def Error.MarshalJSON (v : GoUsers.Error) : List (String × JSONValue) :=
  match v.Error with
  | some s => [("error", .string s)]
  | none => []

/-- The JSON object of a `Health`: the member `status`, left out when the pointer
is nil (`omitempty`). -/
def Health.MarshalJSON (v : Health) : List (String × JSONValue) :=
  match v.Status with
  | some s => [("status", .string s)]
  | none => []

/-- The call `json.NewEncoder(w).Encode(v)`, given the result of marshaling `v`:
it writes the object, or returns the marshaling error and writes nothing. -/
def Encode (v : Except GoError (List (String × JSONValue))) (w : ResponseWriter) :
    ResponseWriter × Option GoError :=
  match v with
  | .ok members => (w ++ [.Write (.json members)], none)
  | .error err => (w, some err)

/-- The body of every `Visit…Response` method of `api.gen.go`: set the content
type, write the status code, encode the response. -/
def visitJSON (code : Nat) (v : Except GoError (List (String × JSONValue)))
    (w : ResponseWriter) : ResponseWriter × Option GoError :=
  Encode v (w ++ [.HeaderSet "Content-Type" "application/json", .WriteHeader code])

def Health200JSONResponse.VisitHealthResponse (response : Health) (w : ResponseWriter) :=
  visitJSON 200 (.ok response.MarshalJSON) w

def Health500JSONResponse.VisitHealthResponse (response : Error) (w : ResponseWriter) :=
  visitJSON 500 (.ok response.MarshalJSON) w

def HealthdefaultJSONResponse.VisitHealthResponse (Body : Error) (StatusCode : Int)
    (w : ResponseWriter) :=
  visitJSON StatusCode.toNat (.ok Body.MarshalJSON) w

def PostUser201JSONResponse.VisitPostUserResponse (lib : Libraries) (response : User)
    (w : ResponseWriter) :=
  visitJSON 201 (lib.MarshalUser response) w

def PostUser400JSONResponse.VisitPostUserResponse (response : Error) (w : ResponseWriter) :=
  visitJSON 400 (.ok response.MarshalJSON) w

def PostUser409JSONResponse.VisitPostUserResponse (response : Error) (w : ResponseWriter) :=
  visitJSON 409 (.ok response.MarshalJSON) w

def PostUser500JSONResponse.VisitPostUserResponse (response : Error) (w : ResponseWriter) :=
  visitJSON 500 (.ok response.MarshalJSON) w

def GetUser200JSONResponse.VisitGetUserResponse (lib : Libraries) (response : User)
    (w : ResponseWriter) :=
  visitJSON 200 (lib.MarshalUser response) w

def GetUser404JSONResponse.VisitGetUserResponse (response : Error) (w : ResponseWriter) :=
  visitJSON 404 (.ok response.MarshalJSON) w

def GetUser500JSONResponse.VisitGetUserResponse (response : Error) (w : ResponseWriter) :=
  visitJSON 500 (.ok response.MarshalJSON) w

def PutUser200JSONResponse.VisitPutUserResponse (lib : Libraries) (response : User)
    (w : ResponseWriter) :=
  visitJSON 200 (lib.MarshalUser response) w

def PutUser400JSONResponse.VisitPutUserResponse (response : Error) (w : ResponseWriter) :=
  visitJSON 400 (.ok response.MarshalJSON) w

def PutUser404JSONResponse.VisitPutUserResponse (response : Error) (w : ResponseWriter) :=
  visitJSON 404 (.ok response.MarshalJSON) w

def PutUser500JSONResponse.VisitPutUserResponse (response : Error) (w : ResponseWriter) :=
  visitJSON 500 (.ok response.MarshalJSON) w

/-- The method `VisitHealthResponse` of the interface `HealthResponseObject`. -/
def HealthResponseObject.VisitHealthResponse (response : HealthResponseObject)
    (w : ResponseWriter) : ResponseWriter × Option GoError :=
  match response with
  | .Health200JSONResponse r => Health200JSONResponse.VisitHealthResponse r w
  | .Health500JSONResponse r => Health500JSONResponse.VisitHealthResponse r w
  | .HealthdefaultJSONResponse b c => HealthdefaultJSONResponse.VisitHealthResponse b c w

/-- The method `VisitPostUserResponse` of the interface `PostUserResponseObject`. -/
def PostUserResponseObject.VisitPostUserResponse (lib : Libraries)
    (response : PostUserResponseObject) (w : ResponseWriter) :
    ResponseWriter × Option GoError :=
  match response with
  | .PostUser201JSONResponse r => PostUser201JSONResponse.VisitPostUserResponse lib r w
  | .PostUser400JSONResponse r => PostUser400JSONResponse.VisitPostUserResponse r w
  | .PostUser409JSONResponse r => PostUser409JSONResponse.VisitPostUserResponse r w
  | .PostUser500JSONResponse r => PostUser500JSONResponse.VisitPostUserResponse r w

/-- The method `VisitGetUserResponse` of the interface `GetUserResponseObject`. -/
def GetUserResponseObject.VisitGetUserResponse (lib : Libraries)
    (response : GetUserResponseObject) (w : ResponseWriter) :
    ResponseWriter × Option GoError :=
  match response with
  | .GetUser200JSONResponse r => GetUser200JSONResponse.VisitGetUserResponse lib r w
  | .GetUser404JSONResponse r => GetUser404JSONResponse.VisitGetUserResponse r w
  | .GetUser500JSONResponse r => GetUser500JSONResponse.VisitGetUserResponse r w

/-- The method `VisitPutUserResponse` of the interface `PutUserResponseObject`. -/
def PutUserResponseObject.VisitPutUserResponse (lib : Libraries)
    (response : PutUserResponseObject) (w : ResponseWriter) :
    ResponseWriter × Option GoError :=
  match response with
  | .PutUser200JSONResponse r => PutUser200JSONResponse.VisitPutUserResponse lib r w
  | .PutUser400JSONResponse r => PutUser400JSONResponse.VisitPutUserResponse r w
  | .PutUser404JSONResponse r => PutUser404JSONResponse.VisitPutUserResponse r w
  | .PutUser500JSONResponse r => PutUser500JSONResponse.VisitPutUserResponse r w

/-! ## The generated HTTP wrappers (`api.gen.go`) and their wiring (`NewHandler`) -/

/-- An `*http.Request`, as far as the wrappers read it: its context, the value of
the path parameter `id` (`chi.URLParam(r, "id")`) and the bytes of its body. -/
structure Request where
  ctx : Context
  id : String
  Body : String
  deriving DecidableEq, Repr

/-- What happens while a request is served, besides the calls on the response
writer: a method of the `StrictServerInterface` is invoked, the user handler has
an effect (a store call, a `log.Printf` line), the logger is given an error. -/
inductive Event where
  | invoke (operation : String)
  | effect (e : Effect)
  | loggerError (msg : String) (err : GoError)
  deriving DecidableEq, Repr

/-- The state of serving one request: the response writer, the store, the events
so far, and whether the goroutine has panicked. -/
structure Exchange (σ : Type) where
  w : ResponseWriter
  store : σ
  events : List Event
  panicked : Bool

/-- The type `func(w http.ResponseWriter, r *http.Request, err error)`. -/
abbrev ErrorHandlerFunc (σ : Type) := Request → GoError → Exchange σ → Exchange σ

/-- An `http.Handler`. -/
abbrev HTTPHandler (σ : Type) := Exchange σ → Request → Exchange σ

/-- The type `MiddlewareFunc`. -/
abbrev MiddlewareFunc (σ : Type) := HTTPHandler σ → HTTPHandler σ

/-- The interface `StrictServerInterface`. -/
structure StrictServerInterface (σ : Type) where
  Health : Context → HealthRequestObject → σ → Run σ HealthResponseObject
  PostUser : Context → PostUserRequestObject → σ → Run σ PostUserResponseObject
  GetUser : Context → GetUserRequestObject → σ → Run σ GetUserResponseObject
  PutUser : Context → PutUserRequestObject → σ → Run σ PutUserResponseObject

/-- The `UserHandler` as a `StrictServerInterface` (line 28 of `handler.go`). -/
def UserHandler.toStrictServerInterface {σ : Type} (h : UserHandler σ) :
    StrictServerInterface σ :=
  { Health := h.Health, PostUser := h.PostUser, GetUser := h.GetUser, PutUser := h.PutUser }

/-- The interface `ServerInterface`. -/
structure ServerInterface (σ : Type) where
  Health : HTTPHandler σ
  PostUser : HTTPHandler σ
  GetUser : Exchange σ → Request → Nat → Exchange σ
  PutUser : Exchange σ → Request → Nat → Exchange σ

structure StrictHTTPServerOptions (σ : Type) where
  RequestErrorHandlerFunc : ErrorHandlerFunc σ
  ResponseErrorHandlerFunc : ErrorHandlerFunc σ

/-- The struct `strictHandler`. Its `middlewares` are nil in this program
(`NewHandler` passes nil), so the loops over them do nothing and every handler
function is the call of the `ssi` method itself. -/
structure strictHandler (σ : Type) where
  ssi : StrictServerInterface σ
  options : StrictHTTPServerOptions σ

/-- The function `NewStrictHandlerWithOptions`, with nil middlewares. -/
def NewStrictHandlerWithOptions {σ : Type} (ssi : StrictServerInterface σ)
    (options : StrictHTTPServerOptions σ) : strictHandler σ :=
  { ssi := ssi, options := options }

namespace strictHandler

variable {σ : Type}

/-- The end of every method of `strictHandler`: given how the `ssi` method ended,
answer through the response error handler, or visit the response, or (nil
response, nil error) write nothing. -/
def respond {ρ : Type} (sh : strictHandler σ) (r : Request) (operation : String)
    (visit : ρ → ResponseWriter → ResponseWriter × Option GoError) (x : Exchange σ)
    (run : Run σ ρ) : Exchange σ :=
  let x1 : Exchange σ :=
    { x with store := run.store,
             events := x.events ++ Event.invoke operation :: run.trace.map Event.effect }
  match run.outcome with
  | .panicked => { x1 with panicked := true }
  | .returned response err =>
    match err with
    | some err => sh.options.ResponseErrorHandlerFunc r err x1
    | none =>
      match response with
      | some validResponse =>
        match visit validResponse x1.w with
        | (w1, some err) => sh.options.ResponseErrorHandlerFunc r err { x1 with w := w1 }
        | (w1, none) => { x1 with w := w1 }
      | none => x1

/-- The method `Health`, lines 544-565. -/
def Health (sh : strictHandler σ) (x : Exchange σ) (r : Request) : Exchange σ :=
  let request : HealthRequestObject := {}
  sh.respond r "Health" HealthResponseObject.VisitHealthResponse x
    (sh.ssi.Health r.ctx request x.store)

/-- The method `PostUser`, lines 568-596. -/
def PostUser (lib : Libraries) (sh : strictHandler σ) (x : Exchange σ) (r : Request) :
    Exchange σ :=
  match lib.DecodeUserRequest r.Body with
  | .error err =>
    sh.options.RequestErrorHandlerFunc r
      (.wrapError ("can't decode JSON body: " ++ err.Error) err) x
  | .ok body =>
    let request : PostUserRequestObject := { Body := some body }
    sh.respond r "PostUser" (PostUserResponseObject.VisitPostUserResponse lib) x
      (sh.ssi.PostUser r.ctx request x.store)

/-- The method `GetUser`, lines 599-622. -/
def GetUser (lib : Libraries) (sh : strictHandler σ) (x : Exchange σ) (r : Request)
    (id : Nat) : Exchange σ :=
  let request : GetUserRequestObject := { Id := id }
  sh.respond r "GetUser" (GetUserResponseObject.VisitGetUserResponse lib) x
    (sh.ssi.GetUser r.ctx request x.store)

/-- The method `PutUser`, lines 625-655. -/
def PutUser (lib : Libraries) (sh : strictHandler σ) (x : Exchange σ) (r : Request)
    (id : Nat) : Exchange σ :=
  match lib.DecodeUserRequest r.Body with
  | .error err =>
    sh.options.RequestErrorHandlerFunc r
      (.wrapError ("can't decode JSON body: " ++ err.Error) err) x
  | .ok body =>
    let request : PutUserRequestObject := { Id := id, Body := some body }
    sh.respond r "PutUser" (PutUserResponseObject.VisitPutUserResponse lib) x
      (sh.ssi.PutUser r.ctx request x.store)

/-- The `strictHandler` as a `ServerInterface`. -/
def toServerInterface (lib : Libraries) (sh : strictHandler σ) : ServerInterface σ :=
  { Health := sh.Health, PostUser := sh.PostUser lib, GetUser := sh.GetUser lib,
    PutUser := sh.PutUser lib }

end strictHandler

/-- The error type `InvalidParamFormatError`: its text and what it unwraps to. -/
def InvalidParamFormatError (ParamName : String) (Err : GoError) : GoError :=
  .wrapError ("Invalid format for parameter " ++ ParamName ++ ": " ++ Err.Error) Err

/-- The struct `ServerInterfaceWrapper`. -/
structure ServerInterfaceWrapper (σ : Type) where
  Handler : ServerInterface σ
  HandlerMiddlewares : List (MiddlewareFunc σ)
  ErrorHandlerFunc : ErrorHandlerFunc σ

namespace ServerInterfaceWrapper

variable {σ : Type}

/-- The loop `for _, middleware := range siw.HandlerMiddlewares`. -/
def wrap (siw : ServerInterfaceWrapper σ) (handler : HTTPHandler σ) : HTTPHandler σ :=
  siw.HandlerMiddlewares.foldl (fun handler middleware => middleware handler) handler

/-- The method `Health`, lines 131-142. -/
def Health (siw : ServerInterfaceWrapper σ) (x : Exchange σ) (r : Request) : Exchange σ :=
  siw.wrap (fun x r => siw.Handler.Health x r) x r

/-- The method `PostUser`, lines 145-156. -/
def PostUser (siw : ServerInterfaceWrapper σ) (x : Exchange σ) (r : Request) : Exchange σ :=
  siw.wrap (fun x r => siw.Handler.PostUser x r) x r

/-- The method `GetUser`, lines 159-181. -/
def GetUser (lib : Libraries) (siw : ServerInterfaceWrapper σ) (x : Exchange σ)
    (r : Request) : Exchange σ :=
  match lib.BindStyledParameterWithOptions r.id with
  | .error err => siw.ErrorHandlerFunc r (InvalidParamFormatError "id" err) x
  | .ok id => siw.wrap (fun x r => siw.Handler.GetUser x r id) x r

/-- The method `PutUser`, lines 184-206. -/
def PutUser (lib : Libraries) (siw : ServerInterfaceWrapper σ) (x : Exchange σ)
    (r : Request) : Exchange σ :=
  match lib.BindStyledParameterWithOptions r.id with
  | .error err => siw.ErrorHandlerFunc r (InvalidParamFormatError "id" err) x
  | .ok id => siw.wrap (fun x r => siw.Handler.PutUser x r id) x r

end ServerInterfaceWrapper

/-- The struct `ChiServerOptions`, but for the router; a nil `ErrorHandlerFunc` is
`none`. -/
structure ChiServerOptions (σ : Type) where
  BaseURL : String
  Middlewares : List (MiddlewareFunc σ)
  ErrorHandlerFunc : Option (ErrorHandlerFunc σ)

/-- The function `HandlerWithOptions`, lines 304-337: the wrapper whose four
methods it registers on the router, with `http.Error(w, err.Error(), 400)` as the
error handler when the options have none. -/
def HandlerWithOptions {σ : Type} (si : ServerInterface σ) (options : ChiServerOptions σ) :
    ServerInterfaceWrapper σ :=
  { Handler := si
    HandlerMiddlewares := options.Middlewares
    ErrorHandlerFunc :=
      match options.ErrorHandlerFunc with
      | some f => f
      | none => fun _r err x => { x with w := httpError x.w err.Error 400 } }

/-- The function `HandlerFromMux`. -/
def HandlerFromMux {σ : Type} (si : ServerInterface σ) : ServerInterfaceWrapper σ :=
  HandlerWithOptions si { BaseURL := "", Middlewares := [], ErrorHandlerFunc := none }

/-- A `*slog.Logger`. -/
structure Logger where
  deriving DecidableEq, Repr

namespace NewHandler

variable {σ : Type}

/-- The `RequestErrorHandlerFunc` of `NewHandler`, lines 60-63; `logger.Error` on
a nil logger panics. -/
def RequestErrorHandlerFunc (logger : Option Logger) : ErrorHandlerFunc σ :=
  fun _r err x =>
    match logger with
    | none => { x with panicked := true }
    | some _ =>
      { x with events := x.events ++ [.loggerError "request validation error" err],
               w := httpError x.w "Invalid request" 400 }

/-- The `ResponseErrorHandlerFunc` of `NewHandler`, lines 64-67. -/
def ResponseErrorHandlerFunc (logger : Option Logger) : ErrorHandlerFunc σ :=
  fun _r err x =>
    match logger with
    | none => { x with panicked := true }
    | some _ =>
      { x with events := x.events ++ [.loggerError "response processing error" err],
               w := httpError x.w "Internal server error" 500 }

/-- The strict handler `ownStrictHandler` of `NewHandler`, lines 54-68. -/
def ownStrictHandler (logger : Option Logger) (repo : Option (DB σ)) : strictHandler σ :=
  let handler : UserHandler σ := { repo := repo }
  NewStrictHandlerWithOptions handler.toStrictServerInterface
    { RequestErrorHandlerFunc := RequestErrorHandlerFunc logger,
      ResponseErrorHandlerFunc := ResponseErrorHandlerFunc logger }

/-- The API routes `NewHandler` mounts under the API path (lines 58-70): the
wrapper `HandlerFromMux(ownStrictHandler, r)`. -/
def Route (lib : Libraries) (logger : Option Logger) (repo : Option (DB σ)) :
    ServerInterfaceWrapper σ :=
  HandlerFromMux ((ownStrictHandler logger repo).toServerInterface lib)

end NewHandler

/-- Stand-ins for the libraries at the inputs of the examples: an empty body does
not decode (`io.EOF`) and any other body decodes to the request of the tests; the
only path parameter that binds is "1"; a user marshals to its six members, its
times as their nanoseconds. -/
def testLibraries : Libraries where
  BindStyledParameterWithOptions := fun v =>
    if v = "1" then .ok 1
    else .error (.errorString ("strconv.ParseUint: parsing " ++ v ++ ": invalid syntax"))
  DecodeUserRequest := fun body =>
    if body = "" then .error (.errorString "EOF") else .ok johnDoeRequest
  MarshalUser := fun u =>
    .ok [("created_at", .number u.CreatedAt.nanos.toNat), ("email", .string u.Email),
      ("first_name", .string u.FirstName), ("id", .number u.Id),
      ("last_name", .string u.LastName), ("updated_at", .number u.UpdatedAt.nanos.toNat)]

/-- The API routes of the examples: the test libraries, a logger, and the mock
store that returns the user of the tests. -/
def testRoute : ServerInterfaceWrapper (List Effect) :=
  NewHandler.Route testLibraries (some {}) (some (MockUserRepository (some johnDoe) none))

/-- The exchange of the examples before the request is served. -/
def freshExchange : Exchange (List Effect) :=
  { w := [], store := [], events := [], panicked := false }

/-! ## The store client (`database/database.go`) -/

/-- The struct `pgconn.PgError`, as far as the client reads it. -/
structure PgError where
  Severity : String
  Code : String
  Message : String
  deriving DecidableEq, Repr

/-- The call `errors.As(err, &pgErr)` for `pgErr` of type `*pgconn.PgError`: the
first error of the chain of `err` that is a `*pgconn.PgError`, when there is one. -/
def errorsAsPgError : GoError → Option PgError
  | .PgError Severity Code Message => some ⟨Severity, Code, Message⟩
  | .wrapError _ err => errorsAsPgError err
  | _ => none

/-- The function `isDuplicateKeyError`, lines 94-101. -/
def isDuplicateKeyError (err : GoError) : Bool :=
  match errorsAsPgError err with
  | none => false
  | some pgErr => pgErr.Code == "23505"

/-- The values the client passes as the `args ...any` of a query. -/
inductive Arg where
  | string (s : String)
  | Email (e : Email)
  | uint (n : Nat)
  deriving DecidableEq, Repr

/-- A `pgx.Row`, by what its `Scan` into the six destinations of the client does:
it returns an error, or it returns nil and the destinations hold six values, of
the types of the destinations, in the order of the destinations. -/
inductive Row where
  | scanError (err : GoError)
  | columns (c0 : Nat) (c1 c2 : String) (c3 : Email) (c4 c5 : Time)
  deriving DecidableEq, Repr

/-- The interface `ConnPool`, over a pool (and the database behind it) with states
`π`. -/
structure ConnPool (π : Type) where
  QueryRow : Context → String → List Arg → π → Row × π
  Close : π → π

/-- A call of `QueryRow`: its context, statement and arguments. -/
structure Query where
  ctx : Context
  sql : String
  args : List Arg
  deriving DecidableEq, Repr

/-- The struct `db`. Its `pool` is not nil: `New` sets it to the pool it made, the
tests to their mock. -/
structure db (π : Type) where
  pool : ConnPool π

/-- A call of a method of `db` run to its end: the pair `(*User, error)` it
returns, the state of the pool afterwards and the queries it issued, in order. -/
structure StoreRun (π : Type) where
  user : Option User
  err : Option GoError
  pool : π
  queries : List Query

namespace db

variable {π : Type}

/-- The statement of `CreateUser`. -/
def insertQuery : String :=
  "INSERT INTO users (first_name, last_name, email) VALUES ($1, $2, $3) RETURNING id, first_name, last_name, email, created_at, updated_at"

/-- The statement of `GetUser`. -/
def selectQuery : String :=
  "SELECT id, first_name, last_name, email, created_at, updated_at FROM users WHERE id = $1"

/-- The statement of `UpdateUser`. -/
def updateQuery : String :=
  "UPDATE users SET first_name = $1, last_name = $2, email = $3 WHERE id = $4 RETURNING id, first_name, last_name, email, created_at, updated_at"

/-- The method `Close`, lines 58-62. -/
def Close (d : db π) (p : π) : π :=
  d.pool.Close p

/-- The method `CreateUser`, lines 65-92. -/
def CreateUser (d : db π) (ctx : Context) (u : UserRequest) (p : π) : StoreRun π :=
  let query := insertQuery
  let args := [Arg.string u.FirstName, Arg.string u.LastName, Arg.Email u.Email]
  match d.pool.QueryRow ctx query args p with
  | (.scanError err, p1) =>
    if isDuplicateKeyError err then
      ⟨none, some .ErrUserAlreadyExists, p1, [⟨ctx, query, args⟩]⟩
    else
      ⟨none, some (.wrapError ("failed to create user: " ++ err.Error) err), p1,
        [⟨ctx, query, args⟩]⟩
  | (.columns c0 c1 c2 c3 c4 c5, p1) =>
    let user : User :=
      { Id := c0, FirstName := c1, LastName := c2, Email := c3, CreatedAt := c4,
        UpdatedAt := c5 }
    ⟨some user, none, p1, [⟨ctx, query, args⟩]⟩

/-- The method `GetUser`, lines 104-125. -/
def GetUser (d : db π) (ctx : Context) (id : Nat) (p : π) : StoreRun π :=
  let query := selectQuery
  let args := [Arg.uint id]
  match d.pool.QueryRow ctx query args p with
  | (.scanError err, p1) =>
    if errorsIs err .sqlErrNoRows then
      ⟨none, some .ErrNotFound, p1, [⟨ctx, query, args⟩]⟩
    else
      ⟨none, some (.wrapError ("failed to get user: " ++ err.Error) err), p1,
        [⟨ctx, query, args⟩]⟩
  | (.columns c0 c1 c2 c3 c4 c5, p1) =>
    let user : User :=
      { Id := c0, FirstName := c1, LastName := c2, Email := c3, CreatedAt := c4,
        UpdatedAt := c5 }
    ⟨some user, none, p1, [⟨ctx, query, args⟩]⟩

/-- The method `UpdateUser`, lines 129-155. -/
def UpdateUser (d : db π) (ctx : Context) (u : UserRequest) (id : Nat) (p : π) :
    StoreRun π :=
  let query := updateQuery
  let args := [Arg.string u.FirstName, Arg.string u.LastName, Arg.Email u.Email, Arg.uint id]
  match d.pool.QueryRow ctx query args p with
  | (.scanError err, p1) =>
    if errorsIs err .sqlErrNoRows then
      ⟨none, some .ErrNotFound, p1, [⟨ctx, query, args⟩]⟩
    else
      ⟨none, some (.wrapError ("failed to update user: " ++ err.Error) err), p1,
        [⟨ctx, query, args⟩]⟩
  | (.columns c0 c1 c2 c3 c4 c5, p1) =>
    let user : User :=
      { Id := c0, FirstName := c1, LastName := c2, Email := c3, CreatedAt := c4,
        UpdatedAt := c5 }
    ⟨some user, none, p1, [⟨ctx, query, args⟩]⟩

/-- The `db` as the `DB` of the handler. -/
def toDB (d : db π) : DB π where
  CreateUser := fun ctx u p => (((d.CreateUser ctx u p).user, (d.CreateUser ctx u p).err),
    (d.CreateUser ctx u p).pool)
  GetUser := fun ctx id p => (((d.GetUser ctx id p).user, (d.GetUser ctx id p).err),
    (d.GetUser ctx id p).pool)
  UpdateUser := fun ctx u id p =>
    (((d.UpdateUser ctx u id p).user, (d.UpdateUser ctx u id p).err),
      (d.UpdateUser ctx u id p).pool)
  Close := d.Close

end db

/-- The pool of `database_test.go`: `QueryRow` records the call and returns the
configured row. Its state is the list of the calls received. -/
def MockPool (row : Row) : ConnPool (List Query) where
  QueryRow := fun ctx sql args p => (row, p ++ [⟨ctx, sql, args⟩])
  Close := fun p => p

/-! ## The `users` table behind the pool -/

/-- Modelled from the spec: the `users` table, whose schema and database are not
among the sources. It holds the rows in the order of their creation, the next
value of the sequence that assigns ids (an id is store-assigned, unique and never
reused), and the clock of the database. The UPDATE statement of the client assigns
only first_name, last_name and email, and scans `updated_at` back from the row:
the spec says the updated timestamp is refreshed on every update, so the table
sets it itself, to its clock, whenever a row is updated. -/
structure UsersTable where
  rows : List User
  nextId : Nat
  now : Time
  deriving DecidableEq, Repr

namespace UsersTable

/-- The PostgreSQL error of a violated unique constraint. -/
def uniqueViolation : GoError :=
  .PgError "ERROR" "23505" "duplicate key value violates unique constraint"

/-- Modelled from the spec: the INSERT of the client on the table. The email is
unique across all users, and violating this on creation is the unique-violation
error; otherwise the store assigns the id, and the created and updated
timestamps of the new row are equal (the clock). -/
def insert (first last : String) (email : Email) (t : UsersTable) : Row × UsersTable :=
  if t.rows.any (fun r => r.Email == email) then
    (.scanError uniqueViolation, t)
  else
    (.columns t.nextId first last email t.now t.now,
      { t with
        rows := t.rows ++ [{ Id := t.nextId, FirstName := first, LastName := last,
                             Email := email, CreatedAt := t.now, UpdatedAt := t.now }],
        nextId := t.nextId + 1 })

/-- Modelled from the spec: the SELECT of the client on the table. An id with no
corresponding row is the no-rows error. -/
def select (id : Nat) (t : UsersTable) : Row × UsersTable :=
  match t.rows.find? (fun r => r.Id == id) with
  | none => (.scanError .sqlErrNoRows, t)
  | some r => (.columns r.Id r.FirstName r.LastName r.Email r.CreatedAt r.UpdatedAt, t)

/-- Modelled from the spec: the row after an update. The columns the UPDATE
assigns are replaced and the updated timestamp is refreshed, to the clock of the
table; the id and the created timestamp are preserved. -/
def assign (first last : String) (email : Email) (t : UsersTable) (r : User) : User :=
  { r with FirstName := first, LastName := last, Email := email, UpdatedAt := t.now }

/-- Modelled from the spec: the UPDATE of the client on the table. An id with no
corresponding row is the no-rows error; the email stays unique across all users;
otherwise first name, last name and email of the row are replaced, its updated
timestamp is refreshed, its id and created timestamp are preserved. -/
def update (first last : String) (email : Email) (id : Nat) (t : UsersTable) :
    Row × UsersTable :=
  match t.rows.find? (fun r => r.Id == id) with
  | none => (.scanError .sqlErrNoRows, t)
  | some r =>
    if t.rows.any (fun r => r.Id != id && r.Email == email) then
      (.scanError uniqueViolation, t)
    else
      let rows := t.rows.map (fun r => if r.Id == id then assign first last email t r else r)
      (.columns r.Id first last email r.CreatedAt (assign first last email t r).UpdatedAt,
        { t with rows := rows })

/-- Modelled from the spec: `QueryRow` of a pool connected to the table, for the
three statements of the client with the arguments the client gives them. -/
def QueryRow (_ctx : Context) (sql : String) (args : List Arg) (t : UsersTable) :
    Row × UsersTable :=
  match args with
  | [.string first, .string last, .Email email] =>
    if sql = db.insertQuery then insert first last email t
    else (.scanError (.errorString "unexpected statement"), t)
  | [.uint id] =>
    if sql = db.selectQuery then select id t
    else (.scanError (.errorString "unexpected statement"), t)
  | [.string first, .string last, .Email email, .uint id] =>
    if sql = db.updateQuery then update first last email id t
    else (.scanError (.errorString "unexpected statement"), t)
  | _ => (.scanError (.errorString "unexpected arguments"), t)

/-- The pool connected to the table. -/
def pool : ConnPool UsersTable where
  QueryRow := QueryRow
  Close := fun t => t

/-- The table after the clock has advanced by `d` nanoseconds. -/
def tick (d : Nat) (t : UsersTable) : UsersTable :=
  { t with now := ⟨t.now.nanos + d⟩ }

/-- The ids of the rows come from the sequence, and no row was updated after the
clock's present. -/
def wellFormed (t : UsersTable) : Bool :=
  t.rows.all (fun r => decide (r.Id < t.nextId) && decide (r.UpdatedAt.nanos ≤ t.now.nanos))

end UsersTable

/-- The store client on the table. -/
def tableStore : db UsersTable :=
  { pool := UsersTable.pool }

/-- The table of the examples: the user of the tests, created one hour before the
clock's present. -/
def exampleTable : UsersTable :=
  { rows := [johnDoe], nextId := 2, now := ⟨fixedTime.nanos + 3600000000000⟩ }

/-- The request of the update tests. -/
def johnUpdatedRequest : UserRequest :=
  { FirstName := "John", LastName := "Doe Updated", Email := "john.updated@example.com" }

/-! ## The configuration (`config/config.go`) -/

namespace slog

/-- The type `slog.Level`. -/
abbrev Level := Int

def LevelDebug : Level := -4

def LevelInfo : Level := 0

end slog

namespace config

def defaultHTTPPort : Int := 8080

def defaultSwaggerUI : String := "/swagger"

structure App where
  Mode : String
  Debug : Bool
  SwaggerUI : String
  deriving DecidableEq, Repr

structure HTTP where
  Port : Int
  Host : String
  ReadTimeout : Int
  WriteTimeout : Int
  IdleTimeout : Int
  deriving DecidableEq, Repr

structure Log where
  Level : slog.Level
  Format : String
  Output : String
  deriving DecidableEq, Repr

structure OpenAPI where
  SpecPath : String
  APIPrefix : String
  deriving DecidableEq, Repr

structure Database where
  Host : String
  Port : Int
  User : String
  Password : String
  Name : String
  SSLMode : String
  MaxConnections : Int
  deriving DecidableEq, Repr

structure Config where
  App : App
  HTTP : HTTP
  Log : Log
  OpenAPI : OpenAPI
  Database : Database
  deriving DecidableEq, Repr

/-- The value `Config{}`. -/
def zero : Config :=
  { App := { Mode := "", Debug := false, SwaggerUI := "" }
    HTTP := { Port := 0, Host := "", ReadTimeout := 0, WriteTimeout := 0, IdleTimeout := 0 }
    Log := { Level := 0, Format := "", Output := "" }
    OpenAPI := { SpecPath := "", APIPrefix := "" }
    Database := { Host := "", Port := 0, User := "", Password := "", Name := "", SSLMode := "",
                  MaxConnections := 0 } }

/-- The function `setMode`, lines 79-103. -/
def setMode (cfg : Config) : Config :=
  if cfg.App.Mode = "dev" then
    { cfg with
      App := { cfg.App with Debug := true, SwaggerUI := defaultSwaggerUI }
      Log := { cfg.Log with Level := slog.LevelDebug, Format := "json" }
      Database := { cfg.Database with SSLMode := "disable" }
      HTTP := { cfg.HTTP with Port := defaultHTTPPort } }
  else if cfg.App.Mode = "test" then
    { cfg with
      App := { cfg.App with Debug := true, SwaggerUI := "" }
      Log := { cfg.Log with Level := slog.LevelDebug, Format := "text" }
      Database := { cfg.Database with SSLMode := "disable" }
      HTTP := { cfg.HTTP with Port := defaultHTTPPort } }
  else if cfg.App.Mode = "prod" then
    { cfg with
      App := { cfg.App with Debug := false, SwaggerUI := "" }
      Log := { cfg.Log with Level := slog.LevelInfo, Format := "json" }
      Database := { cfg.Database with SSLMode := "require" }
      HTTP := { cfg.HTTP with Port := defaultHTTPPort } }
  else cfg

/-- The function `New`, lines 66-76. The call `cleanenv.ReadEnv(cfg)` of the
library is the parameter `ReadEnv`: given the environment of the process and the
zero `Config`, the `Config` it has read from the environment (and the declared
defaults), or its error. -/
def New {ε : Type} (ReadEnv : ε → Config → Except GoError Config) (env : ε) :
    Option Config × Option GoError :=
  match ReadEnv env zero with
  | .error err => (none, some (.wrapError ("failed to read config: " ++ err.Error) err))
  | .ok cfg => (some (setMode cfg), none)

/-- What the library reads from an environment that sets HTTP_PORT=9090,
LOG_LEVEL=debug, LOG_FORMAT=text and DB_SSL_MODE=disable and leaves the other
variables to their declared defaults (APP_MODE is "prod" by default). -/
def exampleRead : Config :=
  { App := { Mode := "prod", Debug := false, SwaggerUI := "" }
    HTTP := { Port := 9090, Host := "0.0.0.0", ReadTimeout := 5, WriteTimeout := 10,
              IdleTimeout := 120 }
    Log := { Level := slog.LevelDebug, Format := "text", Output := "" }
    OpenAPI := { SpecPath := "openapi/openapi.yaml", APIPrefix := "/api/v1" }
    Database := { Host := "localhost", Port := 5432, User := "postgres",
                  Password := "postgres", Name := "users", SSLMode := "disable",
                  MaxConnections := 10 } }

end config

/-! ## The OpenAPI document route (`swagger.go`) and `NewHandler` (`handler.go`) -/

/-- The functions of the packages `os` and `path/filepath` that package `api`
calls, in the state the file system is in: the result of `os.Executable()`, the
error of `os.Stat(name)` (nil when the file is there), `os.IsNotExist`, the result
of `os.ReadFile(name)`, `filepath.Dir` and `filepath.Join`. -/
structure OS where
  Executable : Except GoError String
  Stat : String → Option GoError
  IsNotExist : GoError → Bool
  ReadFile : String → Except GoError String
  Dir : String → String
  Join : String → String → String

/-- The package-level variables of package `api`. -/
structure Package where
  OpenAPISpecPath : String
  deriving DecidableEq, Repr

/-- The variables as the package initializes them. -/
def Package.init : Package :=
  { OpenAPISpecPath := "openapi/openapi.yaml" }

/-- The function `SetOpenAPISpecPath`. -/
def SetOpenAPISpecPath (path : String) (g : Package) : Package :=
  { g with OpenAPISpecPath := path }

/-- The function `GetOpenAPISpec`, lines 22-31 of `swagger.go`. -/
def GetOpenAPISpec (os : OS) (g : Package) (w : ResponseWriter) : ResponseWriter :=
  match os.ReadFile g.OpenAPISpecPath with
  | .error _ => httpError w "Failed to read OpenAPI specification" 500
  | .ok spec => w ++ [.HeaderSet "Content-Type" "application/yaml", .Write (.text spec)]

/-- The router `NewHandler` returns, by its routes: GET /swagger/doc.yaml (the
handler function, which gets the variables of the package as they are when the
request is served), and the API routes mounted under the API prefix. The route
/swagger/* serves the Swagger UI of a library. -/
structure Router (σ : Type) where
  swaggerDoc : OS → Package → ResponseWriter → ResponseWriter
  APIPrefix : String
  api : ServerInterfaceWrapper σ

/-- The router library: whether `r.Route(pattern, …)` accepts the pattern and
returns (it panics on a pattern it rejects). -/
structure Chi where
  Route : String → Bool

/-- The function `NewHandler`, lines 36-73: the pair `(http.Handler, error)` it
returns, or a panic, and the variables of the package afterwards. -/
def NewHandler {σ : Type} (os : OS) (chi : Chi) (lib : Libraries)
    (openAPICfg : config.OpenAPI) (logger : Option Logger) (repo : Option (DB σ))
    (g : Package) : Outcome (Router σ) × Package :=
  let specPath : Except GoError String :=
    if openAPICfg.SpecPath = "" then
      match os.Executable with
      | .error err => .error (.wrapError ("failed to get executable path: " ++ err.Error) err)
      | .ok execPath => .ok (os.Join (os.Dir execPath) g.OpenAPISpecPath)
    else .ok openAPICfg.SpecPath
  match specPath with
  | .error err => (.returned none (some err), g)
  | .ok specPath =>
    let notFound : Bool :=
      match os.Stat specPath with
      | some err => os.IsNotExist err
      | none => false
    if notFound then
      (.returned none
        (some (.errorString ("OpenAPI specification file not found at " ++ specPath))), g)
    else if chi.Route openAPICfg.APIPrefix then
      (.returned (some { swaggerDoc := GetOpenAPISpec, APIPrefix := openAPICfg.APIPrefix,
                         api := NewHandler.Route lib logger repo }) none, g)
    else (.panicked, g)

/-- The file system of the examples: the document of the tests is at
"/tmp/openapi.yaml" and nowhere else, the executable is "/srv/app". -/
def exampleOS : OS where
  Executable := .ok "/srv/app"
  Stat := fun name =>
    if name = "/tmp/openapi.yaml" then none
    else some (.errorString ("stat " ++ name ++ ": no such file or directory"))
  IsNotExist := fun _ => true
  ReadFile := fun name =>
    if name = "/tmp/openapi.yaml" then .ok "openapi: '3.0.0'"
    else .error (.errorString ("open " ++ name ++ ": no such file or directory"))
  Dir := fun _ => "/srv"
  Join := fun dir name => dir ++ "/" ++ name

/-- The router library of the examples: a routing pattern must begin with a
slash (the library panics with "routing pattern must begin with '/'" on the empty
pattern and on any other that does not). -/
def exampleChi : Chi where
  Route := fun pattern => pattern.front == '/'

/-! ## Decoding a request body (`encoding/json`, `openapi_types.Email`) -/

/-- The fields of `UserRequest`, by their JSON names. -/
inductive Field where
  | email
  | first_name
  | last_name
  deriving DecidableEq, Repr

/-- The value of a member of a JSON object, as decoding it into a string can
tell: a string, `null`, or a value that is no string, with the error the decoder
reports for it. -/
inductive JSONMember where
  | string (s : String)
  | null
  | other (err : GoError)
  deriving DecidableEq, Repr

/-- What the decoder reads in a request body: no JSON value (a syntax error, or
`io.EOF` for an empty body), `null`, an object with its members in order (each
with the field of `UserRequest` its key names, if any), or a value that is no
object, with the error the decoder reports for it. -/
inductive JSONBody where
  | invalid (err : GoError)
  | null
  | object (members : List (Option Field × JSONMember))
  | other (err : GoError)
  deriving DecidableEq, Repr

/-- The functions of `encoding/json` and `openapi_types` the decoding rests on:
reading the first JSON value of a body, and the test of a valid email address. -/
structure EncodingJSON where
  Read : String → JSONBody
  isValidEmail : String → Bool

/-- The error `openapi_types.ErrValidationEmail`. -/
def ErrValidationEmail : GoError :=
  .errorString "email: failed to pass regex validation"

/-- Decoding the members of an object into a `UserRequest`, as
`json.Decoder.Decode` does: a string member sets its field, `null` leaves a string
field as it is, a value that is no string is an error that is saved (the first
one) while decoding goes on, a member with no field is skipped; the `email`
member goes through `Email.UnmarshalJSON`, which stores the string (the empty
string for `null`) and fails, ending the decoding, when it is no valid address.
At the end the saved error, if any, is returned. -/
def unmarshalMembers (j : EncodingJSON) :
    List (Option Field × JSONMember) → UserRequest → Option GoError →
      Except GoError UserRequest
  | [], u, none => .ok u
  | [], _, some err => .error err
  | (none, _) :: rest, u, saved => unmarshalMembers j rest u saved
  | (some .first_name, .string s) :: rest, u, saved =>
    unmarshalMembers j rest { u with FirstName := s } saved
  | (some .first_name, .null) :: rest, u, saved => unmarshalMembers j rest u saved
  | (some .first_name, .other err) :: rest, u, saved =>
    unmarshalMembers j rest u (saved.orElse fun _ => some err)
  | (some .last_name, .string s) :: rest, u, saved =>
    unmarshalMembers j rest { u with LastName := s } saved
  | (some .last_name, .null) :: rest, u, saved => unmarshalMembers j rest u saved
  | (some .last_name, .other err) :: rest, u, saved =>
    unmarshalMembers j rest u (saved.orElse fun _ => some err)
  | (some .email, .string s) :: rest, u, saved =>
    if j.isValidEmail s then unmarshalMembers j rest { u with Email := s } saved
    else .error ErrValidationEmail
  | (some .email, .null) :: rest, u, saved =>
    if j.isValidEmail "" then unmarshalMembers j rest { u with Email := "" } saved
    else .error ErrValidationEmail
  | (some .email, .other err) :: _, _, _ => .error err

/-- The call `json.NewDecoder(r.Body).Decode(&body)` for a zero `body` of type
`UserRequest`. -/
def DecodeUserRequest (j : EncodingJSON) (body : String) : Except GoError UserRequest :=
  match j.Read body with
  | .invalid err => .error err
  | .null => .ok { Email := "", FirstName := "", LastName := "" }
  | .other err => .error err
  | .object members =>
    unmarshalMembers j members { Email := "", FirstName := "", LastName := "" } none

/-- Whether decoding goes past a member of the object without an error, by the
cases of `unmarshalMembers`: a member with no field is skipped; a first_name or
last_name member must be a string or `null`, and no string is refused; an `email`
member must be a valid address (`null` is read as the empty string). -/
def memberDecodes (j : EncodingJSON) : Option Field × JSONMember → Bool
  | (none, _) => true
  | (some .email, .string s) => j.isValidEmail s
  | (some .email, .null) => j.isValidEmail ""
  | (some .email, .other _) => false
  | (some .first_name, .other _) => false
  | (some .first_name, _) => true
  | (some .last_name, .other _) => false
  | (some .last_name, _) => true

/-- The request after a member that decodes has been stored in it, by the cases of
`unmarshalMembers`: a string sets its field, `null` sets the email to the empty
string and leaves a name as it is, a member with no field leaves the request as it
is. -/
def memberStored (u : UserRequest) : Option Field × JSONMember → UserRequest
  | (some .first_name, .string s) => { u with FirstName := s }
  | (some .last_name, .string s) => { u with LastName := s }
  | (some .email, .string s) => { u with Email := s }
  | (some .email, .null) => { u with Email := "" }
  | _ => u

/-- The libraries with the decoding of request bodies spelled out. -/
def Libraries.withJSON (lib : Libraries) (j : EncodingJSON) : Libraries :=
  { lib with DecodeUserRequest := GoUsers.DecodeUserRequest j }

/-- The body of the examples: a user with an empty first name. -/
def emptyFirstNameBody : String :=
  "\x7b\"first_name\":\"\",\"last_name\":\"Doe\",\"email\":\"john.doe@example.com\"\x7d"

/-- The body of the integration test "Empty email". -/
def emptyEmailBody : String :=
  "\x7b\"email\":\"\",\"first_name\":\"John\",\"last_name\":\"Doe\"\x7d"

/-- A body as `json.Marshal` writes a map, with the keys in their order: a user
with empty names. -/
def emptyNamesBody : String :=
  "\x7b\"email\":\"john.doe@example.com\",\"first_name\":\"\",\"last_name\":\"\"\x7d"

/-- Stand-ins for the JSON functions at the bodies of the examples: the three
bodies above are read as the objects they are, anything else is no JSON; an
address is valid when it has an at sign. -/
def testJSON : EncodingJSON where
  Read := fun body =>
    if body = emptyFirstNameBody then
      .object [(some .first_name, .string ""), (some .last_name, .string "Doe"),
        (some .email, .string "john.doe@example.com")]
    else if body = emptyEmailBody then
      .object [(some .email, .string ""), (some .first_name, .string "John"),
        (some .last_name, .string "Doe")]
    else if body = emptyNamesBody then
      .object [(some .email, .string "john.doe@example.com"),
        (some .first_name, .string ""), (some .last_name, .string "")]
    else .invalid (.errorString "EOF")
  isValidEmail := fun s => s.data.contains '@'

/-- The API routes of the examples with the JSON decoding spelled out, over the
store client on the `users` table. -/
def tableRoute : ServerInterfaceWrapper UsersTable :=
  NewHandler.Route (testLibraries.withJSON testJSON) (some {}) (some tableStore.toDB)

/-- The exchange of the examples before the request is served, on an empty
table. -/
def emptyTableExchange : Exchange UsersTable :=
  { w := [], store := { rows := [], nextId := 1, now := fixedTime },
    events := [], panicked := false }

/-! ## Evaluation lemmas: a handler call, given what the store returns -/

section Evaluation

variable {σ : Type}

theorem PostUser_eval_error (h : UserHandler σ) (repo : DB σ) (ctx : Context) (b : UserRequest)
    (s s1 : σ) (user : Option User) (e : GoError) (hrepo : h.repo = some repo)
    (hcall : repo.CreateUser ctx b s = ((user, some e), s1)) :
    h.PostUser ctx { Body := some b } s
      = if errorsIs e .ErrUserAlreadyExists then
          ⟨.returned (some (.PostUser409JSONResponse ⟨some "User already exists"⟩)) none, s1,
            [.CreateUser ctx b]⟩
        else
          ⟨.returned (some (.PostUser500JSONResponse ⟨some e.Error⟩)) none, s1,
            [.CreateUser ctx b, .logPrintf ("error: " ++ e.Error)]⟩ := by
  simp only [UserHandler.PostUser, hrepo, hcall]

theorem PostUser_eval_ok (h : UserHandler σ) (repo : DB σ) (ctx : Context) (b : UserRequest)
    (s s1 : σ) (u : User) (hrepo : h.repo = some repo)
    (hcall : repo.CreateUser ctx b s = ((some u, none), s1)) :
    h.PostUser ctx { Body := some b } s
      = ⟨.returned (some (.PostUser201JSONResponse u)) none, s1, [.CreateUser ctx b]⟩ := by
  simp only [UserHandler.PostUser, hrepo, hcall]

theorem GetUser_eval_error (h : UserHandler σ) (repo : DB σ) (ctx : Context) (id : Nat)
    (s s1 : σ) (user : Option User) (e : GoError) (hrepo : h.repo = some repo)
    (hcall : repo.GetUser ctx id s = ((user, some e), s1)) :
    h.GetUser ctx { Id := id } s
      = if errorsIs e .ErrNotFound then
          ⟨.returned (some (.GetUser404JSONResponse ⟨some "User not found"⟩)) none, s1,
            [.GetUser ctx id]⟩
        else
          ⟨.returned (some (.GetUser500JSONResponse ⟨some "Internal server error"⟩)) none, s1,
            [.GetUser ctx id]⟩ := by
  simp only [UserHandler.GetUser, hrepo, hcall]

theorem GetUser_eval_ok (h : UserHandler σ) (repo : DB σ) (ctx : Context) (id : Nat)
    (s s1 : σ) (u : User) (hrepo : h.repo = some repo)
    (hcall : repo.GetUser ctx id s = ((some u, none), s1)) :
    h.GetUser ctx { Id := id } s
      = ⟨.returned (some (.GetUser200JSONResponse u)) none, s1, [.GetUser ctx id]⟩ := by
  simp only [UserHandler.GetUser, hrepo, hcall]

theorem PutUser_eval_error (h : UserHandler σ) (repo : DB σ) (ctx : Context) (id : Nat)
    (b : UserRequest) (s s1 : σ) (user : Option User) (e : GoError) (hrepo : h.repo = some repo)
    (hcall : repo.UpdateUser ctx b id s = ((user, some e), s1)) :
    h.PutUser ctx { Id := id, Body := some b } s
      = if errorsIs e .ErrNotFound then
          ⟨.returned (some (.PutUser404JSONResponse ⟨some "User not found"⟩)) none, s1,
            [.UpdateUser ctx b id]⟩
        else
          ⟨.returned (some (.PutUser500JSONResponse ⟨some "Internal server error"⟩)) none, s1,
            [.UpdateUser ctx b id]⟩ := by
  simp only [UserHandler.PutUser, hrepo, hcall]

theorem PutUser_eval_ok (h : UserHandler σ) (repo : DB σ) (ctx : Context) (id : Nat)
    (b : UserRequest) (s s1 : σ) (u : User) (hrepo : h.repo = some repo)
    (hcall : repo.UpdateUser ctx b id s = ((some u, none), s1)) :
    h.PutUser ctx { Id := id, Body := some b } s
      = ⟨.returned (some (.PutUser200JSONResponse u)) none, s1, [.UpdateUser ctx b id]⟩ := by
  simp only [UserHandler.PutUser, hrepo, hcall]

end Evaluation

/-! ## `errors.Is` and the chain of an error -/

theorem errorsIs_iff_mem_chain (e target : GoError) :
    errorsIs e target = true ↔ target ∈ e.chain := by
  induction e with
  | wrapError msg err ih =>
    simp only [errorsIs, GoError.chain, Bool.or_eq_true, decide_eq_true_eq, List.mem_cons, ih]
    constructor
    · rintro (h | h)
      · exact Or.inl h.symm
      · exact Or.inr h
    · rintro (h | h)
      · exact Or.inl h.symm
      · exact Or.inr h
  | _ =>
    simp only [errorsIs, GoError.chain, decide_eq_true_eq, List.mem_singleton]
    exact eq_comm

theorem errorsIs_eq_false_iff (e target : GoError) :
    errorsIs e target = false ↔ target ∉ e.chain := by
  rw [← errorsIs_iff_mem_chain, Bool.not_eq_true]

/-! ## The outcomes a handler call can have -/

theorem PostUser_outcome_cases {σ : Type} (h : UserHandler σ) (ctx : Context)
    (request : PostUserRequestObject) (s : σ) :
    (h.PostUser ctx request s).outcome = .panicked
      ∨ (∃ u, (h.PostUser ctx request s).outcome
          = .returned (some (.PostUser201JSONResponse u)) none)
      ∨ (∃ msg, (h.PostUser ctx request s).outcome
          = .returned (some (.PostUser400JSONResponse ⟨some msg⟩)) none)
      ∨ (∃ msg, (h.PostUser ctx request s).outcome
          = .returned (some (.PostUser409JSONResponse ⟨some msg⟩)) none)
      ∨ (∃ msg, (h.PostUser ctx request s).outcome
          = .returned (some (.PostUser500JSONResponse ⟨some msg⟩)) none) := by
  unfold UserHandler.PostUser
  repeat' split
  all_goals simp

theorem GetUser_outcome_cases {σ : Type} (h : UserHandler σ) (ctx : Context)
    (request : GetUserRequestObject) (s : σ) :
    (h.GetUser ctx request s).outcome = .panicked
      ∨ (∃ u, (h.GetUser ctx request s).outcome
          = .returned (some (.GetUser200JSONResponse u)) none)
      ∨ (∃ msg, (h.GetUser ctx request s).outcome
          = .returned (some (.GetUser404JSONResponse ⟨some msg⟩)) none)
      ∨ (∃ msg, (h.GetUser ctx request s).outcome
          = .returned (some (.GetUser500JSONResponse ⟨some msg⟩)) none) := by
  unfold UserHandler.GetUser
  repeat' split
  all_goals simp

theorem PutUser_outcome_cases {σ : Type} (h : UserHandler σ) (ctx : Context)
    (request : PutUserRequestObject) (s : σ) :
    (h.PutUser ctx request s).outcome = .panicked
      ∨ (∃ u, (h.PutUser ctx request s).outcome
          = .returned (some (.PutUser200JSONResponse u)) none)
      ∨ (∃ msg, (h.PutUser ctx request s).outcome
          = .returned (some (.PutUser400JSONResponse ⟨some msg⟩)) none)
      ∨ (∃ msg, (h.PutUser ctx request s).outcome
          = .returned (some (.PutUser404JSONResponse ⟨some msg⟩)) none)
      ∨ (∃ msg, (h.PutUser ctx request s).outcome
          = .returned (some (.PutUser500JSONResponse ⟨some msg⟩)) none) := by
  unfold UserHandler.PutUser
  repeat' split
  all_goals simp

/-! ## The wrappers on a request that does not bind or decode -/

theorem GetUser_bind_error {σ : Type} (lib : Libraries) (si : ServerInterface σ)
    (options : ChiServerOptions σ) (x : Exchange σ) (r : Request) (err : GoError)
    (hopt : options.ErrorHandlerFunc = none)
    (hbind : lib.BindStyledParameterWithOptions r.id = .error err) :
    (HandlerWithOptions si options).GetUser lib x r
      = { x with w := httpError x.w ("Invalid format for parameter id: " ++ err.Error) 400 } := by
  simp [ServerInterfaceWrapper.GetUser, HandlerWithOptions, hopt, hbind,
    InvalidParamFormatError, GoError.Error]

theorem PutUser_bind_error {σ : Type} (lib : Libraries) (si : ServerInterface σ)
    (options : ChiServerOptions σ) (x : Exchange σ) (r : Request) (err : GoError)
    (hopt : options.ErrorHandlerFunc = none)
    (hbind : lib.BindStyledParameterWithOptions r.id = .error err) :
    (HandlerWithOptions si options).PutUser lib x r
      = { x with w := httpError x.w ("Invalid format for parameter id: " ++ err.Error) 400 } := by
  simp [ServerInterfaceWrapper.PutUser, HandlerWithOptions, hopt, hbind,
    InvalidParamFormatError, GoError.Error]

theorem Route_PostUser_decode_error {σ : Type} (lib : Libraries) (logger : Logger)
    (repo : Option (DB σ)) (x : Exchange σ) (r : Request) (err : GoError)
    (hdecode : lib.DecodeUserRequest r.Body = .error err) :
    (NewHandler.Route lib (some logger) repo).PostUser x r
      = { x with
          events := x.events ++ [.loggerError "request validation error"
            (.wrapError ("can't decode JSON body: " ++ err.Error) err)],
          w := httpError x.w "Invalid request" 400 } := by
  simp [NewHandler.Route, HandlerFromMux, HandlerWithOptions, ServerInterfaceWrapper.PostUser,
    ServerInterfaceWrapper.wrap, strictHandler.toServerInterface, strictHandler.PostUser,
    NewHandler.ownStrictHandler, NewStrictHandlerWithOptions, hdecode,
    NewHandler.RequestErrorHandlerFunc]

theorem Route_PutUser_decode_error {σ : Type} (lib : Libraries) (logger : Logger)
    (repo : Option (DB σ)) (x : Exchange σ) (r : Request) (id : Nat) (err : GoError)
    (hbind : lib.BindStyledParameterWithOptions r.id = .ok id)
    (hdecode : lib.DecodeUserRequest r.Body = .error err) :
    (NewHandler.Route lib (some logger) repo).PutUser lib x r
      = { x with
          events := x.events ++ [.loggerError "request validation error"
            (.wrapError ("can't decode JSON body: " ++ err.Error) err)],
          w := httpError x.w "Invalid request" 400 } := by
  simp [NewHandler.Route, HandlerFromMux, HandlerWithOptions, ServerInterfaceWrapper.PutUser,
    ServerInterfaceWrapper.wrap, strictHandler.toServerInterface, strictHandler.PutUser,
    NewHandler.ownStrictHandler, NewStrictHandlerWithOptions, hdecode, hbind,
    NewHandler.RequestErrorHandlerFunc]

/-! ## The store client, given what the row scan returns -/

theorem isDuplicateKeyError_iff (e : GoError) :
    isDuplicateKeyError e = true ↔ ∃ sev msg, GoError.PgError sev "23505" msg ∈ e.chain := by
  induction e with
  | wrapError m err ih =>
    have h1 : isDuplicateKeyError (.wrapError m err) = isDuplicateKeyError err := rfl
    rw [h1, ih]
    simp [GoError.chain]
  | PgError s c m =>
    simp [isDuplicateKeyError, errorsAsPgError, GoError.chain]
    exact eq_comm
  | _ => simp [isDuplicateKeyError, errorsAsPgError, GoError.chain]

section StoreClient

variable {π : Type}

theorem CreateUser_scanError (d : db π) (ctx : Context) (u : UserRequest) (p p1 : π)
    (e : GoError)
    (hq : d.pool.QueryRow ctx db.insertQuery
      [.string u.FirstName, .string u.LastName, .Email u.Email] p = (.scanError e, p1)) :
    d.CreateUser ctx u p
      = if isDuplicateKeyError e then
          ⟨none, some .ErrUserAlreadyExists, p1,
            [⟨ctx, db.insertQuery, [.string u.FirstName, .string u.LastName, .Email u.Email]⟩]⟩
        else
          ⟨none, some (.wrapError ("failed to create user: " ++ e.Error) e), p1,
            [⟨ctx, db.insertQuery, [.string u.FirstName, .string u.LastName, .Email u.Email]⟩]⟩ := by
  simp only [db.CreateUser, hq]

theorem GetUser_scanError (d : db π) (ctx : Context) (id : Nat) (p p1 : π) (e : GoError)
    (hq : d.pool.QueryRow ctx db.selectQuery [.uint id] p = (.scanError e, p1)) :
    d.GetUser ctx id p
      = if errorsIs e .sqlErrNoRows then
          ⟨none, some .ErrNotFound, p1, [⟨ctx, db.selectQuery, [.uint id]⟩]⟩
        else
          ⟨none, some (.wrapError ("failed to get user: " ++ e.Error) e), p1,
            [⟨ctx, db.selectQuery, [.uint id]⟩]⟩ := by
  simp only [db.GetUser, hq]

theorem UpdateUser_scanError (d : db π) (ctx : Context) (u : UserRequest) (id : Nat)
    (p p1 : π) (e : GoError)
    (hq : d.pool.QueryRow ctx db.updateQuery
      [.string u.FirstName, .string u.LastName, .Email u.Email, .uint id] p
        = (.scanError e, p1)) :
    d.UpdateUser ctx u id p
      = if errorsIs e .sqlErrNoRows then
          ⟨none, some .ErrNotFound, p1, [⟨ctx, db.updateQuery,
            [.string u.FirstName, .string u.LastName, .Email u.Email, .uint id]⟩]⟩
        else
          ⟨none, some (.wrapError ("failed to update user: " ++ e.Error) e), p1,
            [⟨ctx, db.updateQuery,
              [.string u.FirstName, .string u.LastName, .Email u.Email, .uint id]⟩]⟩ := by
  simp only [db.UpdateUser, hq]

theorem CreateUser_columns (d : db π) (ctx : Context) (u : UserRequest) (p p1 : π)
    (c0 : Nat) (c1 c2 : String) (c3 : Email) (c4 c5 : Time)
    (hq : d.pool.QueryRow ctx db.insertQuery
      [.string u.FirstName, .string u.LastName, .Email u.Email] p
        = (.columns c0 c1 c2 c3 c4 c5, p1)) :
    d.CreateUser ctx u p
      = ⟨some { Id := c0, FirstName := c1, LastName := c2, Email := c3, CreatedAt := c4,
                UpdatedAt := c5 }, none, p1,
          [⟨ctx, db.insertQuery, [.string u.FirstName, .string u.LastName, .Email u.Email]⟩]⟩ := by
  simp only [db.CreateUser, hq]

theorem GetUser_columns (d : db π) (ctx : Context) (id : Nat) (p p1 : π)
    (c0 : Nat) (c1 c2 : String) (c3 : Email) (c4 c5 : Time)
    (hq : d.pool.QueryRow ctx db.selectQuery [.uint id] p = (.columns c0 c1 c2 c3 c4 c5, p1)) :
    d.GetUser ctx id p
      = ⟨some { Id := c0, FirstName := c1, LastName := c2, Email := c3, CreatedAt := c4,
                UpdatedAt := c5 }, none, p1, [⟨ctx, db.selectQuery, [.uint id]⟩]⟩ := by
  simp only [db.GetUser, hq]

theorem UpdateUser_columns (d : db π) (ctx : Context) (u : UserRequest) (id : Nat)
    (p p1 : π) (c0 : Nat) (c1 c2 : String) (c3 : Email) (c4 c5 : Time)
    (hq : d.pool.QueryRow ctx db.updateQuery
      [.string u.FirstName, .string u.LastName, .Email u.Email, .uint id] p
        = (.columns c0 c1 c2 c3 c4 c5, p1)) :
    d.UpdateUser ctx u id p
      = ⟨some { Id := c0, FirstName := c1, LastName := c2, Email := c3, CreatedAt := c4,
                UpdatedAt := c5 }, none, p1,
          [⟨ctx, db.updateQuery,
            [.string u.FirstName, .string u.LastName, .Email u.Email, .uint id]⟩]⟩ := by
  simp only [db.UpdateUser, hq]

theorem CreateUser_queries (d : db π) (ctx : Context) (u : UserRequest) (p : π) :
    (d.CreateUser ctx u p).queries
      = [⟨ctx, db.insertQuery, [.string u.FirstName, .string u.LastName, .Email u.Email]⟩] := by
  simp only [db.CreateUser]
  repeat' split
  all_goals rfl

theorem GetUser_queries (d : db π) (ctx : Context) (id : Nat) (p : π) :
    (d.GetUser ctx id p).queries = [⟨ctx, db.selectQuery, [.uint id]⟩] := by
  simp only [db.GetUser]
  repeat' split
  all_goals rfl

theorem UpdateUser_queries (d : db π) (ctx : Context) (u : UserRequest) (id : Nat) (p : π) :
    (d.UpdateUser ctx u id p).queries
      = [⟨ctx, db.updateQuery,
          [.string u.FirstName, .string u.LastName, .Email u.Email, .uint id]⟩] := by
  simp only [db.UpdateUser]
  repeat' split
  all_goals rfl

theorem CreateUser_pool (d : db π) (ctx : Context) (u : UserRequest) (p : π) :
    (d.CreateUser ctx u p).pool
      = (d.pool.QueryRow ctx db.insertQuery
          [.string u.FirstName, .string u.LastName, .Email u.Email] p).2 := by
  rcases hq : d.pool.QueryRow ctx db.insertQuery
    [.string u.FirstName, .string u.LastName, .Email u.Email] p with ⟨row, p1⟩
  cases row with
  | scanError e =>
    rw [CreateUser_scanError d ctx u p p1 e hq]
    split <;> rfl
  | columns c0 c1 c2 c3 c4 c5 =>
    rw [CreateUser_columns d ctx u p p1 c0 c1 c2 c3 c4 c5 hq]

theorem GetUser_pool (d : db π) (ctx : Context) (id : Nat) (p : π) :
    (d.GetUser ctx id p).pool = (d.pool.QueryRow ctx db.selectQuery [.uint id] p).2 := by
  rcases hq : d.pool.QueryRow ctx db.selectQuery [.uint id] p with ⟨row, p1⟩
  cases row with
  | scanError e =>
    rw [GetUser_scanError d ctx id p p1 e hq]
    split <;> rfl
  | columns c0 c1 c2 c3 c4 c5 =>
    rw [GetUser_columns d ctx id p p1 c0 c1 c2 c3 c4 c5 hq]

theorem UpdateUser_pool (d : db π) (ctx : Context) (u : UserRequest) (id : Nat) (p : π) :
    (d.UpdateUser ctx u id p).pool
      = (d.pool.QueryRow ctx db.updateQuery
          [.string u.FirstName, .string u.LastName, .Email u.Email, .uint id] p).2 := by
  rcases hq : d.pool.QueryRow ctx db.updateQuery
    [.string u.FirstName, .string u.LastName, .Email u.Email, .uint id] p with ⟨row, p1⟩
  cases row with
  | scanError e =>
    rw [UpdateUser_scanError d ctx u id p p1 e hq]
    split <;> rfl
  | columns c0 c1 c2 c3 c4 c5 =>
    rw [UpdateUser_columns d ctx u id p p1 c0 c1 c2 c3 c4 c5 hq]

end StoreClient

/-! ## The store client on the `users` table -/

theorem find?_map_of_preserved {α : Type} (f : α → α) (q : α → Bool)
    (hq : ∀ a, q (f a) = q a) (l : List α) :
    (l.map f).find? q = (l.find? q).map f := by
  induction l with
  | nil => rfl
  | cons a l ih =>
    simp only [List.map_cons, List.find?_cons, hq]
    cases q a
    · simpa using ih
    · rfl

theorem tableStore_CreateUser_ok (ctx : Context) (r : UserRequest) (t : UsersTable)
    (hfree : t.rows.any (fun row => row.Email == r.Email) = false) :
    tableStore.CreateUser ctx r t
      = ⟨some { Id := t.nextId, FirstName := r.FirstName, LastName := r.LastName,
                Email := r.Email, CreatedAt := t.now, UpdatedAt := t.now }, none,
          { t with
            rows := t.rows ++ [{ Id := t.nextId, FirstName := r.FirstName,
                                 LastName := r.LastName, Email := r.Email,
                                 CreatedAt := t.now, UpdatedAt := t.now }],
            nextId := t.nextId + 1 },
          [⟨ctx, db.insertQuery,
            [.string r.FirstName, .string r.LastName, .Email r.Email]⟩]⟩ := by
  simp [db.CreateUser, tableStore, UsersTable.pool, UsersTable.QueryRow, UsersTable.insert,
    hfree]

theorem tableStore_CreateUser_taken (ctx : Context) (r : UserRequest) (t : UsersTable)
    (htaken : t.rows.any (fun row => row.Email == r.Email) = true) :
    (tableStore.CreateUser ctx r t).user = none
      ∧ (tableStore.CreateUser ctx r t).err = some .ErrUserAlreadyExists := by
  have hq : tableStore.pool.QueryRow ctx db.insertQuery
      [.string r.FirstName, .string r.LastName, .Email r.Email] t
        = (.scanError UsersTable.uniqueViolation, t) := by
    simp [tableStore, UsersTable.pool, UsersTable.QueryRow, UsersTable.insert, htaken]
  rw [CreateUser_scanError tableStore ctx r t t _ hq]
  exact ⟨rfl, rfl⟩

theorem tableStore_GetUser_found (ctx : Context) (id : Nat) (t : UsersTable) (row : User)
    (hfind : t.rows.find? (fun r => r.Id == id) = some row) :
    tableStore.GetUser ctx id t = ⟨some row, none, t, [⟨ctx, db.selectQuery, [.uint id]⟩]⟩ := by
  simp [db.GetUser, tableStore, UsersTable.pool, UsersTable.QueryRow, UsersTable.select,
    hfind]

theorem tableStore_GetUser_missing (ctx : Context) (id : Nat) (t : UsersTable)
    (hfind : t.rows.find? (fun r => r.Id == id) = none) :
    (tableStore.GetUser ctx id t).user = none
      ∧ (tableStore.GetUser ctx id t).err = some .ErrNotFound := by
  have hq : tableStore.pool.QueryRow ctx db.selectQuery [.uint id] t
      = (.scanError .sqlErrNoRows, t) := by
    simp [tableStore, UsersTable.pool, UsersTable.QueryRow, UsersTable.select, hfind]
  rw [GetUser_scanError tableStore ctx id t t _ hq]
  exact ⟨rfl, rfl⟩

theorem tableStore_UpdateUser_ok (ctx : Context) (r : UserRequest) (id : Nat)
    (t : UsersTable) (old : User)
    (hfind : t.rows.find? (fun row => row.Id == id) = some old)
    (hfree : t.rows.any (fun row => row.Id != id && row.Email == r.Email) = false) :
    tableStore.UpdateUser ctx r id t
      = ⟨some (UsersTable.assign r.FirstName r.LastName r.Email t old), none,
          { t with rows := t.rows.map (fun row =>
              if row.Id == id then UsersTable.assign r.FirstName r.LastName r.Email t row
              else row) },
          [⟨ctx, db.updateQuery,
            [.string r.FirstName, .string r.LastName, .Email r.Email, .uint id]⟩]⟩ := by
  simp [db.UpdateUser, tableStore, UsersTable.pool, UsersTable.QueryRow, UsersTable.update,
    hfind, hfree, UsersTable.assign]

theorem tableStore_UpdateUser_fails (ctx : Context) (r : UserRequest) (id : Nat)
    (t : UsersTable)
    (h : t.rows.find? (fun row => row.Id == id) = none
      ∨ t.rows.any (fun row => row.Id != id && row.Email == r.Email) = true) :
    (tableStore.UpdateUser ctx r id t).user = none := by
  have hq : ∃ e, tableStore.pool.QueryRow ctx db.updateQuery
      [.string r.FirstName, .string r.LastName, .Email r.Email, .uint id] t
        = (.scanError e, t) := by
    rcases hfind : t.rows.find? (fun row => row.Id == id) with _ | old
    · exact ⟨.sqlErrNoRows, by
        simp [tableStore, UsersTable.pool, UsersTable.QueryRow, UsersTable.update, hfind]⟩
    · rcases h with h | h
      · rw [hfind] at h
        exact absurd h (by simp)
      · exact ⟨UsersTable.uniqueViolation, by
          simp only [tableStore, UsersTable.pool, UsersTable.QueryRow, UsersTable.update,
            hfind, h, if_true]⟩
  rcases hq with ⟨e, hq⟩
  rw [UpdateUser_scanError tableStore ctx r id t t e hq]
  split <;> rfl

/-! ## Well-formedness of the table is kept by every statement and by the clock -/

theorem wellFormed_iff (t : UsersTable) :
    t.wellFormed = true ↔ ∀ r ∈ t.rows, r.Id < t.nextId ∧ r.UpdatedAt.nanos ≤ t.now.nanos := by
  simp [UsersTable.wellFormed, List.all_eq_true]

theorem wellFormed_tick (d : Nat) (t : UsersTable) (hwf : t.wellFormed = true) :
    (t.tick d).wellFormed = true := by
  rw [wellFormed_iff] at hwf ⊢
  intro r hr
  have h := hwf r hr
  refine ⟨h.1, ?_⟩
  show r.UpdatedAt.nanos ≤ t.now.nanos + d
  omega

theorem wellFormed_QueryRow (ctx : Context) (sql : String) (args : List Arg)
    (t : UsersTable) (hwf : t.wellFormed = true) :
    (UsersTable.QueryRow ctx sql args t).2.wellFormed = true := by
  have hins : ∀ f l e, (UsersTable.insert f l e t).2.wellFormed = true := by
    intro f l e
    unfold UsersTable.insert
    split
    · exact hwf
    · rw [wellFormed_iff] at hwf ⊢
      intro r hr
      simp only [List.mem_append, List.mem_singleton] at hr
      rcases hr with hr | hr
      · have h := hwf r hr
        exact ⟨Nat.lt_succ_of_lt h.1, h.2⟩
      · subst hr
        exact ⟨Nat.lt_succ_self _, le_refl _⟩
  have hsel : ∀ id, (UsersTable.select id t).2.wellFormed = true := by
    intro id
    unfold UsersTable.select
    split <;> exact hwf
  have hupd : ∀ f l e id, (UsersTable.update f l e id t).2.wellFormed = true := by
    intro f l e id
    unfold UsersTable.update
    split
    · exact hwf
    · split
      · exact hwf
      · rw [wellFormed_iff] at hwf ⊢
        intro r hr
        simp only [List.mem_map] at hr
        rcases hr with ⟨a, ha, rfl⟩
        have h := hwf a ha
        by_cases hid : a.Id = id
        · simp only [hid, beq_self_eq_true, if_true]
          refine ⟨by simpa [UsersTable.assign, hid] using h.1, ?_⟩
          exact le_refl _
        · simp only [beq_iff_eq, hid, if_false]
          exact h
  unfold UsersTable.QueryRow
  split
  · split
    · exact hins _ _ _
    · exact hwf
  · split
    · exact hsel _
    · exact hwf
  · split
    · exact hupd _ _ _ _
    · exact hwf
  · exact hwf

/-! ## A chain has one leaf -/

theorem chain_leaf_eq (e a b : GoError) (ha : a ∈ e.chain) (hb : b ∈ e.chain)
    (hau : a.Unwrap = none) (hbu : b.Unwrap = none) : a = b := by
  induction e with
  | wrapError m err ih =>
    simp only [GoError.chain, List.mem_cons] at ha hb
    rcases ha with ha | ha
    · subst ha
      simp [GoError.Unwrap] at hau
    · rcases hb with hb | hb
      · subst hb
        simp [GoError.Unwrap] at hbu
      · exact ih ha hb
  | _ =>
    simp only [GoError.chain, List.mem_singleton] at ha hb
    rw [ha, hb]

theorem sentinel_not_mem_chain_of_PgError (e : GoError) (sev code msg : String)
    (hpg : GoError.PgError sev code msg ∈ e.chain) :
    GoError.ErrNotFound ∉ e.chain ∧ GoError.ErrUserAlreadyExists ∉ e.chain
      ∧ GoError.sqlErrNoRows ∉ e.chain := by
  refine ⟨?_, ?_, ?_⟩
  · intro h
    exact GoError.noConfusion (chain_leaf_eq e _ _ hpg h rfl rfl)
  · intro h
    exact GoError.noConfusion (chain_leaf_eq e _ _ hpg h rfl rfl)
  · intro h
    exact GoError.noConfusion (chain_leaf_eq e _ _ hpg h rfl rfl)

/-! ## Decoding, and the strict handler on a body that decodes -/

theorem unmarshalMembers_invalid_email (j : EncodingJSON) (e : String)
    (hinv : j.isValidEmail e = false) :
    ∀ (members : List (Option Field × JSONMember)) (u : UserRequest) (saved : Option GoError),
      (some Field.email, JSONMember.string e) ∈ members →
      ∃ err, unmarshalMembers j members u saved = .error err := by
  intro members
  induction members with
  | nil =>
    intro u saved h
    simp at h
  | cons head rest ih =>
    intro u saved hmem
    rcases List.mem_cons.1 hmem with hhead | hrest
    · subst hhead
      exact ⟨ErrValidationEmail, by simp [unmarshalMembers, hinv]⟩
    · rcases head with ⟨_ | f, v⟩
      · simpa [unmarshalMembers] using ih u saved hrest
      · cases f <;> cases v <;> simp only [unmarshalMembers]
        all_goals first
          | exact ih _ _ hrest
          | exact ⟨_, rfl⟩
          | (split
             · exact ih _ _ hrest
             · exact ⟨_, rfl⟩)

theorem DecodeUserRequest_invalid_email (j : EncodingJSON) (body e : String)
    (members : List (Option Field × JSONMember))
    (hread : j.Read body = .object members)
    (hmem : (some Field.email, JSONMember.string e) ∈ members)
    (hinv : j.isValidEmail e = false) :
    ∃ err, DecodeUserRequest j body = .error err := by
  simp only [DecodeUserRequest, hread]
  exact unmarshalMembers_invalid_email j e hinv members _ _ hmem

theorem DecodeUserRequest_three_members (j : EncodingJSON) (body first last email : String)
    (hread : j.Read body
      = .object [(some .first_name, .string first), (some .last_name, .string last),
          (some .email, .string email)])
    (hvalid : j.isValidEmail email = true) :
    DecodeUserRequest j body
      = .ok { FirstName := first, LastName := last, Email := email } := by
  simp [DecodeUserRequest, hread, unmarshalMembers, hvalid]

theorem unmarshalMembers_saved (j : EncodingJSON) :
    ∀ (members : List (Option Field × JSONMember)) (u : UserRequest) (saved : GoError),
      ∃ err, unmarshalMembers j members u (some saved) = .error err := by
  intro members
  induction members with
  | nil =>
    intro u saved
    exact ⟨saved, rfl⟩
  | cons head rest ih =>
    intro u saved
    rcases head with ⟨_ | f, v⟩
    · simpa [unmarshalMembers] using ih u saved
    · cases f <;> cases v <;> simp only [unmarshalMembers, Option.orElse]
      all_goals first
        | exact ih _ _
        | exact ⟨_, rfl⟩
        | (split
           · exact ih _ _
           · exact ⟨_, rfl⟩)

theorem unmarshalMembers_decodes (j : EncodingJSON) :
    ∀ (members : List (Option Field × JSONMember)) (u : UserRequest),
      members.all (memberDecodes j) = true →
      unmarshalMembers j members u none = .ok (members.foldl memberStored u) := by
  intro members
  induction members with
  | nil =>
    intro u _
    rfl
  | cons head rest ih =>
    intro u hall
    rw [List.all_cons, Bool.and_eq_true] at hall
    rcases hall with ⟨hhead, hrest⟩
    rcases head with ⟨_ | f, v⟩
    · simpa [unmarshalMembers, memberStored] using ih u hrest
    · cases f <;> cases v <;>
        simp only [memberDecodes, Bool.false_eq_true] at hhead <;>
        simp only [unmarshalMembers, List.foldl_cons, memberStored, hhead, if_true] <;>
        exact ih _ hrest

theorem unmarshalMembers_refuses (j : EncodingJSON) :
    ∀ (members : List (Option Field × JSONMember)) (u : UserRequest),
      members.all (memberDecodes j) = false →
      ∃ err, unmarshalMembers j members u none = .error err := by
  intro members
  induction members with
  | nil =>
    intro u hall
    simp at hall
  | cons head rest ih =>
    intro u hall
    rw [List.all_cons, Bool.and_eq_false_iff] at hall
    rcases head with ⟨_ | f, v⟩
    · rcases hall with hhead | hrest
      · simp [memberDecodes] at hhead
      · simpa [unmarshalMembers] using ih u hrest
    · cases hd : memberDecodes j (some f, v)
      · cases f <;> cases v <;> simp only [memberDecodes, Bool.true_eq_false] at hd <;>
          simp only [unmarshalMembers, hd, Option.orElse]
        all_goals first
          | exact ⟨_, rfl⟩
          | exact unmarshalMembers_saved j rest _ _
      · have hrest : rest.all (memberDecodes j) = false := by
          rcases hall with hhead | hrest
          · rw [hd] at hhead
            cases hhead
          · exact hrest
        cases f <;> cases v <;> simp only [memberDecodes, Bool.false_eq_true] at hd <;>
          simp only [unmarshalMembers, hd, if_true] <;>
          exact ih _ hrest

theorem Route_PostUser_decode_ok {σ : Type} (lib : Libraries) (logger : Option Logger)
    (repo : Option (DB σ)) (x : Exchange σ) (r : Request) (b : UserRequest)
    (hdecode : lib.DecodeUserRequest r.Body = .ok b) :
    (NewHandler.Route lib logger repo).PostUser x r
      = (NewHandler.ownStrictHandler logger repo).respond r "PostUser"
          (PostUserResponseObject.VisitPostUserResponse lib) x
          (UserHandler.PostUser { repo := repo } r.ctx { Body := some b } x.store) := by
  simp [NewHandler.Route, HandlerFromMux, HandlerWithOptions, ServerInterfaceWrapper.PostUser,
    ServerInterfaceWrapper.wrap, strictHandler.toServerInterface, strictHandler.PostUser,
    NewHandler.ownStrictHandler, NewStrictHandlerWithOptions, hdecode,
    UserHandler.toStrictServerInterface]

theorem Route_PutUser_decode_ok {σ : Type} (lib : Libraries) (logger : Option Logger)
    (repo : Option (DB σ)) (x : Exchange σ) (r : Request) (id : Nat) (b : UserRequest)
    (hbind : lib.BindStyledParameterWithOptions r.id = .ok id)
    (hdecode : lib.DecodeUserRequest r.Body = .ok b) :
    (NewHandler.Route lib logger repo).PutUser lib x r
      = (NewHandler.ownStrictHandler logger repo).respond r "PutUser"
          (PutUserResponseObject.VisitPutUserResponse lib) x
          (UserHandler.PutUser { repo := repo } r.ctx { Id := id, Body := some b } x.store) := by
  simp [NewHandler.Route, HandlerFromMux, HandlerWithOptions, ServerInterfaceWrapper.PutUser,
    ServerInterfaceWrapper.wrap, strictHandler.toServerInterface, strictHandler.PutUser,
    NewHandler.ownStrictHandler, NewStrictHandlerWithOptions, hdecode, hbind,
    UserHandler.toStrictServerInterface]

theorem respond_events {σ ρ : Type} (logger : Option Logger) (repo : Option (DB σ))
    (r : Request) (operation : String)
    (visit : ρ → ResponseWriter → ResponseWriter × Option GoError) (x : Exchange σ)
    (run : Run σ ρ) :
    ∃ rest, ((NewHandler.ownStrictHandler logger repo).respond r operation visit x run).events
      = (x.events ++ Event.invoke operation :: run.trace.map Event.effect) ++ rest := by
  unfold strictHandler.respond
  simp only [NewHandler.ownStrictHandler, NewStrictHandlerWithOptions,
    NewHandler.ResponseErrorHandlerFunc]
  repeat' split
  all_goals first
    | exact ⟨_, rfl⟩
    | exact ⟨[], (List.append_nil _).symm⟩

theorem PostUser_trace_mem {σ : Type} (repo : DB σ) (ctx : Context) (b : UserRequest)
    (s : σ) :
    Effect.CreateUser ctx b
      ∈ (UserHandler.PostUser { repo := some repo } ctx { Body := some b } s).trace := by
  simp only [UserHandler.PostUser]
  repeat' split
  all_goals simp

theorem PutUser_trace_mem {σ : Type} (repo : DB σ) (ctx : Context) (id : Nat)
    (b : UserRequest) (s : σ) :
    Effect.UpdateUser ctx b id
      ∈ (UserHandler.PutUser { repo := some repo } ctx { Id := id, Body := some b } s).trace := by
  simp only [UserHandler.PutUser]
  repeat' split
  all_goals simp

theorem PostUser_with_body_not_400 {σ : Type} (h : UserHandler σ) (ctx : Context)
    (b : UserRequest) (s : σ) (e : Error) (err : Option GoError) :
    (h.PostUser ctx { Body := some b } s).outcome
      ≠ .returned (some (.PostUser400JSONResponse e)) err := by
  simp only [UserHandler.PostUser]
  repeat' split
  all_goals simp

theorem PutUser_with_body_not_400 {σ : Type} (h : UserHandler σ) (ctx : Context) (id : Nat)
    (b : UserRequest) (s : σ) (e : Error) (err : Option GoError) :
    (h.PutUser ctx { Id := id, Body := some b } s).outcome
      ≠ .returned (some (.PutUser400JSONResponse e)) err := by
  simp only [UserHandler.PutUser]
  repeat' split
  all_goals simp

/-! ## What a `Visit…Response` method does to the response writer -/

theorem visitJSON_ops (code : Nat) (v : Except GoError (List (String × JSONValue)))
    (w : ResponseWriter) :
    ∃ rest, (visitJSON code v w).1
      = w ++ (.HeaderSet "Content-Type" "application/json" :: .WriteHeader code :: rest) := by
  cases v with
  | error err => exact ⟨[], by simp [visitJSON, Encode]⟩
  | ok members => exact ⟨[.Write (.json members)], by simp [visitJSON, Encode]⟩

theorem visitJSON_statusCode (code : Nat) (v : Except GoError (List (String × JSONValue))) :
    statusCode (visitJSON code v []).1 = some code := by
  cases v <;> rfl

theorem visitJSON_contentType (code : Nat) (v : Except GoError (List (String × JSONValue))) :
    sentHeader (visitJSON code v []).1 "Content-Type" = some "application/json" := by
  cases v <;> rfl

theorem visitJSON_ok (code : Nat) (members : List (String × JSONValue)) (w : ResponseWriter) :
    visitJSON code (.ok members) w
      = (w ++ [.HeaderSet "Content-Type" "application/json", .WriteHeader code,
          .Write (.json members)], none) := by
  simp [visitJSON, Encode]

/-! ## Theorems -/

/-- C1: with an absent (nil) body, `PostUser` and `PutUser` (for every id, every
handler, context and store state) return the 400 variant carrying
"Missing request body" with a nil error; the store's state is as before and the
run has no effect at all, hence no store call. -/
theorem missing_body_is_400_without_store_call {σ : Type} (h : UserHandler σ) (ctx : Context)
    (id : Nat) (s : σ) :
    (h.PostUser ctx { Body := none } s).outcome
        = .returned (some (.PostUser400JSONResponse { Error := some "Missing request body" })) none
      ∧ (h.PostUser ctx { Body := none } s).trace = []
      ∧ (h.PostUser ctx { Body := none } s).storeCalls = []
      ∧ (h.PostUser ctx { Body := none } s).store = s
      ∧ (h.PutUser ctx { Id := id, Body := none } s).outcome
        = .returned (some (.PutUser400JSONResponse { Error := some "Missing request body" })) none
      ∧ (h.PutUser ctx { Id := id, Body := none } s).trace = []
      ∧ (h.PutUser ctx { Id := id, Body := none } s).storeCalls = []
      ∧ (h.PutUser ctx { Id := id, Body := none } s).store = s := by
  simp [UserHandler.PostUser, UserHandler.PutUser, Run.storeCalls]

/-- C2: for every non-nil body `b` and every user `u`, when the store's
`CreateUser(b)` returns `u` and a nil error, `PostUser` returns the 201 variant
whose six fields are those of `u`, with a nil error; the store was called exactly
once, with `b`, and is left in the state that call produced. -/
theorem PostUser_success_is_201 {σ : Type} (h : UserHandler σ) (repo : DB σ) (ctx : Context)
    (b : UserRequest) (u : User) (s s1 : σ) (hrepo : h.repo = some repo)
    (hcreate : repo.CreateUser ctx b s = ((some u, none), s1)) :
    (h.PostUser ctx { Body := some b } s).outcome
        = .returned (some (.PostUser201JSONResponse
            { Id := u.Id, FirstName := u.FirstName, LastName := u.LastName, Email := u.Email,
              CreatedAt := u.CreatedAt, UpdatedAt := u.UpdatedAt })) none
      ∧ (h.PostUser ctx { Body := some b } s).storeCalls = [.CreateUser ctx b]
      ∧ (h.PostUser ctx { Body := some b } s).store = s1 := by
  rw [PostUser_eval_ok h repo ctx b s s1 u hrepo hcreate]
  exact ⟨rfl, rfl, rfl⟩

theorem PostUser_success_is_201_witness :
    (MockUserRepository (some johnDoe) none).CreateUser ⟨0⟩ johnDoeRequest []
        = ((some johnDoe, none), [.CreateUser ⟨0⟩ johnDoeRequest])
      ∧ (UserHandler.PostUser ⟨some (MockUserRepository (some johnDoe) none)⟩ ⟨0⟩
            { Body := some johnDoeRequest } []).outcome
          = .returned (some (.PostUser201JSONResponse johnDoe)) none
      ∧ (UserHandler.PostUser ⟨some (MockUserRepository (some johnDoe) none)⟩ ⟨0⟩
            { Body := some johnDoeRequest } []).storeCalls = [.CreateUser ⟨0⟩ johnDoeRequest] :=
  ⟨rfl,
    (PostUser_success_is_201 ⟨some (MockUserRepository (some johnDoe) none)⟩
      (MockUserRepository (some johnDoe) none) ⟨0⟩ johnDoeRequest johnDoe []
      [.CreateUser ⟨0⟩ johnDoeRequest] rfl rfl).1,
    (PostUser_success_is_201 ⟨some (MockUserRepository (some johnDoe) none)⟩
      (MockUserRepository (some johnDoe) none) ⟨0⟩ johnDoeRequest johnDoe []
      [.CreateUser ⟨0⟩ johnDoeRequest] rfl rfl).2.1⟩

/-- C3: for every non-nil body, when the store's `CreateUser` returns an error
that `errors.Is` classifies as `ErrUserAlreadyExists` (whatever user pointer comes
with it), `PostUser` returns the 409 variant with "User already exists" and a nil
error. -/
theorem PostUser_already_exists_is_409 {σ : Type} (h : UserHandler σ) (repo : DB σ)
    (ctx : Context) (b : UserRequest) (user : Option User) (e : GoError) (s s1 : σ)
    (hrepo : h.repo = some repo)
    (hcreate : repo.CreateUser ctx b s = ((user, some e), s1))
    (hclass : errorsIs e .ErrUserAlreadyExists = true) :
    (h.PostUser ctx { Body := some b } s).outcome
      = .returned (some (.PostUser409JSONResponse { Error := some "User already exists" }))
          none := by
  rw [PostUser_eval_error h repo ctx b s s1 user e hrepo hcreate, if_pos hclass]

theorem PostUser_already_exists_is_409_witness :
    errorsIs (.wrapError "insert: user already exists" .ErrUserAlreadyExists)
        .ErrUserAlreadyExists = true
      ∧ (UserHandler.PostUser
            ⟨some (MockUserRepository none
              (some (.wrapError "insert: user already exists" .ErrUserAlreadyExists)))⟩ ⟨0⟩
            { Body := some johnDoeRequest } []).outcome
          = .returned (some (.PostUser409JSONResponse { Error := some "User already exists" }))
              none :=
  ⟨by decide,
    PostUser_already_exists_is_409 _
      (MockUserRepository none
        (some (.wrapError "insert: user already exists" .ErrUserAlreadyExists)))
      ⟨0⟩ johnDoeRequest none _ [] [.CreateUser ⟨0⟩ johnDoeRequest] rfl rfl (by decide)⟩

/-- C4: for every non-nil body and every store error `e` that `errors.Is` does
not classify as `ErrUserAlreadyExists`, `PostUser` returns the 500 variant whose
message is exactly `e.Error()`, with a nil error. -/
theorem PostUser_other_error_is_500_with_text {σ : Type} (h : UserHandler σ) (repo : DB σ)
    (ctx : Context) (b : UserRequest) (user : Option User) (e : GoError) (s s1 : σ)
    (hrepo : h.repo = some repo)
    (hcreate : repo.CreateUser ctx b s = ((user, some e), s1))
    (hclass : errorsIs e .ErrUserAlreadyExists = false) :
    (h.PostUser ctx { Body := some b } s).outcome
      = .returned (some (.PostUser500JSONResponse { Error := some e.Error })) none := by
  rw [PostUser_eval_error h repo ctx b s s1 user e hrepo hcreate, hclass]
  rfl

theorem PostUser_other_error_is_500_with_text_witness :
    errorsIs (.errorString "database connection error") .ErrUserAlreadyExists = false
      ∧ (UserHandler.PostUser
            ⟨some (MockUserRepository none (some (.errorString "database connection error")))⟩
            ⟨0⟩ { Body := some johnDoeRequest } []).outcome
          = .returned (some (.PostUser500JSONResponse
              { Error := some "database connection error" })) none :=
  ⟨by decide,
    PostUser_other_error_is_500_with_text _
      (MockUserRepository none (some (.errorString "database connection error")))
      ⟨0⟩ johnDoeRequest none _ [] [.CreateUser ⟨0⟩ johnDoeRequest] rfl rfl (by decide)⟩

/-- C5: for every id and every user `u`, when the store's `GetUser(id)` returns `u`
and a nil error, `GetUser` returns the 200 variant whose six fields are those of
`u`, unchanged, with a nil error, and the store was queried exactly once, with the
request's id. -/
theorem GetUser_success_is_200 {σ : Type} (h : UserHandler σ) (repo : DB σ) (ctx : Context)
    (id : Nat) (u : User) (s s1 : σ) (hrepo : h.repo = some repo)
    (hget : repo.GetUser ctx id s = ((some u, none), s1)) :
    (h.GetUser ctx { Id := id } s).outcome
        = .returned (some (.GetUser200JSONResponse
            { Id := u.Id, FirstName := u.FirstName, LastName := u.LastName, Email := u.Email,
              CreatedAt := u.CreatedAt, UpdatedAt := u.UpdatedAt })) none
      ∧ (h.GetUser ctx { Id := id } s).storeCalls = [.GetUser ctx id]
      ∧ (h.GetUser ctx { Id := id } s).store = s1 := by
  rw [GetUser_eval_ok h repo ctx id s s1 u hrepo hget]
  exact ⟨rfl, rfl, rfl⟩

theorem GetUser_success_is_200_witness :
    (UserHandler.GetUser ⟨some (MockUserRepository (some johnDoe) none)⟩ ⟨0⟩ { Id := 1 }
          []).outcome
        = .returned (some (.GetUser200JSONResponse johnDoe)) none
      ∧ (UserHandler.GetUser ⟨some (MockUserRepository (some johnDoe) none)⟩ ⟨0⟩ { Id := 1 }
          []).storeCalls = [.GetUser ⟨0⟩ 1] :=
  ⟨(GetUser_success_is_200 ⟨some (MockUserRepository (some johnDoe) none)⟩
      (MockUserRepository (some johnDoe) none) ⟨0⟩ 1 johnDoe [] [.GetUser ⟨0⟩ 1] rfl rfl).1,
    (GetUser_success_is_200 ⟨some (MockUserRepository (some johnDoe) none)⟩
      (MockUserRepository (some johnDoe) none) ⟨0⟩ 1 johnDoe [] [.GetUser ⟨0⟩ 1] rfl rfl).2.1⟩

/-- C6: when the store operation returns an error that `errors.Is` classifies as
`ErrNotFound`, `GetUser` (for every id) and `PutUser` (for every id and every
non-nil body) return the 404 variant with "User not found" and a nil error. The
two runs are independent of each other: each has its own handler, store and
error. -/
theorem not_found_is_404 {σ τ : Type}
    (h : UserHandler σ) (repo : DB σ) (ctx : Context) (id : Nat) (user : Option User)
    (e : GoError) (s s1 : σ)
    (h' : UserHandler τ) (repo' : DB τ) (ctx' : Context) (id' : Nat) (b : UserRequest)
    (user' : Option User) (e' : GoError) (t t1 : τ)
    (hrepo : h.repo = some repo)
    (hget : repo.GetUser ctx id s = ((user, some e), s1))
    (hclass : errorsIs e .ErrNotFound = true)
    (hrepo' : h'.repo = some repo')
    (hupdate : repo'.UpdateUser ctx' b id' t = ((user', some e'), t1))
    (hclass' : errorsIs e' .ErrNotFound = true) :
    (h.GetUser ctx { Id := id } s).outcome
        = .returned (some (.GetUser404JSONResponse { Error := some "User not found" })) none
      ∧ (h'.PutUser ctx' { Id := id', Body := some b } t).outcome
        = .returned (some (.PutUser404JSONResponse { Error := some "User not found" })) none := by
  rw [GetUser_eval_error h repo ctx id s s1 user e hrepo hget, if_pos hclass,
    PutUser_eval_error h' repo' ctx' id' b t t1 user' e' hrepo' hupdate, if_pos hclass']
  exact ⟨rfl, rfl⟩

theorem not_found_is_404_witness :
    errorsIs .ErrNotFound .ErrNotFound = true
      ∧ (UserHandler.GetUser ⟨some (MockUserRepository none (some .ErrNotFound))⟩ ⟨0⟩
            { Id := 2 } []).outcome
          = .returned (some (.GetUser404JSONResponse { Error := some "User not found" })) none
      ∧ (UserHandler.PutUser ⟨some (MockUserRepository none (some .ErrNotFound))⟩ ⟨0⟩
            { Id := 2, Body := some johnDoeRequest } []).outcome
          = .returned (some (.PutUser404JSONResponse { Error := some "User not found" }))
              none :=
  ⟨by decide,
    not_found_is_404 _ (MockUserRepository none (some .ErrNotFound)) ⟨0⟩ 2 none .ErrNotFound []
      [.GetUser ⟨0⟩ 2]
      _ (MockUserRepository none (some .ErrNotFound)) ⟨0⟩ 2 johnDoeRequest none .ErrNotFound []
      [.UpdateUser ⟨0⟩ johnDoeRequest 2]
      rfl rfl (by decide) rfl rfl (by decide)⟩

/-- C7: for every store error `e` that `errors.Is` does not classify as
`ErrNotFound`, `GetUser` and `PutUser` (with a non-nil body) return the 500
variant with the fixed message "Internal server error" and a nil error; and the
outcome is the same as in any other run, on any handler and store, whose store
error is not classified as `ErrNotFound` either, so no text of `e` reaches the
caller. -/
theorem other_error_is_generic_500 {σ τ : Type}
    (h : UserHandler σ) (repo : DB σ) (ctx : Context) (id : Nat) (user : Option User)
    (e : GoError) (s s1 : σ)
    (h' : UserHandler τ) (repo' : DB τ) (ctx' : Context) (id' : Nat) (b : UserRequest)
    (user' : Option User) (e' : GoError) (t t1 : τ)
    (hrepo : h.repo = some repo)
    (hget : repo.GetUser ctx id s = ((user, some e), s1))
    (hclass : errorsIs e .ErrNotFound = false)
    (hrepo' : h'.repo = some repo')
    (hupdate : repo'.UpdateUser ctx' b id' t = ((user', some e'), t1))
    (hclass' : errorsIs e' .ErrNotFound = false) :
    (h.GetUser ctx { Id := id } s).outcome
        = .returned (some (.GetUser500JSONResponse { Error := some "Internal server error" }))
            none
      ∧ (h'.PutUser ctx' { Id := id', Body := some b } t).outcome
        = .returned (some (.PutUser500JSONResponse { Error := some "Internal server error" }))
            none
      ∧ (∀ (υ : Type) (h2 : UserHandler υ) (repo2 : DB υ) (ctx2 : Context) (id2 : Nat)
          (user2 : Option User) (e2 : GoError) (v v1 : υ),
          h2.repo = some repo2 → repo2.GetUser ctx2 id2 v = ((user2, some e2), v1) →
          errorsIs e2 .ErrNotFound = false →
          (h2.GetUser ctx2 { Id := id2 } v).outcome = (h.GetUser ctx { Id := id } s).outcome)
      ∧ (∀ (υ : Type) (h2 : UserHandler υ) (repo2 : DB υ) (ctx2 : Context) (id2 : Nat)
          (b2 : UserRequest) (user2 : Option User) (e2 : GoError) (v v1 : υ),
          h2.repo = some repo2 → repo2.UpdateUser ctx2 b2 id2 v = ((user2, some e2), v1) →
          errorsIs e2 .ErrNotFound = false →
          (h2.PutUser ctx2 { Id := id2, Body := some b2 } v).outcome
            = (h'.PutUser ctx' { Id := id', Body := some b } t).outcome) := by
  rw [GetUser_eval_error h repo ctx id s s1 user e hrepo hget, hclass,
    PutUser_eval_error h' repo' ctx' id' b t t1 user' e' hrepo' hupdate, hclass']
  refine ⟨rfl, rfl, ?_, ?_⟩
  · intro υ h2 repo2 ctx2 id2 user2 e2 v v1 hrepo2 hget2 hclass2
    rw [GetUser_eval_error h2 repo2 ctx2 id2 v v1 user2 e2 hrepo2 hget2, hclass2]
    rfl
  · intro υ h2 repo2 ctx2 id2 b2 user2 e2 v v1 hrepo2 hupdate2 hclass2
    rw [PutUser_eval_error h2 repo2 ctx2 id2 b2 v v1 user2 e2 hrepo2 hupdate2, hclass2]
    rfl

theorem other_error_is_generic_500_witness :
    errorsIs (.errorString "database connection error") .ErrNotFound = false
      ∧ errorsIs (.errorString "database update failed") .ErrNotFound = false
      ∧ (UserHandler.GetUser
            ⟨some (MockUserRepository none (some (.errorString "database connection error")))⟩
            ⟨0⟩ { Id := 3 } []).outcome
          = .returned (some (.GetUser500JSONResponse
              { Error := some "Internal server error" })) none
      ∧ (UserHandler.PutUser
            ⟨some (MockUserRepository none (some (.errorString "database update failed")))⟩
            ⟨0⟩ { Id := 3, Body := some johnDoeRequest } []).outcome
          = .returned (some (.PutUser500JSONResponse
              { Error := some "Internal server error" })) none :=
  ⟨by decide, by decide,
    (other_error_is_generic_500 _
      (MockUserRepository none (some (.errorString "database connection error"))) ⟨0⟩ 3 none
      (.errorString "database connection error") [] [.GetUser ⟨0⟩ 3]
      _ (MockUserRepository none (some (.errorString "database update failed"))) ⟨0⟩ 3
      johnDoeRequest none (.errorString "database update failed") []
      [.UpdateUser ⟨0⟩ johnDoeRequest 3]
      rfl rfl (by decide) rfl rfl (by decide)).1,
    (other_error_is_generic_500 _
      (MockUserRepository none (some (.errorString "database connection error"))) ⟨0⟩ 3 none
      (.errorString "database connection error") [] [.GetUser ⟨0⟩ 3]
      _ (MockUserRepository none (some (.errorString "database update failed"))) ⟨0⟩ 3
      johnDoeRequest none (.errorString "database update failed") []
      [.UpdateUser ⟨0⟩ johnDoeRequest 3]
      rfl rfl (by decide) rfl rfl (by decide)).2.1⟩

/-- C8: for every id and every non-nil body `b`, `PutUser` calls the store's
`UpdateUser` exactly once, with exactly `(b, id)` of the request, whatever that
call returns (it makes no other store call and leaves the store in the state that
call produced); and for every user `u`, if the call returns `u` and a nil error,
the result is the 200 variant whose six fields are those of `u`, with a nil
error. -/
theorem PutUser_updates_once_and_success_is_200 {σ : Type} (h : UserHandler σ) (repo : DB σ)
    (ctx : Context) (id : Nat) (b : UserRequest) (s : σ) (hrepo : h.repo = some repo) :
    (h.PutUser ctx { Id := id, Body := some b } s).storeCalls = [.UpdateUser ctx b id]
      ∧ (h.PutUser ctx { Id := id, Body := some b } s).store = (repo.UpdateUser ctx b id s).2
      ∧ ∀ u : User, (repo.UpdateUser ctx b id s).1 = (some u, none) →
          (h.PutUser ctx { Id := id, Body := some b } s).outcome
            = .returned (some (.PutUser200JSONResponse
                { Id := u.Id, FirstName := u.FirstName, LastName := u.LastName,
                  Email := u.Email, CreatedAt := u.CreatedAt, UpdatedAt := u.UpdatedAt }))
                none := by
  rcases hcall : repo.UpdateUser ctx b id s with ⟨⟨user, err⟩, s1⟩
  cases err with
  | some e =>
    rw [PutUser_eval_error h repo ctx id b s s1 user e hrepo hcall]
    refine ⟨?_, ?_, ?_⟩
    · split <;> rfl
    · split <;> rfl
    · intro u hu
      simp at hu
  | none =>
    cases user with
    | none =>
      refine ⟨?_, ?_, ?_⟩
      · simp [UserHandler.PutUser, hrepo, hcall, Run.storeCalls, Effect.isStoreCall]
      · simp [UserHandler.PutUser, hrepo, hcall]
      · intro u hu
        simp at hu
    | some u0 =>
      rw [PutUser_eval_ok h repo ctx id b s s1 u0 hrepo hcall]
      refine ⟨rfl, rfl, ?_⟩
      intro u hu
      simp only [Prod.mk.injEq, Option.some.injEq, and_true] at hu
      subst hu
      rfl

theorem PutUser_updates_once_and_success_is_200_witness :
    (UserHandler.PutUser ⟨some (MockUserRepository (some johnDoe) none)⟩ ⟨0⟩
          { Id := 1, Body := some johnDoeRequest } []).storeCalls
        = [.UpdateUser ⟨0⟩ johnDoeRequest 1]
      ∧ (UserHandler.PutUser ⟨some (MockUserRepository (some johnDoe) none)⟩ ⟨0⟩
          { Id := 1, Body := some johnDoeRequest } []).outcome
        = .returned (some (.PutUser200JSONResponse johnDoe)) none :=
  ⟨(PutUser_updates_once_and_success_is_200 ⟨some (MockUserRepository (some johnDoe) none)⟩
      (MockUserRepository (some johnDoe) none) ⟨0⟩ 1 johnDoeRequest [] rfl).1,
    (PutUser_updates_once_and_success_is_200 ⟨some (MockUserRepository (some johnDoe) none)⟩
      (MockUserRepository (some johnDoe) none) ⟨0⟩ 1 johnDoeRequest [] rfl).2.2 johnDoe rfl⟩

/-- C9: for every handler, also one whose store is nil, every context, request
and store state, `Health` returns the 200 variant whose status is "OK" with a nil
error; the run has no effect, hence no store call, and the store's state is as
before. -/
theorem Health_is_200_OK {σ : Type} (h : UserHandler σ) (ctx : Context)
    (request : HealthRequestObject) (s : σ) :
    (h.Health ctx request s).outcome
        = .returned (some (.Health200JSONResponse { Status := some "OK" })) none
      ∧ (h.Health ctx request s).trace = []
      ∧ (h.Health ctx request s).storeCalls = []
      ∧ (h.Health ctx request s).store = s
      ∧ (UserHandler.Health { repo := none } ctx request s).outcome
        = .returned (some (.Health200JSONResponse { Status := some "OK" })) none :=
  ⟨rfl, rfl, rfl, rfl, rfl⟩

/-- C10: on a handler with a store, for every request, when the store's result
for the call has a non-nil user whenever it has a nil error, each of `Health`,
`PostUser`, `GetUser` and `PutUser` returns: its outcome is one non-nil result
variant with a nil error, and it is not a panic. -/
theorem handlers_return_one_variant {σ : Type} (h : UserHandler σ) (repo : DB σ)
    (ctx : Context) (reqHealth : HealthRequestObject) (reqPost : PostUserRequestObject)
    (reqGet : GetUserRequestObject) (reqPut : PutUserRequestObject) (s : σ)
    (hrepo : h.repo = some repo)
    (hcreate : ∀ b, reqPost.Body = some b → userOrError (repo.CreateUser ctx b s).1 = true)
    (hget : userOrError (repo.GetUser ctx reqGet.Id s).1 = true)
    (hupdate : ∀ b, reqPut.Body = some b →
      userOrError (repo.UpdateUser ctx b reqPut.Id s).1 = true) :
    (∃ r, (h.Health ctx reqHealth s).outcome = .returned (some r) none)
      ∧ (∃ r, (h.PostUser ctx reqPost s).outcome = .returned (some r) none)
      ∧ (∃ r, (h.GetUser ctx reqGet s).outcome = .returned (some r) none)
      ∧ (∃ r, (h.PutUser ctx reqPut s).outcome = .returned (some r) none)
      ∧ (h.Health ctx reqHealth s).outcome ≠ .panicked
      ∧ (h.PostUser ctx reqPost s).outcome ≠ .panicked
      ∧ (h.GetUser ctx reqGet s).outcome ≠ .panicked
      ∧ (h.PutUser ctx reqPut s).outcome ≠ .panicked := by
  have hH : ∃ r, (h.Health ctx reqHealth s).outcome = .returned (some r) none := ⟨_, rfl⟩
  have hPost : ∃ r, (h.PostUser ctx reqPost s).outcome = .returned (some r) none := by
    rcases reqPost with ⟨_ | b⟩
    · exact ⟨_, rfl⟩
    · have hb := hcreate b rfl
      rcases hcall : repo.CreateUser ctx b s with ⟨⟨user, err⟩, s1⟩
      rw [hcall] at hb
      cases err with
      | some e =>
        rw [PostUser_eval_error h repo ctx b s s1 user e hrepo hcall]
        split <;> exact ⟨_, rfl⟩
      | none =>
        cases user with
        | none => simp [userOrError] at hb
        | some u =>
          rw [PostUser_eval_ok h repo ctx b s s1 u hrepo hcall]
          exact ⟨_, rfl⟩
  have hGet : ∃ r, (h.GetUser ctx reqGet s).outcome = .returned (some r) none := by
    rcases reqGet with ⟨id⟩
    rcases hcall : repo.GetUser ctx id s with ⟨⟨user, err⟩, s1⟩
    simp only [hcall] at hget
    cases err with
    | some e =>
      rw [GetUser_eval_error h repo ctx id s s1 user e hrepo hcall]
      split <;> exact ⟨_, rfl⟩
    | none =>
      cases user with
      | none => simp [userOrError] at hget
      | some u =>
        rw [GetUser_eval_ok h repo ctx id s s1 u hrepo hcall]
        exact ⟨_, rfl⟩
  have hPut : ∃ r, (h.PutUser ctx reqPut s).outcome = .returned (some r) none := by
    rcases reqPut with ⟨id, _ | b⟩
    · exact ⟨_, rfl⟩
    · have hb := hupdate b rfl
      rcases hcall : repo.UpdateUser ctx b id s with ⟨⟨user, err⟩, s1⟩
      simp only [hcall] at hb
      cases err with
      | some e =>
        rw [PutUser_eval_error h repo ctx id b s s1 user e hrepo hcall]
        split <;> exact ⟨_, rfl⟩
      | none =>
        cases user with
        | none => simp [userOrError] at hb
        | some u =>
          rw [PutUser_eval_ok h repo ctx id b s s1 u hrepo hcall]
          exact ⟨_, rfl⟩
  refine ⟨hH, hPost, hGet, hPut, ?_, ?_, ?_, ?_⟩
  · rcases hH with ⟨r, hr⟩
    rw [hr]
    exact fun hne => Outcome.noConfusion hne
  · rcases hPost with ⟨r, hr⟩
    rw [hr]
    exact fun hne => Outcome.noConfusion hne
  · rcases hGet with ⟨r, hr⟩
    rw [hr]
    exact fun hne => Outcome.noConfusion hne
  · rcases hPut with ⟨r, hr⟩
    rw [hr]
    exact fun hne => Outcome.noConfusion hne

theorem handlers_return_one_variant_witness :
    (∃ r, (UserHandler.Health ⟨some (MockUserRepository (some johnDoe) none)⟩ ⟨0⟩ {}
        []).outcome = .returned (some r) none)
      ∧ (∃ r, (UserHandler.PostUser ⟨some (MockUserRepository (some johnDoe) none)⟩ ⟨0⟩
        { Body := some johnDoeRequest } []).outcome = .returned (some r) none)
      ∧ (∃ r, (UserHandler.GetUser ⟨some (MockUserRepository (some johnDoe) none)⟩ ⟨0⟩
        { Id := 1 } []).outcome = .returned (some r) none)
      ∧ (∃ r, (UserHandler.PutUser ⟨some (MockUserRepository (some johnDoe) none)⟩ ⟨0⟩
        { Id := 1, Body := some johnDoeRequest } []).outcome = .returned (some r) none) :=
  have w := handlers_return_one_variant ⟨some (MockUserRepository (some johnDoe) none)⟩
    (MockUserRepository (some johnDoe) none) ⟨0⟩ {} { Body := some johnDoeRequest }
    { Id := 1 } { Id := 1, Body := some johnDoeRequest } [] rfl
    (fun _ _ => rfl) rfl (fun _ _ => rfl)
  ⟨w.1, w.2.1, w.2.2.1, w.2.2.2.1⟩

/-- C11: the handler classifies a store error by what its chain holds, not by
its text. For every store error, `GetUser` and `PutUser` return the 404 variant if
and only if the error is or wraps `ErrNotFound`, and the generic 500 variant
otherwise; `PostUser` returns the 409 variant if and only if the error is or wraps
`ErrUserAlreadyExists`, and the 500 variant otherwise. In particular another error
value whose text is "record not found" or "user already exists" gives the 500
variant. The three runs are independent of each other. -/
theorem classification_is_by_identity {σ τ υ : Type}
    (h : UserHandler σ) (repo : DB σ) (ctx : Context) (id : Nat) (user : Option User)
    (e : GoError) (s s1 : σ)
    (h' : UserHandler τ) (repo' : DB τ) (ctx' : Context) (id' : Nat) (b' : UserRequest)
    (user' : Option User) (e' : GoError) (t t1 : τ)
    (h'' : UserHandler υ) (repo'' : DB υ) (ctx'' : Context) (b'' : UserRequest)
    (user'' : Option User) (e'' : GoError) (v v1 : υ)
    (hrepo : h.repo = some repo)
    (hget : repo.GetUser ctx id s = ((user, some e), s1))
    (hrepo' : h'.repo = some repo')
    (hupdate : repo'.UpdateUser ctx' b' id' t = ((user', some e'), t1))
    (hrepo'' : h''.repo = some repo'')
    (hcreate : repo''.CreateUser ctx'' b'' v = ((user'', some e''), v1)) :
    ((h.GetUser ctx { Id := id } s).outcome
          = .returned (some (.GetUser404JSONResponse { Error := some "User not found" })) none
        ↔ GoError.ErrNotFound ∈ e.chain)
      ∧ (GoError.ErrNotFound ∉ e.chain →
          (h.GetUser ctx { Id := id } s).outcome
            = .returned (some (.GetUser500JSONResponse
                { Error := some "Internal server error" })) none)
      ∧ ((h'.PutUser ctx' { Id := id', Body := some b' } t).outcome
          = .returned (some (.PutUser404JSONResponse { Error := some "User not found" })) none
        ↔ GoError.ErrNotFound ∈ e'.chain)
      ∧ (GoError.ErrNotFound ∉ e'.chain →
          (h'.PutUser ctx' { Id := id', Body := some b' } t).outcome
            = .returned (some (.PutUser500JSONResponse
                { Error := some "Internal server error" })) none)
      ∧ ((h''.PostUser ctx'' { Body := some b'' } v).outcome
          = .returned (some (.PostUser409JSONResponse { Error := some "User already exists" }))
              none
        ↔ GoError.ErrUserAlreadyExists ∈ e''.chain)
      ∧ (GoError.ErrUserAlreadyExists ∉ e''.chain →
          (h''.PostUser ctx'' { Body := some b'' } v).outcome
            = .returned (some (.PostUser500JSONResponse { Error := some e''.Error })) none)
      ∧ (e = .errorString "record not found" →
          (h.GetUser ctx { Id := id } s).outcome
            = .returned (some (.GetUser500JSONResponse
                { Error := some "Internal server error" })) none)
      ∧ (e' = .errorString "record not found" →
          (h'.PutUser ctx' { Id := id', Body := some b' } t).outcome
            = .returned (some (.PutUser500JSONResponse
                { Error := some "Internal server error" })) none)
      ∧ (e'' = .errorString "user already exists" →
          (h''.PostUser ctx'' { Body := some b'' } v).outcome
            = .returned (some (.PostUser500JSONResponse
                { Error := some "user already exists" })) none) := by
  rw [GetUser_eval_error h repo ctx id s s1 user e hrepo hget,
    PutUser_eval_error h' repo' ctx' id' b' t t1 user' e' hrepo' hupdate,
    PostUser_eval_error h'' repo'' ctx'' b'' v v1 user'' e'' hrepo'' hcreate]
  have hG : ((if errorsIs e .ErrNotFound = true then
          (⟨.returned (some (.GetUser404JSONResponse ⟨some "User not found"⟩)) none, s1,
            [.GetUser ctx id]⟩ : Run σ GetUserResponseObject)
        else
          ⟨.returned (some (.GetUser500JSONResponse ⟨some "Internal server error"⟩)) none, s1,
            [.GetUser ctx id]⟩).outcome
        = .returned (some (.GetUser404JSONResponse { Error := some "User not found" })) none
      ↔ GoError.ErrNotFound ∈ e.chain) := by
    rw [← errorsIs_iff_mem_chain]
    cases errorsIs e .ErrNotFound <;> simp
  have hP : ((if errorsIs e' .ErrNotFound = true then
          (⟨.returned (some (.PutUser404JSONResponse ⟨some "User not found"⟩)) none, t1,
            [.UpdateUser ctx' b' id']⟩ : Run τ PutUserResponseObject)
        else
          ⟨.returned (some (.PutUser500JSONResponse ⟨some "Internal server error"⟩)) none, t1,
            [.UpdateUser ctx' b' id']⟩).outcome
        = .returned (some (.PutUser404JSONResponse { Error := some "User not found" })) none
      ↔ GoError.ErrNotFound ∈ e'.chain) := by
    rw [← errorsIs_iff_mem_chain]
    cases errorsIs e' .ErrNotFound <;> simp
  have hC : ((if errorsIs e'' .ErrUserAlreadyExists = true then
          (⟨.returned (some (.PostUser409JSONResponse ⟨some "User already exists"⟩)) none, v1,
            [.CreateUser ctx'' b'']⟩ : Run υ PostUserResponseObject)
        else
          ⟨.returned (some (.PostUser500JSONResponse ⟨some e''.Error⟩)) none, v1,
            [.CreateUser ctx'' b'', .logPrintf ("error: " ++ e''.Error)]⟩).outcome
        = .returned (some (.PostUser409JSONResponse { Error := some "User already exists" }))
            none
      ↔ GoError.ErrUserAlreadyExists ∈ e''.chain) := by
    rw [← errorsIs_iff_mem_chain]
    cases errorsIs e'' .ErrUserAlreadyExists <;> simp
  refine ⟨hG, ?_, hP, ?_, hC, ?_, ?_, ?_, ?_⟩
  · intro hn
    rw [(errorsIs_eq_false_iff e .ErrNotFound).2 hn]
    rfl
  · intro hn
    rw [(errorsIs_eq_false_iff e' .ErrNotFound).2 hn]
    rfl
  · intro hn
    rw [(errorsIs_eq_false_iff e'' .ErrUserAlreadyExists).2 hn]
    rfl
  · intro he
    subst he
    rfl
  · intro he
    subst he
    rfl
  · intro he
    subst he
    rfl

theorem classification_is_by_identity_witness :
    (UserHandler.GetUser
          ⟨some (MockUserRepository none (some (.errorString "record not found")))⟩ ⟨0⟩
          { Id := 2 } []).outcome
        = .returned (some (.GetUser500JSONResponse { Error := some "Internal server error" }))
            none
      ∧ (UserHandler.PutUser
          ⟨some (MockUserRepository none
            (some (.wrapError "update: record not found" .ErrNotFound)))⟩ ⟨0⟩
          { Id := 2, Body := some johnDoeRequest } []).outcome
        = .returned (some (.PutUser404JSONResponse { Error := some "User not found" })) none
      ∧ (UserHandler.PostUser
          ⟨some (MockUserRepository none (some (.errorString "user already exists")))⟩ ⟨0⟩
          { Body := some johnDoeRequest } []).outcome
        = .returned (some (.PostUser500JSONResponse { Error := some "user already exists" }))
            none :=
  have w := classification_is_by_identity
    ⟨some (MockUserRepository none (some (.errorString "record not found")))⟩
    (MockUserRepository none (some (.errorString "record not found"))) ⟨0⟩ 2 none
    (.errorString "record not found") [] [.GetUser ⟨0⟩ 2]
    ⟨some (MockUserRepository none (some (.wrapError "update: record not found" .ErrNotFound)))⟩
    (MockUserRepository none (some (.wrapError "update: record not found" .ErrNotFound))) ⟨0⟩ 2
    johnDoeRequest none (.wrapError "update: record not found" .ErrNotFound) []
    [.UpdateUser ⟨0⟩ johnDoeRequest 2]
    ⟨some (MockUserRepository none (some (.errorString "user already exists")))⟩
    (MockUserRepository none (some (.errorString "user already exists"))) ⟨0⟩
    johnDoeRequest none (.errorString "user already exists") []
    [.CreateUser ⟨0⟩ johnDoeRequest]
    rfl rfl rfl rfl rfl rfl
  ⟨w.2.2.2.2.2.2.1 rfl, w.2.2.1.2 (by decide), w.2.2.2.2.2.2.2.2 rfl⟩

/-- C12: every result variant, serialized by its `Visit…Response` method on any
response writer, first sets Content-Type to application/json and next writes the
status code of its name (whatever follows); on a fresh writer that code is the
status of the response. A created user is 201, a fetched or updated user 200. -/
theorem Visit_sets_json_then_status_of_name (lib : Libraries) (w : ResponseWriter)
    (hl : Health) (u : User) (e : Error) :
    (∃ rest, (HealthResponseObject.VisitHealthResponse (.Health200JSONResponse hl) w).1
          = w ++ (.HeaderSet "Content-Type" "application/json" :: .WriteHeader 200 :: rest))
      ∧ statusCode (HealthResponseObject.VisitHealthResponse (.Health200JSONResponse hl) []).1 = some 200
      ∧ (∃ rest, (PostUserResponseObject.VisitPostUserResponse lib (.PostUser201JSONResponse u) w).1
          = w ++ (.HeaderSet "Content-Type" "application/json" :: .WriteHeader 201 :: rest))
      ∧ statusCode (PostUserResponseObject.VisitPostUserResponse lib (.PostUser201JSONResponse u) []).1 = some 201
      ∧ (∃ rest, (PostUserResponseObject.VisitPostUserResponse lib (.PostUser400JSONResponse e) w).1
          = w ++ (.HeaderSet "Content-Type" "application/json" :: .WriteHeader 400 :: rest))
      ∧ statusCode (PostUserResponseObject.VisitPostUserResponse lib (.PostUser400JSONResponse e) []).1 = some 400
      ∧ (∃ rest, (PostUserResponseObject.VisitPostUserResponse lib (.PostUser409JSONResponse e) w).1
          = w ++ (.HeaderSet "Content-Type" "application/json" :: .WriteHeader 409 :: rest))
      ∧ statusCode (PostUserResponseObject.VisitPostUserResponse lib (.PostUser409JSONResponse e) []).1 = some 409
      ∧ (∃ rest, (PostUserResponseObject.VisitPostUserResponse lib (.PostUser500JSONResponse e) w).1
          = w ++ (.HeaderSet "Content-Type" "application/json" :: .WriteHeader 500 :: rest))
      ∧ statusCode (PostUserResponseObject.VisitPostUserResponse lib (.PostUser500JSONResponse e) []).1 = some 500
      ∧ (∃ rest, (GetUserResponseObject.VisitGetUserResponse lib (.GetUser200JSONResponse u) w).1
          = w ++ (.HeaderSet "Content-Type" "application/json" :: .WriteHeader 200 :: rest))
      ∧ statusCode (GetUserResponseObject.VisitGetUserResponse lib (.GetUser200JSONResponse u) []).1 = some 200
      ∧ (∃ rest, (GetUserResponseObject.VisitGetUserResponse lib (.GetUser404JSONResponse e) w).1
          = w ++ (.HeaderSet "Content-Type" "application/json" :: .WriteHeader 404 :: rest))
      ∧ statusCode (GetUserResponseObject.VisitGetUserResponse lib (.GetUser404JSONResponse e) []).1 = some 404
      ∧ (∃ rest, (GetUserResponseObject.VisitGetUserResponse lib (.GetUser500JSONResponse e) w).1
          = w ++ (.HeaderSet "Content-Type" "application/json" :: .WriteHeader 500 :: rest))
      ∧ statusCode (GetUserResponseObject.VisitGetUserResponse lib (.GetUser500JSONResponse e) []).1 = some 500
      ∧ (∃ rest, (PutUserResponseObject.VisitPutUserResponse lib (.PutUser200JSONResponse u) w).1
          = w ++ (.HeaderSet "Content-Type" "application/json" :: .WriteHeader 200 :: rest))
      ∧ statusCode (PutUserResponseObject.VisitPutUserResponse lib (.PutUser200JSONResponse u) []).1 = some 200
      ∧ (∃ rest, (PutUserResponseObject.VisitPutUserResponse lib (.PutUser400JSONResponse e) w).1
          = w ++ (.HeaderSet "Content-Type" "application/json" :: .WriteHeader 400 :: rest))
      ∧ statusCode (PutUserResponseObject.VisitPutUserResponse lib (.PutUser400JSONResponse e) []).1 = some 400
      ∧ (∃ rest, (PutUserResponseObject.VisitPutUserResponse lib (.PutUser404JSONResponse e) w).1
          = w ++ (.HeaderSet "Content-Type" "application/json" :: .WriteHeader 404 :: rest))
      ∧ statusCode (PutUserResponseObject.VisitPutUserResponse lib (.PutUser404JSONResponse e) []).1 = some 404
      ∧ (∃ rest, (PutUserResponseObject.VisitPutUserResponse lib (.PutUser500JSONResponse e) w).1
          = w ++ (.HeaderSet "Content-Type" "application/json" :: .WriteHeader 500 :: rest))
      ∧ statusCode (PutUserResponseObject.VisitPutUserResponse lib (.PutUser500JSONResponse e) []).1 = some 500 := by
  refine ⟨?_, ?_, ?_, ?_, ?_, ?_, ?_, ?_, ?_, ?_, ?_, ?_, ?_, ?_, ?_, ?_, ?_, ?_, ?_, ?_, ?_,
    ?_, ?_, ?_⟩
  all_goals first
    | exact visitJSON_ops _ _ _
    | exact visitJSON_statusCode _ _

/-- C13, as stated, fails: on the API routes a POST whose body does not decode is
answered 400 by `http.Error`, with Content-Type text/plain and the text
"Invalid request" as body, and a GET whose id does not bind is answered 400 with
the text of the binding error; neither body is a JSON object with an `error`
member. -/
theorem failure_body_not_always_json_counterexample :
    statusCode (testRoute.PostUser freshExchange ⟨⟨0⟩, "", ""⟩).w = some 400
      ∧ sentHeader (testRoute.PostUser freshExchange ⟨⟨0⟩, "", ""⟩).w "Content-Type"
          = some "text/plain; charset=utf-8"
      ∧ sentBody (testRoute.PostUser freshExchange ⟨⟨0⟩, "", ""⟩).w
          = [.text "Invalid request\n"]
      ∧ (¬ ∃ msg, sentBody (testRoute.PostUser freshExchange ⟨⟨0⟩, "", ""⟩).w
          = [.json [("error", .string msg)]])
      ∧ statusCode (testRoute.GetUser testLibraries freshExchange ⟨⟨0⟩, "abc", ""⟩).w
          = some 400
      ∧ sentHeader (testRoute.GetUser testLibraries freshExchange ⟨⟨0⟩, "abc", ""⟩).w
          "Content-Type" = some "text/plain; charset=utf-8"
      ∧ (¬ ∃ msg, sentBody (testRoute.GetUser testLibraries freshExchange ⟨⟨0⟩, "abc", ""⟩).w
          = [.json [("error", .string msg)]]) := by
  refine ⟨by decide, by decide, by decide, ?_, by decide, by decide, ?_⟩
  · rintro ⟨msg, hmsg⟩
    have h0 : sentBody (testRoute.PostUser freshExchange ⟨⟨0⟩, "", ""⟩).w
        = [.text "Invalid request\n"] := by decide
    rw [h0] at hmsg
    simp at hmsg
  · rintro ⟨msg, hmsg⟩
    have h0 : sentBody (testRoute.GetUser testLibraries freshExchange ⟨⟨0⟩, "abc", ""⟩).w
        = [.text "Invalid format for parameter id: strconv.ParseUint: parsing abc: invalid syntax\n"] := by
      decide
    rw [h0] at hmsg
    simp at hmsg

/-- C13, amended: every failure variant of the handler (400, 404, 409, 500) is
written with Content-Type application/json, the status code of the variant, and a
JSON object whose only member is `error`, and every failure variant the handler
returns carries a message; but on the API routes of `NewHandler` (with a logger) a
body that does not decode, on POST and on PUT, is answered 400 by `http.Error`
with the plain text "Invalid request", and an id that does not bind, on GET and
on PUT, is answered 400 with the plain text "Invalid format for parameter id: "
followed by the binding error's text: these two bodies are not JSON. -/
theorem failure_responses_json_or_plain_text {σ : Type} (lib : Libraries) (logger : Logger)
    (repo : Option (DB σ)) (x : Exchange σ) (rPost rPut rId : Request) (id : Nat)
    (errPost errPut errId : GoError)
    (hdecode : lib.DecodeUserRequest rPost.Body = .error errPost)
    (hbind : lib.BindStyledParameterWithOptions rPut.id = .ok id)
    (hdecode' : lib.DecodeUserRequest rPut.Body = .error errPut)
    (hbind' : lib.BindStyledParameterWithOptions rId.id = .error errId) :
    (∀ (msg : String) (w : ResponseWriter),
      PostUserResponseObject.VisitPostUserResponse lib (.PostUser400JSONResponse ⟨some msg⟩) w
          = (w ++ [.HeaderSet "Content-Type" "application/json", .WriteHeader 400,
              .Write (.json [("error", .string msg)])], none)
      ∧ PostUserResponseObject.VisitPostUserResponse lib (.PostUser409JSONResponse ⟨some msg⟩) w
          = (w ++ [.HeaderSet "Content-Type" "application/json", .WriteHeader 409,
              .Write (.json [("error", .string msg)])], none)
      ∧ PostUserResponseObject.VisitPostUserResponse lib (.PostUser500JSONResponse ⟨some msg⟩) w
          = (w ++ [.HeaderSet "Content-Type" "application/json", .WriteHeader 500,
              .Write (.json [("error", .string msg)])], none)
      ∧ GetUserResponseObject.VisitGetUserResponse lib (.GetUser404JSONResponse ⟨some msg⟩) w
          = (w ++ [.HeaderSet "Content-Type" "application/json", .WriteHeader 404,
              .Write (.json [("error", .string msg)])], none)
      ∧ GetUserResponseObject.VisitGetUserResponse lib (.GetUser500JSONResponse ⟨some msg⟩) w
          = (w ++ [.HeaderSet "Content-Type" "application/json", .WriteHeader 500,
              .Write (.json [("error", .string msg)])], none)
      ∧ PutUserResponseObject.VisitPutUserResponse lib (.PutUser400JSONResponse ⟨some msg⟩) w
          = (w ++ [.HeaderSet "Content-Type" "application/json", .WriteHeader 400,
              .Write (.json [("error", .string msg)])], none)
      ∧ PutUserResponseObject.VisitPutUserResponse lib (.PutUser404JSONResponse ⟨some msg⟩) w
          = (w ++ [.HeaderSet "Content-Type" "application/json", .WriteHeader 404,
              .Write (.json [("error", .string msg)])], none)
      ∧ PutUserResponseObject.VisitPutUserResponse lib (.PutUser500JSONResponse ⟨some msg⟩) w
          = (w ++ [.HeaderSet "Content-Type" "application/json", .WriteHeader 500,
              .Write (.json [("error", .string msg)])], none))
      ∧ (∀ (h : UserHandler σ) (ctx : Context) (request : PostUserRequestObject) (s : σ),
          (h.PostUser ctx request s).outcome = .panicked
          ∨ (∃ u, (h.PostUser ctx request s).outcome
              = .returned (some (.PostUser201JSONResponse u)) none)
          ∨ (∃ msg, (h.PostUser ctx request s).outcome
              = .returned (some (.PostUser400JSONResponse ⟨some msg⟩)) none)
          ∨ (∃ msg, (h.PostUser ctx request s).outcome
              = .returned (some (.PostUser409JSONResponse ⟨some msg⟩)) none)
          ∨ (∃ msg, (h.PostUser ctx request s).outcome
              = .returned (some (.PostUser500JSONResponse ⟨some msg⟩)) none))
      ∧ (∀ (h : UserHandler σ) (ctx : Context) (request : GetUserRequestObject) (s : σ),
          (h.GetUser ctx request s).outcome = .panicked
          ∨ (∃ u, (h.GetUser ctx request s).outcome
              = .returned (some (.GetUser200JSONResponse u)) none)
          ∨ (∃ msg, (h.GetUser ctx request s).outcome
              = .returned (some (.GetUser404JSONResponse ⟨some msg⟩)) none)
          ∨ (∃ msg, (h.GetUser ctx request s).outcome
              = .returned (some (.GetUser500JSONResponse ⟨some msg⟩)) none))
      ∧ (∀ (h : UserHandler σ) (ctx : Context) (request : PutUserRequestObject) (s : σ),
          (h.PutUser ctx request s).outcome = .panicked
          ∨ (∃ u, (h.PutUser ctx request s).outcome
              = .returned (some (.PutUser200JSONResponse u)) none)
          ∨ (∃ msg, (h.PutUser ctx request s).outcome
              = .returned (some (.PutUser400JSONResponse ⟨some msg⟩)) none)
          ∨ (∃ msg, (h.PutUser ctx request s).outcome
              = .returned (some (.PutUser404JSONResponse ⟨some msg⟩)) none)
          ∨ (∃ msg, (h.PutUser ctx request s).outcome
              = .returned (some (.PutUser500JSONResponse ⟨some msg⟩)) none))
      ∧ ((NewHandler.Route lib (some logger) repo).PostUser x rPost).w
          = httpError x.w "Invalid request" 400
      ∧ ((NewHandler.Route lib (some logger) repo).PutUser lib x rPut).w
          = httpError x.w "Invalid request" 400
      ∧ ((NewHandler.Route lib (some logger) repo).GetUser lib x rId).w
          = httpError x.w ("Invalid format for parameter id: " ++ errId.Error) 400
      ∧ ((NewHandler.Route lib (some logger) repo).PutUser lib x rId).w
          = httpError x.w ("Invalid format for parameter id: " ++ errId.Error) 400
      ∧ (∀ (text : String) (code : Nat),
          statusCode (httpError [] text code) = some code
          ∧ sentHeader (httpError [] text code) "Content-Type"
              = some "text/plain; charset=utf-8"
          ∧ sentBody (httpError [] text code) = [.text (text ++ "\n")]) := by
  refine ⟨?_, PostUser_outcome_cases, GetUser_outcome_cases, PutUser_outcome_cases, ?_, ?_, ?_,
    ?_, ?_⟩
  · intro msg w
    exact ⟨visitJSON_ok _ _ _, visitJSON_ok _ _ _, visitJSON_ok _ _ _, visitJSON_ok _ _ _,
      visitJSON_ok _ _ _, visitJSON_ok _ _ _, visitJSON_ok _ _ _, visitJSON_ok _ _ _⟩
  · rw [Route_PostUser_decode_error lib logger repo x rPost errPost hdecode]
  · rw [Route_PutUser_decode_error lib logger repo x rPut id errPut hbind hdecode']
  · rw [NewHandler.Route, HandlerFromMux, GetUser_bind_error lib _ _ x rId errId rfl hbind']
  · rw [NewHandler.Route, HandlerFromMux, PutUser_bind_error lib _ _ x rId errId rfl hbind']
  · intro text code
    exact ⟨rfl, rfl, rfl⟩

theorem failure_responses_json_or_plain_text_witness :
    (testRoute.PostUser freshExchange ⟨⟨0⟩, "", ""⟩).w = httpError [] "Invalid request" 400
      ∧ (testRoute.PutUser testLibraries freshExchange ⟨⟨0⟩, "1", ""⟩).w
          = httpError [] "Invalid request" 400
      ∧ (testRoute.GetUser testLibraries freshExchange ⟨⟨0⟩, "abc", ""⟩).w
          = httpError []
              "Invalid format for parameter id: strconv.ParseUint: parsing abc: invalid syntax"
              400 :=
  have w := failure_responses_json_or_plain_text testLibraries {}
    (some (MockUserRepository (some johnDoe) none)) freshExchange ⟨⟨0⟩, "", ""⟩
    ⟨⟨0⟩, "1", ""⟩ ⟨⟨0⟩, "abc", ""⟩ 1 (.errorString "EOF") (.errorString "EOF")
    (.errorString "strconv.ParseUint: parsing abc: invalid syntax") rfl rfl rfl rfl
  ⟨w.2.2.2.2.1, w.2.2.2.2.2.1, w.2.2.2.2.2.2.1⟩

/-- C14: for GET and PUT on /users/{id}, when binding the path parameter `id` to
an unsigned integer fails, the wrapper that `HandlerWithOptions` builds without an
error handler of its own (as `NewHandler` does) answers through `http.Error` with
status 400 and does nothing else: the store and the events of the exchange are as
before, whatever the wrapped handler and the middlewares are, so `GetUser` and
`PutUser` of the user handler are not invoked and the store is not called. (For
any wrapper, the exchange is what its error handler makes of it.) -/
theorem bad_id_is_400_without_handler {σ : Type} (lib : Libraries) (si : ServerInterface σ)
    (options : ChiServerOptions σ) (logger : Option Logger) (repo : Option (DB σ))
    (x : Exchange σ) (r : Request) (err : GoError)
    (hopt : options.ErrorHandlerFunc = none)
    (hbind : lib.BindStyledParameterWithOptions r.id = .error err) :
    (∀ siw : ServerInterfaceWrapper σ,
        siw.GetUser lib x r = siw.ErrorHandlerFunc r (InvalidParamFormatError "id" err) x
          ∧ siw.PutUser lib x r = siw.ErrorHandlerFunc r (InvalidParamFormatError "id" err) x)
      ∧ (HandlerWithOptions si options).GetUser lib x r
        = { x with w := httpError x.w ("Invalid format for parameter id: " ++ err.Error) 400 }
      ∧ (HandlerWithOptions si options).PutUser lib x r
        = { x with w := httpError x.w ("Invalid format for parameter id: " ++ err.Error) 400 }
      ∧ statusCode ((HandlerWithOptions si options).GetUser lib { x with w := [] } r).w
          = some 400
      ∧ statusCode ((HandlerWithOptions si options).PutUser lib { x with w := [] } r).w
          = some 400
      ∧ ((NewHandler.Route lib logger repo).GetUser lib x r).store = x.store
      ∧ ((NewHandler.Route lib logger repo).GetUser lib x r).events = x.events
      ∧ statusCode ((NewHandler.Route lib logger repo).GetUser lib { x with w := [] } r).w
          = some 400
      ∧ ((NewHandler.Route lib logger repo).PutUser lib x r).store = x.store
      ∧ ((NewHandler.Route lib logger repo).PutUser lib x r).events = x.events
      ∧ statusCode ((NewHandler.Route lib logger repo).PutUser lib { x with w := [] } r).w
          = some 400 := by
  rw [NewHandler.Route, HandlerFromMux]
  rw [GetUser_bind_error lib si options x r err hopt hbind,
    PutUser_bind_error lib si options x r err hopt hbind,
    GetUser_bind_error lib si options _ r err hopt hbind,
    PutUser_bind_error lib si options _ r err hopt hbind,
    GetUser_bind_error lib _ _ x r err rfl hbind,
    PutUser_bind_error lib _ _ x r err rfl hbind,
    GetUser_bind_error lib _ _ { x with w := [] } r err rfl hbind,
    PutUser_bind_error lib _ _ { x with w := [] } r err rfl hbind]
  refine ⟨?_, rfl, rfl, rfl, rfl, rfl, rfl, rfl, rfl, rfl, rfl⟩
  intro siw
  simp [ServerInterfaceWrapper.GetUser, ServerInterfaceWrapper.PutUser, hbind]

theorem bad_id_is_400_without_handler_witness :
    statusCode (testRoute.GetUser testLibraries freshExchange ⟨⟨0⟩, "abc", ""⟩).w = some 400
      ∧ (testRoute.GetUser testLibraries freshExchange ⟨⟨0⟩, "abc", ""⟩).events = []
      ∧ (testRoute.PutUser testLibraries freshExchange ⟨⟨0⟩, "abc", ""⟩).store = [] :=
  have w := bad_id_is_400_without_handler testLibraries
    ((NewHandler.ownStrictHandler (some {})
      (some (MockUserRepository (some johnDoe) none))).toServerInterface testLibraries)
    { BaseURL := "", Middlewares := [], ErrorHandlerFunc := none } (some {})
    (some (MockUserRepository (some johnDoe) none)) freshExchange ⟨⟨0⟩, "abc", ""⟩
    (.errorString "strconv.ParseUint: parsing abc: invalid syntax") rfl rfl
  ⟨w.2.2.2.2.2.2.2.1, w.2.2.2.2.2.2.1, w.2.2.2.2.2.2.2.2.1⟩

/-- C15: for every `UserRequest` and every error `e` the scan of the insert's row
returns, the store's `CreateUser` returns a nil user, and its error is the sentinel
`ErrUserAlreadyExists` if and only if `e` is or wraps a PostgreSQL error whose code
is "23505"; otherwise its error wraps `e` (it unwraps to `e`) and its text is
"failed to create user: " followed by the text of `e`. -/
theorem CreateUser_scan_failure {π : Type} (d : db π) (ctx : Context) (u : UserRequest)
    (p p1 : π) (e : GoError)
    (hq : d.pool.QueryRow ctx db.insertQuery
      [.string u.FirstName, .string u.LastName, .Email u.Email] p = (.scanError e, p1)) :
    (d.CreateUser ctx u p).user = none
      ∧ ((d.CreateUser ctx u p).err = some .ErrUserAlreadyExists
          ↔ ∃ sev msg, GoError.PgError sev "23505" msg ∈ e.chain)
      ∧ ((¬ ∃ sev msg, GoError.PgError sev "23505" msg ∈ e.chain) →
          ∃ err, (d.CreateUser ctx u p).err = some err
            ∧ err.Unwrap = some e
            ∧ err.Error = "failed to create user: " ++ e.Error
            ∧ err ≠ .ErrUserAlreadyExists) := by
  rw [CreateUser_scanError d ctx u p p1 e hq, ← isDuplicateKeyError_iff]
  cases hdup : isDuplicateKeyError e
  · simp [GoError.Unwrap, GoError.Error]
  · simp

theorem CreateUser_scan_failure_witness :
    ((db.mk (MockPool (.scanError (.errorString "db error")))).CreateUser ⟨0⟩ johnDoeRequest
        []).user = none
      ∧ ∃ err, ((db.mk (MockPool (.scanError (.errorString "db error")))).CreateUser ⟨0⟩
            johnDoeRequest []).err = some err
          ∧ err.Unwrap = some (.errorString "db error")
          ∧ err.Error = "failed to create user: " ++ GoError.Error (.errorString "db error")
          ∧ err ≠ .ErrUserAlreadyExists :=
  have w := CreateUser_scan_failure (db.mk (MockPool (.scanError (.errorString "db error"))))
    ⟨0⟩ johnDoeRequest []
    [⟨⟨0⟩, db.insertQuery, [.string "John", .string "Doe", .Email "john.doe@example.com"]⟩]
    (.errorString "db error") rfl
  ⟨w.1, w.2.2 (by simp [GoError.chain])⟩

/-- C16: for every id and every `UserRequest`, when the scan of the query's row
fails with an error that is or wraps `sql.ErrNoRows`, the store's `GetUser` and
`UpdateUser` return a nil user and the sentinel `ErrNotFound`, so that
`errors.Is(err, ErrNotFound)` holds; for every other scan error `e` they return a
nil user and an error that wraps `e`, whose text is "failed to get user: " (or
"failed to update user: ") followed by the text of `e`, and which is not the value
`ErrNotFound` (`errors.Is` finds `ErrNotFound` in it exactly when it is in the
chain of `e` itself). The two runs are independent of each other. -/
theorem no_rows_is_ErrNotFound {π ρ : Type} (d : db π) (ctx : Context) (id : Nat)
    (p p1 : π) (e : GoError)
    (d' : db ρ) (ctx' : Context) (u : UserRequest) (id' : Nat) (q q1 : ρ) (e' : GoError)
    (hget : d.pool.QueryRow ctx db.selectQuery [.uint id] p = (.scanError e, p1))
    (hupdate : d'.pool.QueryRow ctx' db.updateQuery
      [.string u.FirstName, .string u.LastName, .Email u.Email, .uint id'] q
        = (.scanError e', q1)) :
    (d.GetUser ctx id p).user = none
      ∧ (errorsIs e .sqlErrNoRows = true →
          (d.GetUser ctx id p).err = some .ErrNotFound
            ∧ errorsIs .ErrNotFound .ErrNotFound = true)
      ∧ (errorsIs e .sqlErrNoRows = false →
          (d.GetUser ctx id p).err
              = some (.wrapError ("failed to get user: " ++ e.Error) e)
            ∧ GoError.wrapError ("failed to get user: " ++ e.Error) e ≠ .ErrNotFound
            ∧ errorsIs (.wrapError ("failed to get user: " ++ e.Error) e) .ErrNotFound
                = errorsIs e .ErrNotFound)
      ∧ (d'.UpdateUser ctx' u id' q).user = none
      ∧ (errorsIs e' .sqlErrNoRows = true →
          (d'.UpdateUser ctx' u id' q).err = some .ErrNotFound
            ∧ errorsIs .ErrNotFound .ErrNotFound = true)
      ∧ (errorsIs e' .sqlErrNoRows = false →
          (d'.UpdateUser ctx' u id' q).err
              = some (.wrapError ("failed to update user: " ++ e'.Error) e')
            ∧ GoError.wrapError ("failed to update user: " ++ e'.Error) e' ≠ .ErrNotFound
            ∧ errorsIs (.wrapError ("failed to update user: " ++ e'.Error) e') .ErrNotFound
                = errorsIs e' .ErrNotFound) := by
  rw [GetUser_scanError d ctx id p p1 e hget,
    UpdateUser_scanError d' ctx' u id' q q1 e' hupdate]
  refine ⟨?_, ?_, ?_, ?_, ?_, ?_⟩
  · split <;> rfl
  · intro h
    rw [if_pos h]
    exact ⟨rfl, rfl⟩
  · intro h
    rw [h]
    refine ⟨rfl, fun hne => GoError.noConfusion hne, ?_⟩
    simp [errorsIs]
  · split <;> rfl
  · intro h
    rw [if_pos h]
    exact ⟨rfl, rfl⟩
  · intro h
    rw [h]
    refine ⟨rfl, fun hne => GoError.noConfusion hne, ?_⟩
    simp [errorsIs]

theorem no_rows_is_ErrNotFound_witness :
    ((db.mk (MockPool (.scanError .sqlErrNoRows))).GetUser ⟨0⟩ 2 []).user = none
      ∧ ((db.mk (MockPool (.scanError .sqlErrNoRows))).GetUser ⟨0⟩ 2 []).err
          = some .ErrNotFound
      ∧ ((db.mk (MockPool (.scanError (.errorString "db error")))).UpdateUser ⟨0⟩
          johnDoeRequest 2 []).err
          = some (.wrapError "failed to update user: db error" (.errorString "db error")) :=
  have w := no_rows_is_ErrNotFound (db.mk (MockPool (.scanError .sqlErrNoRows))) ⟨0⟩ 2 []
    [⟨⟨0⟩, db.selectQuery, [.uint 2]⟩] .sqlErrNoRows
    (db.mk (MockPool (.scanError (.errorString "db error")))) ⟨0⟩ johnDoeRequest 2 []
    [⟨⟨0⟩, db.updateQuery,
      [.string "John", .string "Doe", .Email "john.doe@example.com", .uint 2]⟩]
    (.errorString "db error") rfl rfl
  ⟨w.1, (w.2.1 (by decide)).1, (w.2.2.2.2.2 (by decide)).1⟩

/-- C17: each of the store's `CreateUser`, `GetUser` and `UpdateUser` issues
exactly one query, whose positional arguments are, in order, (first_name,
last_name, email), (id) and (first_name, last_name, email, id): the queries of
the run are that one query, the pool is left in the state in which the one call
of `QueryRow` with that statement and these arguments leaves it, and a pool that
records the calls it receives has received that one call and no other. When the
scan of the row succeeds, the method returns a nil error and the user whose id,
first_name, last_name, email, created_at and updated_at are the scanned columns,
in that order. -/
theorem store_issues_one_query_and_returns_scanned_row {π : Type} (d : db π)
    (ctx : Context) (u : UserRequest) (id : Nat) (p : π) :
    (d.CreateUser ctx u p).queries
        = [⟨ctx, db.insertQuery, [.string u.FirstName, .string u.LastName, .Email u.Email]⟩]
      ∧ (d.GetUser ctx id p).queries = [⟨ctx, db.selectQuery, [.uint id]⟩]
      ∧ (d.UpdateUser ctx u id p).queries
        = [⟨ctx, db.updateQuery,
            [.string u.FirstName, .string u.LastName, .Email u.Email, .uint id]⟩]
      ∧ (d.CreateUser ctx u p).pool
        = (d.pool.QueryRow ctx db.insertQuery
            [.string u.FirstName, .string u.LastName, .Email u.Email] p).2
      ∧ (d.GetUser ctx id p).pool = (d.pool.QueryRow ctx db.selectQuery [.uint id] p).2
      ∧ (d.UpdateUser ctx u id p).pool
        = (d.pool.QueryRow ctx db.updateQuery
            [.string u.FirstName, .string u.LastName, .Email u.Email, .uint id] p).2
      ∧ (∀ (row : Row) (calls : List Query),
          ((db.mk (MockPool row)).CreateUser ctx u calls).pool
              = calls ++ [⟨ctx, db.insertQuery,
                  [.string u.FirstName, .string u.LastName, .Email u.Email]⟩]
            ∧ ((db.mk (MockPool row)).GetUser ctx id calls).pool
              = calls ++ [⟨ctx, db.selectQuery, [.uint id]⟩]
            ∧ ((db.mk (MockPool row)).UpdateUser ctx u id calls).pool
              = calls ++ [⟨ctx, db.updateQuery,
                  [.string u.FirstName, .string u.LastName, .Email u.Email, .uint id]⟩])
      ∧ (∀ (c0 : Nat) (c1 c2 : String) (c3 : Email) (c4 c5 : Time) (p1 : π),
          d.pool.QueryRow ctx db.insertQuery
              [.string u.FirstName, .string u.LastName, .Email u.Email] p
            = (.columns c0 c1 c2 c3 c4 c5, p1) →
          (d.CreateUser ctx u p).err = none
            ∧ (d.CreateUser ctx u p).user
              = some { Id := c0, FirstName := c1, LastName := c2, Email := c3,
                       CreatedAt := c4, UpdatedAt := c5 }
            ∧ (d.CreateUser ctx u p).pool = p1)
      ∧ (∀ (c0 : Nat) (c1 c2 : String) (c3 : Email) (c4 c5 : Time) (p1 : π),
          d.pool.QueryRow ctx db.selectQuery [.uint id] p
            = (.columns c0 c1 c2 c3 c4 c5, p1) →
          (d.GetUser ctx id p).err = none
            ∧ (d.GetUser ctx id p).user
              = some { Id := c0, FirstName := c1, LastName := c2, Email := c3,
                       CreatedAt := c4, UpdatedAt := c5 }
            ∧ (d.GetUser ctx id p).pool = p1)
      ∧ (∀ (c0 : Nat) (c1 c2 : String) (c3 : Email) (c4 c5 : Time) (p1 : π),
          d.pool.QueryRow ctx db.updateQuery
              [.string u.FirstName, .string u.LastName, .Email u.Email, .uint id] p
            = (.columns c0 c1 c2 c3 c4 c5, p1) →
          (d.UpdateUser ctx u id p).err = none
            ∧ (d.UpdateUser ctx u id p).user
              = some { Id := c0, FirstName := c1, LastName := c2, Email := c3,
                       CreatedAt := c4, UpdatedAt := c5 }
            ∧ (d.UpdateUser ctx u id p).pool = p1) := by
  refine ⟨CreateUser_queries d ctx u p, GetUser_queries d ctx id p,
    UpdateUser_queries d ctx u id p, CreateUser_pool d ctx u p, GetUser_pool d ctx id p,
    UpdateUser_pool d ctx u id p, ?_, ?_, ?_, ?_⟩
  · intro row calls
    exact ⟨CreateUser_pool _ ctx u calls, GetUser_pool _ ctx id calls,
      UpdateUser_pool _ ctx u id calls⟩
  · intro c0 c1 c2 c3 c4 c5 p1 hq
    rw [CreateUser_columns d ctx u p p1 c0 c1 c2 c3 c4 c5 hq]
    exact ⟨rfl, rfl, rfl⟩
  · intro c0 c1 c2 c3 c4 c5 p1 hq
    rw [GetUser_columns d ctx id p p1 c0 c1 c2 c3 c4 c5 hq]
    exact ⟨rfl, rfl, rfl⟩
  · intro c0 c1 c2 c3 c4 c5 p1 hq
    rw [UpdateUser_columns d ctx u id p p1 c0 c1 c2 c3 c4 c5 hq]
    exact ⟨rfl, rfl, rfl⟩

theorem store_issues_one_query_and_returns_scanned_row_witness :
    ((db.mk (MockPool (.columns 1 "John" "Doe" "john.doe@example.com" fixedTime
          fixedTime))).CreateUser ⟨0⟩ johnDoeRequest []).queries
        = [⟨⟨0⟩, db.insertQuery,
            [.string "John", .string "Doe", .Email "john.doe@example.com"]⟩]
      ∧ ((db.mk (MockPool (.columns 1 "John" "Doe" "john.doe@example.com" fixedTime
          fixedTime))).CreateUser ⟨0⟩ johnDoeRequest []).pool
        = [⟨⟨0⟩, db.insertQuery,
            [.string "John", .string "Doe", .Email "john.doe@example.com"]⟩]
      ∧ ((db.mk (MockPool (.columns 1 "John" "Doe" "john.doe@example.com" fixedTime
          fixedTime))).CreateUser ⟨0⟩ johnDoeRequest []).user = some johnDoe
      ∧ ((db.mk (MockPool (.columns 1 "John" "Doe" "john.doe@example.com" fixedTime
          fixedTime))).GetUser ⟨0⟩ 1 []).user = some johnDoe :=
  have w := store_issues_one_query_and_returns_scanned_row
    (db.mk (MockPool (.columns 1 "John" "Doe" "john.doe@example.com" fixedTime fixedTime)))
    ⟨0⟩ johnDoeRequest 1 []
  ⟨w.1, (w.2.2.2.2.2.2.1 _ []).1,
    (w.2.2.2.2.2.2.2.1 1 "John" "Doe" "john.doe@example.com" fixedTime fixedTime _ rfl).2.1,
    (w.2.2.2.2.2.2.2.2.1 1 "John" "Doe" "john.doe@example.com" fixedTime fixedTime _ rfl).2.1⟩

/-- C20, as stated, fails: the scan error of the insert can be one that is no
PostgreSQL unique violation and yet is (or wraps) the sentinel
`ErrUserAlreadyExists`; the store client wraps it with "failed to create user: ",
`errors.Is` in the handler finds the sentinel in the chain, and `PostUser` yields
the 409 variant, not the 500 variant with the wrapped text. -/
theorem other_insert_error_can_be_409_counterexample :
    (¬ ∃ sev msg, GoError.PgError sev "23505" msg ∈ GoError.chain .ErrUserAlreadyExists)
      ∧ ((db.mk (MockPool (.scanError .ErrUserAlreadyExists))).CreateUser ⟨0⟩ johnDoeRequest
          []).err
        = some (.wrapError "failed to create user: user already exists" .ErrUserAlreadyExists)
      ∧ (UserHandler.PostUser
            ⟨some (db.mk (MockPool (.scanError .ErrUserAlreadyExists))).toDB⟩ ⟨0⟩
            { Body := some johnDoeRequest } []).outcome
        = .returned (some (.PostUser409JSONResponse { Error := some "User already exists" }))
            none
      ∧ (UserHandler.PostUser
            ⟨some (db.mk (MockPool (.scanError .ErrUserAlreadyExists))).toDB⟩ ⟨0⟩
            { Body := some johnDoeRequest } []).outcome
        ≠ .returned (some (.PostUser500JSONResponse
            { Error := some "failed to create user: user already exists" })) none := by
  refine ⟨by simp [GoError.chain], by decide, by decide, by decide⟩

/-- C20, amended: composing the handler with the store client, for every non-nil
body, if the scan of the insert's row fails with an error that is or wraps a
PostgreSQL error of code "23505", `PostUser` yields the 409 variant
"User already exists" (and so not the 500 variant); if it fails with any other
error `e` that neither is nor wraps the sentinel `ErrUserAlreadyExists`, `PostUser`
yields the 500 variant with the message "failed to create user: " followed by the
text of `e`; an error that is or wraps the sentinel yields the 409 variant. -/
theorem PostUser_over_store_client {π : Type} (d : db π) (ctx : Context) (b : UserRequest)
    (p p1 : π) (e : GoError)
    (hq : d.pool.QueryRow ctx db.insertQuery
      [.string b.FirstName, .string b.LastName, .Email b.Email] p = (.scanError e, p1)) :
    ((∃ sev msg, GoError.PgError sev "23505" msg ∈ e.chain) →
        (UserHandler.PostUser ⟨some d.toDB⟩ ctx { Body := some b } p).outcome
            = .returned (some (.PostUser409JSONResponse
                { Error := some "User already exists" })) none
          ∧ ∀ msg, (UserHandler.PostUser ⟨some d.toDB⟩ ctx { Body := some b } p).outcome
            ≠ .returned (some (.PostUser500JSONResponse { Error := some msg })) none)
      ∧ ((¬ ∃ sev msg, GoError.PgError sev "23505" msg ∈ e.chain) →
          GoError.ErrUserAlreadyExists ∉ e.chain →
          (UserHandler.PostUser ⟨some d.toDB⟩ ctx { Body := some b } p).outcome
            = .returned (some (.PostUser500JSONResponse
                { Error := some ("failed to create user: " ++ e.Error) })) none)
      ∧ (GoError.ErrUserAlreadyExists ∈ e.chain →
          (UserHandler.PostUser ⟨some d.toDB⟩ ctx { Body := some b } p).outcome
            = .returned (some (.PostUser409JSONResponse
                { Error := some "User already exists" })) none) := by
  have hrun := CreateUser_scanError d ctx b p p1 e hq
  cases hdup : isDuplicateKeyError e
  · -- the client wraps `e`
    rw [hdup] at hrun
    have hcall : d.toDB.CreateUser ctx b p
        = ((none, some (.wrapError ("failed to create user: " ++ e.Error) e)), p1) := by
      simp [db.toDB, hrun]
    have hev := PostUser_eval_error ⟨some d.toDB⟩ d.toDB ctx b p p1 none _ rfl hcall
    have hnd : ¬ ∃ sev msg, GoError.PgError sev "23505" msg ∈ e.chain := by
      rw [← isDuplicateKeyError_iff, hdup]
      simp
    have hwrap : errorsIs (.wrapError ("failed to create user: " ++ e.Error) e)
        .ErrUserAlreadyExists = errorsIs e .ErrUserAlreadyExists := by
      simp [errorsIs]
    refine ⟨fun h => absurd h hnd, ?_, ?_⟩
    · intro _ hn
      rw [hev, hwrap, (errorsIs_eq_false_iff e .ErrUserAlreadyExists).2 hn]
      rfl
    · intro hm
      rw [hev, hwrap, (errorsIs_iff_mem_chain e .ErrUserAlreadyExists).2 hm]
      rfl
  · -- the client returns the sentinel
    rw [hdup] at hrun
    have hcall : d.toDB.CreateUser ctx b p = ((none, some .ErrUserAlreadyExists), p1) := by
      simp [db.toDB, hrun]
    have hev := PostUser_eval_error ⟨some d.toDB⟩ d.toDB ctx b p p1 none _ rfl hcall
    have hout : (UserHandler.PostUser ⟨some d.toDB⟩ ctx { Body := some b } p).outcome
        = .returned (some (.PostUser409JSONResponse { Error := some "User already exists" }))
            none := by
      rw [hev]
      rfl
    refine ⟨fun _ => ⟨hout, ?_⟩, ?_, fun _ => hout⟩
    · intro msg
      rw [hout]
      simp
    · intro hnd
      exact absurd ((isDuplicateKeyError_iff e).1 hdup) hnd

theorem PostUser_over_store_client_witness :
    (UserHandler.PostUser
          ⟨some (db.mk (MockPool (.scanError
            (.PgError "ERROR" "23505" "duplicate key value violates unique constraint")))).toDB⟩
          ⟨0⟩ { Body := some johnDoeRequest } []).outcome
        = .returned (some (.PostUser409JSONResponse { Error := some "User already exists" }))
            none
      ∧ (UserHandler.PostUser
          ⟨some (db.mk (MockPool (.scanError (.errorString "db error")))).toDB⟩
          ⟨0⟩ { Body := some johnDoeRequest } []).outcome
        = .returned (some (.PostUser500JSONResponse
            { Error := some ("failed to create user: " ++ GoError.Error (.errorString "db error")) }))
            none :=
  ⟨((PostUser_over_store_client
      (db.mk (MockPool (.scanError
        (.PgError "ERROR" "23505" "duplicate key value violates unique constraint"))))
      ⟨0⟩ johnDoeRequest []
      [⟨⟨0⟩, db.insertQuery, [.string "John", .string "Doe", .Email "john.doe@example.com"]⟩]
      _ rfl).1 ⟨"ERROR", "duplicate key value violates unique constraint",
        by simp [GoError.chain]⟩).1,
    (PostUser_over_store_client (db.mk (MockPool (.scanError (.errorString "db error"))))
      ⟨0⟩ johnDoeRequest []
      [⟨⟨0⟩, db.insertQuery, [.string "John", .string "Doe", .Email "john.doe@example.com"]⟩]
      _ rfl).2.1 (by simp [GoError.chain]) (by simp [GoError.chain])⟩

/-- C18: on the `users` table, for every id that has a row and every request
`req`, a successful `UpdateUser(id, req)` followed (at any later time) by
`GetUser(id)` yields the user the update returned: its first_name, last_name and
email are those of `req`, its id and created_at are those of the row before, and
its updated_at is refreshed by the update, to the clock of the table at the
update, which is not earlier than the prior updated_at. -/
theorem update_then_get_returns_updated_user (t : UsersTable) (ctx ctx' : Context)
    (id : Nat) (req : UserRequest) (old u : User) (delay : Nat)
    (hwf : t.wellFormed = true)
    (hold : t.rows.find? (fun row => row.Id == id) = some old)
    (hupdate : (tableStore.UpdateUser ctx req id t).user = some u) :
    (tableStore.UpdateUser ctx req id t).err = none
      ∧ (tableStore.GetUser ctx' id
          ((tableStore.UpdateUser ctx req id t).pool.tick delay)).user = some u
      ∧ (tableStore.GetUser ctx' id
          ((tableStore.UpdateUser ctx req id t).pool.tick delay)).err = none
      ∧ u.FirstName = req.FirstName ∧ u.LastName = req.LastName ∧ u.Email = req.Email
      ∧ u.Id = id ∧ u.Id = old.Id ∧ u.CreatedAt = old.CreatedAt
      ∧ u.UpdatedAt = t.now
      ∧ old.UpdatedAt.nanos ≤ u.UpdatedAt.nanos := by
  have hid : old.Id = id := by
    have := List.find?_some hold
    simpa using this
  have hle : old.UpdatedAt.nanos ≤ t.now.nanos :=
    ((wellFormed_iff t).1 hwf old (List.mem_of_find?_eq_some hold)).2
  cases hany : t.rows.any (fun row => row.Id != id && row.Email == req.Email)
  · rw [tableStore_UpdateUser_ok ctx req id t old hold hany] at hupdate ⊢
    simp only [Option.some.injEq] at hupdate
    subst hupdate
    have hfind : (UsersTable.tick delay
        { t with rows := t.rows.map (fun row =>
            if row.Id == id then UsersTable.assign req.FirstName req.LastName req.Email t row
            else row) }).rows.find? (fun r => r.Id == id)
        = some (UsersTable.assign req.FirstName req.LastName req.Email t old) := by
      show (t.rows.map _).find? _ = _
      rw [find?_map_of_preserved _ _ _ t.rows, hold]
      · simp [hid]
      · intro a
        by_cases ha : a.Id = id <;> simp [ha, UsersTable.assign]
    rw [tableStore_GetUser_found ctx' id _ _ hfind]
    exact ⟨rfl, rfl, rfl, rfl, rfl, rfl, hid, rfl, rfl, rfl, hle⟩
  · rw [tableStore_UpdateUser_fails ctx req id t (Or.inr hany)] at hupdate
    exact absurd hupdate (by simp)

theorem update_then_get_returns_updated_user_witness :
    exampleTable.wellFormed = true
      ∧ johnDoe.UpdatedAt = fixedTime
      ∧ (tableStore.GetUser ⟨0⟩ 1
          ((tableStore.UpdateUser ⟨0⟩ johnUpdatedRequest 1 exampleTable).pool.tick 5)).user
        = some { Id := 1, FirstName := "John", LastName := "Doe Updated",
                 Email := "john.updated@example.com", CreatedAt := fixedTime,
                 UpdatedAt := ⟨fixedTime.nanos + 3600000000000⟩ } :=
  ⟨by decide, rfl,
    (update_then_get_returns_updated_user exampleTable ⟨0⟩ ⟨0⟩ 1
      johnUpdatedRequest johnDoe
      { Id := 1, FirstName := "John", LastName := "Doe Updated",
        Email := "john.updated@example.com", CreatedAt := fixedTime,
        UpdatedAt := ⟨fixedTime.nanos + 3600000000000⟩ } 5 (by decide) (by decide)
      (by decide)).2.1⟩

/-- C19: on the `users` table, for every `UserRequest` `r`, a successful
`CreateUser(r)` that returns a user `u`, followed (at any later time) by
`GetUser(u.id)` on the same store, yields `u` again: a user with the first_name,
last_name and email of `r` and with created_at equal to updated_at. -/
theorem create_then_get_returns_created_user (t : UsersTable) (ctx ctx' : Context)
    (r : UserRequest) (u : User) (delay : Nat)
    (hwf : t.wellFormed = true)
    (hcreate : (tableStore.CreateUser ctx r t).user = some u) :
    (tableStore.CreateUser ctx r t).err = none
      ∧ (tableStore.GetUser ctx' u.Id
          ((tableStore.CreateUser ctx r t).pool.tick delay)).user = some u
      ∧ (tableStore.GetUser ctx' u.Id
          ((tableStore.CreateUser ctx r t).pool.tick delay)).err = none
      ∧ u.FirstName = r.FirstName ∧ u.LastName = r.LastName ∧ u.Email = r.Email
      ∧ u.CreatedAt = u.UpdatedAt := by
  cases hany : t.rows.any (fun row => row.Email == r.Email)
  · rw [tableStore_CreateUser_ok ctx r t hany] at hcreate ⊢
    simp only [Option.some.injEq] at hcreate
    subst hcreate
    have hnone : t.rows.find? (fun row => row.Id == t.nextId) = none := by
      rw [List.find?_eq_none]
      intro x hx
      have hx' := (List.all_eq_true.1 hwf) x hx
      simp only [Bool.and_eq_true, decide_eq_true_eq] at hx'
      simp only [beq_iff_eq]
      omega
    have hfind : (UsersTable.tick delay
        { t with
          rows := t.rows ++ [{ Id := t.nextId, FirstName := r.FirstName,
                               LastName := r.LastName, Email := r.Email,
                               CreatedAt := t.now, UpdatedAt := t.now }],
          nextId := t.nextId + 1 }).rows.find? (fun row => row.Id == t.nextId)
        = some { Id := t.nextId, FirstName := r.FirstName, LastName := r.LastName,
                 Email := r.Email, CreatedAt := t.now, UpdatedAt := t.now } := by
      show (t.rows ++ [_]).find? _ = _
      rw [List.find?_append, hnone]
      simp
    rw [tableStore_GetUser_found ctx' _ _ _ hfind]
    exact ⟨rfl, rfl, rfl, rfl, rfl, rfl, rfl⟩
  · rw [(tableStore_CreateUser_taken ctx r t hany).1] at hcreate
    exact absurd hcreate (by simp)

theorem create_then_get_returns_created_user_witness :
    exampleTable.wellFormed = true
      ∧ (tableStore.GetUser ⟨0⟩ 2
          ((tableStore.CreateUser ⟨0⟩ johnUpdatedRequest exampleTable).pool.tick 5)).user
        = some { Id := 2, FirstName := "John", LastName := "Doe Updated",
                 Email := "john.updated@example.com", CreatedAt := exampleTable.now,
                 UpdatedAt := exampleTable.now } :=
  ⟨by decide,
    (create_then_get_returns_created_user exampleTable ⟨0⟩ ⟨0⟩ johnUpdatedRequest
      { Id := 2, FirstName := "John", LastName := "Doe Updated",
        Email := "john.updated@example.com", CreatedAt := exampleTable.now,
        UpdatedAt := exampleTable.now } 5 (by decide) (by decide)).2.1⟩

/-- C23, as stated, fails: `New` applies `setMode` to what was read from the
environment. With HTTP_PORT=9090, LOG_LEVEL=debug, LOG_FORMAT=text and
DB_SSL_MODE=disable supplied and APP_MODE left to its default "prod", the `Config`
returned has port 8080, level Info, format "json" and sslmode "require". -/
theorem New_overrides_environment_counterexample :
    (config.New (fun (_ : Unit) _ => .ok config.exampleRead) ()).2 = none
      ∧ ((config.New (fun (_ : Unit) _ => .ok config.exampleRead) ()).1.map
          (fun cfg => (cfg.HTTP.Port, cfg.Log.Level, cfg.Log.Format, cfg.Database.SSLMode)))
        = some (8080, slog.LevelInfo, "json", "require")
      ∧ (config.exampleRead.HTTP.Port, config.exampleRead.Log.Level,
          config.exampleRead.Log.Format, config.exampleRead.Database.SSLMode)
        = (9090, slog.LevelDebug, "text", "disable")
      ∧ ((config.New (fun (_ : Unit) _ => .ok config.exampleRead) ()).1.map
          (fun cfg => cfg.HTTP.Port)) ≠ some config.exampleRead.HTTP.Port := by
  refine ⟨by decide, by decide, by decide, by decide⟩

/-- C23, amended: for every environment from which the library reads a `Config`
`read`, `New` returns `setMode read` and a nil error. The HTTP port, the log level
and format and the database sslmode of the result are those read from the
environment only when APP_MODE is none of "dev", "test", "prod"; in these three
modes ("prod" being the declared default of APP_MODE) the port is 8080 and level,
format and sslmode are those of the mode, whatever the environment supplied. When
the library fails, `New` returns nil and an error wrapping the library's. -/
theorem New_is_setMode_of_environment {ε : Type}
    (ReadEnv : ε → config.Config → Except GoError config.Config) (env : ε)
    (read : config.Config) (hread : ReadEnv env config.zero = .ok read) :
    config.New ReadEnv env = (some (config.setMode read), none)
      ∧ (read.App.Mode ≠ "dev" → read.App.Mode ≠ "test" → read.App.Mode ≠ "prod" →
          (config.setMode read).HTTP.Port = read.HTTP.Port
            ∧ (config.setMode read).Log.Level = read.Log.Level
            ∧ (config.setMode read).Log.Format = read.Log.Format
            ∧ (config.setMode read).Database.SSLMode = read.Database.SSLMode)
      ∧ (read.App.Mode = "dev" →
          (config.setMode read).HTTP.Port = 8080
            ∧ (config.setMode read).Log.Level = slog.LevelDebug
            ∧ (config.setMode read).Log.Format = "json"
            ∧ (config.setMode read).Database.SSLMode = "disable")
      ∧ (read.App.Mode = "test" →
          (config.setMode read).HTTP.Port = 8080
            ∧ (config.setMode read).Log.Level = slog.LevelDebug
            ∧ (config.setMode read).Log.Format = "text"
            ∧ (config.setMode read).Database.SSLMode = "disable")
      ∧ (read.App.Mode = "prod" →
          (config.setMode read).HTTP.Port = 8080
            ∧ (config.setMode read).Log.Level = slog.LevelInfo
            ∧ (config.setMode read).Log.Format = "json"
            ∧ (config.setMode read).Database.SSLMode = "require")
      ∧ (∀ err, ReadEnv env config.zero = .error err →
          config.New ReadEnv env
            = (none, some (.wrapError ("failed to read config: " ++ err.Error) err))) := by
  refine ⟨?_, ?_, ?_, ?_, ?_, ?_⟩
  · simp [config.New, hread]
  · intro h1 h2 h3
    simp [config.setMode, h1, h2, h3]
  · intro h
    simp [config.setMode, h, config.defaultHTTPPort]
  · intro h
    simp [config.setMode, h, config.defaultHTTPPort]
  · intro h
    simp [config.setMode, h, config.defaultHTTPPort]
  · intro err herr
    simp [config.New, herr]

theorem New_is_setMode_of_environment_witness :
    config.New (fun (_ : Unit) _ => .ok { config.exampleRead with
        App := { Mode := "staging", Debug := false, SwaggerUI := "" } }) ()
      = (some { config.exampleRead with
          App := { Mode := "staging", Debug := false, SwaggerUI := "" } }, none) :=
  (New_is_setMode_of_environment
    (fun (_ : Unit) _ => .ok { config.exampleRead with
      App := { Mode := "staging", Debug := false, SwaggerUI := "" } }) ()
    { config.exampleRead with App := { Mode := "staging", Debug := false, SwaggerUI := "" } }
    rfl).1

/-- C28: `setMode` sets the settings of the mode, whatever the `Config` held
before: with mode "prod", Debug false, level Info, format "json", SwaggerUI "",
sslmode "require", port 8080; with mode "dev", Debug true, level Debug, format
"json", SwaggerUI "/swagger", sslmode "disable", port 8080; with mode "test",
Debug true, level Debug, format "text", SwaggerUI "", sslmode "disable", port
8080. -/
theorem setMode_sets_the_settings_of_the_mode (prod dev test : config.Config)
    (hprod : prod.App.Mode = "prod") (hdev : dev.App.Mode = "dev")
    (htest : test.App.Mode = "test") :
    ((config.setMode prod).App.Debug = false
        ∧ (config.setMode prod).Log.Level = slog.LevelInfo
        ∧ (config.setMode prod).Log.Format = "json"
        ∧ (config.setMode prod).App.SwaggerUI = ""
        ∧ (config.setMode prod).Database.SSLMode = "require"
        ∧ (config.setMode prod).HTTP.Port = 8080)
      ∧ ((config.setMode dev).App.Debug = true
        ∧ (config.setMode dev).Log.Level = slog.LevelDebug
        ∧ (config.setMode dev).Log.Format = "json"
        ∧ (config.setMode dev).App.SwaggerUI = "/swagger"
        ∧ (config.setMode dev).Database.SSLMode = "disable"
        ∧ (config.setMode dev).HTTP.Port = 8080)
      ∧ ((config.setMode test).App.Debug = true
        ∧ (config.setMode test).Log.Level = slog.LevelDebug
        ∧ (config.setMode test).Log.Format = "text"
        ∧ (config.setMode test).App.SwaggerUI = ""
        ∧ (config.setMode test).Database.SSLMode = "disable"
        ∧ (config.setMode test).HTTP.Port = 8080) := by
  refine ⟨?_, ?_, ?_⟩
  · simp [config.setMode, hprod, config.defaultHTTPPort]
  · simp [config.setMode, hdev, config.defaultHTTPPort, config.defaultSwaggerUI]
  · simp [config.setMode, htest, config.defaultHTTPPort]

theorem setMode_sets_the_settings_of_the_mode_witness :
    (config.setMode config.exampleRead).HTTP.Port = 8080
      ∧ (config.setMode config.exampleRead).Database.SSLMode = "require"
      ∧ (config.setMode { config.exampleRead with
          App := { Mode := "dev", Debug := false, SwaggerUI := "" } }).App.SwaggerUI
        = "/swagger"
      ∧ (config.setMode { config.exampleRead with
          App := { Mode := "test", Debug := false, SwaggerUI := "/docs" } }).Log.Format
        = "text" :=
  have w := setMode_sets_the_settings_of_the_mode config.exampleRead
    { config.exampleRead with App := { Mode := "dev", Debug := false, SwaggerUI := "" } }
    { config.exampleRead with App := { Mode := "test", Debug := false, SwaggerUI := "/docs" } }
    rfl rfl rfl
  ⟨w.1.2.2.2.2.2, w.1.2.2.2.2.1, w.2.1.2.2.2.1, w.2.2.2.2.1⟩

/-- C29: for every `Config`, `setMode` changes no field other than App.Debug,
App.SwaggerUI, Log.Level, Log.Format, Database.SSLMode and HTTP.Port; when
App.Mode is none of "dev", "test", "prod" it leaves the whole `Config` unchanged;
and applying it twice gives the same `Config` as applying it once. -/
theorem setMode_frame_and_idempotent (cfg : config.Config) :
    config.setMode cfg
        = { cfg with
            App := { cfg.App with Debug := (config.setMode cfg).App.Debug,
                                  SwaggerUI := (config.setMode cfg).App.SwaggerUI }
            Log := { cfg.Log with Level := (config.setMode cfg).Log.Level,
                                  Format := (config.setMode cfg).Log.Format }
            Database := { cfg.Database with SSLMode := (config.setMode cfg).Database.SSLMode }
            HTTP := { cfg.HTTP with Port := (config.setMode cfg).HTTP.Port } }
      ∧ (config.setMode cfg).App.Mode = cfg.App.Mode
      ∧ (config.setMode cfg).HTTP.Host = cfg.HTTP.Host
      ∧ (config.setMode cfg).HTTP.ReadTimeout = cfg.HTTP.ReadTimeout
      ∧ (config.setMode cfg).HTTP.WriteTimeout = cfg.HTTP.WriteTimeout
      ∧ (config.setMode cfg).HTTP.IdleTimeout = cfg.HTTP.IdleTimeout
      ∧ (config.setMode cfg).Log.Output = cfg.Log.Output
      ∧ (config.setMode cfg).OpenAPI = cfg.OpenAPI
      ∧ (config.setMode cfg).Database.Host = cfg.Database.Host
      ∧ (config.setMode cfg).Database.Port = cfg.Database.Port
      ∧ (config.setMode cfg).Database.User = cfg.Database.User
      ∧ (config.setMode cfg).Database.Password = cfg.Database.Password
      ∧ (config.setMode cfg).Database.Name = cfg.Database.Name
      ∧ (config.setMode cfg).Database.MaxConnections = cfg.Database.MaxConnections
      ∧ (cfg.App.Mode ≠ "dev" → cfg.App.Mode ≠ "test" → cfg.App.Mode ≠ "prod" →
          config.setMode cfg = cfg)
      ∧ config.setMode (config.setMode cfg) = config.setMode cfg := by
  by_cases hdev : cfg.App.Mode = "dev"
  · simp [config.setMode, hdev]
  · by_cases htest : cfg.App.Mode = "test"
    · simp [config.setMode, htest]
    · by_cases hprod : cfg.App.Mode = "prod"
      · simp [config.setMode, hprod]
      · simp [config.setMode, hdev, htest, hprod]

/-- C24: for every path `p` and content `c`: after `SetOpenAPISpecPath(p)`,
`GetOpenAPISpec` on a fresh response writer responds with status 200, Content-Type
application/yaml and the body `c` when reading the file at `p` gives `c`; and for
every path `q` whose file cannot be read, after `SetOpenAPISpecPath(q)` it responds
with status 500 and the body "Failed to read OpenAPI specification" (and a
newline). -/
theorem GetOpenAPISpec_serves_the_file_at_the_path (os : OS) (g : Package) (p c q : String)
    (err : GoError) (hread : os.ReadFile p = .ok c) (hfail : os.ReadFile q = .error err) :
    statusCode (GetOpenAPISpec os (SetOpenAPISpecPath p g) []) = some 200
      ∧ sentHeader (GetOpenAPISpec os (SetOpenAPISpecPath p g) []) "Content-Type"
          = some "application/yaml"
      ∧ sentBody (GetOpenAPISpec os (SetOpenAPISpecPath p g) []) = [.text c]
      ∧ statusCode (GetOpenAPISpec os (SetOpenAPISpecPath q g) []) = some 500
      ∧ sentBody (GetOpenAPISpec os (SetOpenAPISpecPath q g) [])
          = [.text ("Failed to read OpenAPI specification" ++ "\n")] := by
  simp only [GetOpenAPISpec, SetOpenAPISpecPath, hread, hfail]
  exact ⟨rfl, rfl, rfl, rfl, rfl⟩

theorem GetOpenAPISpec_serves_the_file_at_the_path_witness :
    sentBody (GetOpenAPISpec exampleOS (SetOpenAPISpecPath "/tmp/openapi.yaml" Package.init) [])
        = [.text "openapi: '3.0.0'"]
      ∧ statusCode (GetOpenAPISpec exampleOS (SetOpenAPISpecPath "nonexistent.yaml"
          Package.init) []) = some 500 :=
  have w := GetOpenAPISpec_serves_the_file_at_the_path exampleOS Package.init
    "/tmp/openapi.yaml" "openapi: '3.0.0'" "nonexistent.yaml"
    (.errorString "open nonexistent.yaml: no such file or directory") rfl rfl
  ⟨w.2.2.1, w.2.2.2.1⟩

/-- C25, as stated, fails: the file exists at the non-empty SpecPath, and yet
`NewHandler` returns no handler. With an API prefix the router rejects (the empty
prefix, or "api/v1" without the leading slash), `r.Route` panics after the check of
the file has passed, and `NewHandler` does not return. -/
theorem NewHandler_panics_on_rejected_prefix_counterexample :
    exampleOS.Stat "/tmp/openapi.yaml" = none
      ∧ exampleOS.ReadFile "/tmp/openapi.yaml" = .ok "openapi: '3.0.0'"
      ∧ (NewHandler exampleOS exampleChi testLibraries
          { SpecPath := "/tmp/openapi.yaml", APIPrefix := "" } (some {})
          (none : Option (DB (List Effect))) Package.init).1 = .panicked
      ∧ (NewHandler exampleOS exampleChi testLibraries
          { SpecPath := "/tmp/openapi.yaml", APIPrefix := "api/v1" } (some {})
          (none : Option (DB (List Effect))) Package.init).1 = .panicked
      ∧ ¬ (∃ handler, (NewHandler exampleOS exampleChi testLibraries
          { SpecPath := "/tmp/openapi.yaml", APIPrefix := "" } (some {})
          (none : Option (DB (List Effect))) Package.init).1
            = .returned (some handler) none) := by
  have h : (NewHandler exampleOS exampleChi testLibraries
      { SpecPath := "/tmp/openapi.yaml", APIPrefix := "" } (some {})
      (none : Option (DB (List Effect))) Package.init).1 = .panicked := rfl
  refine ⟨rfl, rfl, h, rfl, ?_⟩
  rintro ⟨handler, hh⟩
  rw [h] at hh
  cases hh

/-- C25, amended: for every OpenAPI configuration with a non-empty SpecPath `p`:
when `os.Stat(p)` fails with an error that `os.IsNotExist` reports (no file exists
at `p`), `NewHandler` returns a nil handler and an error whose text is
"OpenAPI specification file not found at " followed by `p`; when `os.Stat(p)`
succeeds (the file exists) and the router accepts the API prefix of the
configuration, it returns a non-nil handler (the router with the document route
and the API routes under that prefix) and a nil error; when the file exists and
the router rejects the API prefix, `r.Route` panics and `NewHandler` returns
nothing. -/
theorem NewHandler_checks_that_the_document_exists {σ : Type} (os : OS) (chi : Chi)
    (lib : Libraries) (logger : Option Logger) (repo : Option (DB σ)) (g : Package)
    (cfg : config.OpenAPI) (hpath : cfg.SpecPath ≠ "") :
    (∀ err, os.Stat cfg.SpecPath = some err → os.IsNotExist err = true →
        ∃ e, (NewHandler os chi lib cfg logger repo g).1 = .returned none (some e)
          ∧ e.Error = "OpenAPI specification file not found at " ++ cfg.SpecPath)
      ∧ (os.Stat cfg.SpecPath = none → chi.Route cfg.APIPrefix = true →
          (NewHandler os chi lib cfg logger repo g).1
            = .returned (some { swaggerDoc := GetOpenAPISpec, APIPrefix := cfg.APIPrefix,
                                api := NewHandler.Route lib logger repo }) none)
      ∧ (os.Stat cfg.SpecPath = none → chi.Route cfg.APIPrefix = false →
          (NewHandler os chi lib cfg logger repo g).1 = .panicked) := by
  refine ⟨?_, ?_, ?_⟩
  · intro err hstat hnotexist
    refine ⟨.errorString ("OpenAPI specification file not found at " ++ cfg.SpecPath),
      ?_, rfl⟩
    simp [NewHandler, hpath, hstat, hnotexist]
  · intro hstat hroute
    simp [NewHandler, hpath, hstat, hroute]
  · intro hstat hroute
    simp [NewHandler, hpath, hstat, hroute]

theorem NewHandler_checks_that_the_document_exists_witness :
    (∃ e, (NewHandler exampleOS exampleChi testLibraries
          { SpecPath := "/nonexistent/path/openapi.yaml", APIPrefix := "/api" } (some {})
          (none : Option (DB (List Effect))) Package.init).1 = .returned none (some e)
        ∧ e.Error = "OpenAPI specification file not found at "
            ++ "/nonexistent/path/openapi.yaml")
      ∧ (NewHandler exampleOS exampleChi testLibraries
          { SpecPath := "/tmp/openapi.yaml", APIPrefix := "/api" } (some {})
          (none : Option (DB (List Effect))) Package.init).1
        = .returned (some { swaggerDoc := GetOpenAPISpec, APIPrefix := "/api",
                            api := NewHandler.Route testLibraries (some {}) none }) none
      ∧ (NewHandler exampleOS exampleChi testLibraries
          { SpecPath := "/tmp/openapi.yaml", APIPrefix := "api" } (some {})
          (none : Option (DB (List Effect))) Package.init).1 = .panicked :=
  ⟨(NewHandler_checks_that_the_document_exists exampleOS exampleChi testLibraries (some {})
      none Package.init { SpecPath := "/nonexistent/path/openapi.yaml", APIPrefix := "/api" }
      (by decide)).1
      (.errorString "stat /nonexistent/path/openapi.yaml: no such file or directory")
      (by decide) rfl,
    (NewHandler_checks_that_the_document_exists exampleOS exampleChi testLibraries (some {})
      none Package.init { SpecPath := "/tmp/openapi.yaml", APIPrefix := "/api" }
      (by decide)).2.1 (by decide) (by decide),
    (NewHandler_checks_that_the_document_exists exampleOS exampleChi testLibraries (some {})
      none Package.init { SpecPath := "/tmp/openapi.yaml", APIPrefix := "api" }
      (by decide)).2.2 (by decide) (by decide)⟩

/-- C30: for every configuration, `NewHandler` leaves the package-level
`OpenAPISpecPath` as it was, however the call ends: the path it validates is not
written to it. So the /swagger/doc.yaml route of a handler it returns is
`GetOpenAPISpec`, which reads the file at the value `OpenAPISpecPath` has when the
request is served: after the call, the value it had before the call. -/
theorem NewHandler_leaves_OpenAPISpecPath {σ : Type} (os : OS) (chi : Chi) (lib : Libraries)
    (openAPICfg : config.OpenAPI) (logger : Option Logger) (repo : Option (DB σ))
    (g : Package) :
    (NewHandler os chi lib openAPICfg logger repo g).2 = g
      ∧ (NewHandler os chi lib openAPICfg logger repo g).2.OpenAPISpecPath = g.OpenAPISpecPath
      ∧ ∀ handler : Router σ,
          (NewHandler os chi lib openAPICfg logger repo g).1 = .returned (some handler) none →
          ∀ w : ResponseWriter,
            handler.swaggerDoc os (NewHandler os chi lib openAPICfg logger repo g).2 w
              = (match os.ReadFile g.OpenAPISpecPath with
                | .error _ => httpError w "Failed to read OpenAPI specification" 500
                | .ok spec =>
                  w ++ [.HeaderSet "Content-Type" "application/yaml", .Write (.text spec)]) := by
  have hg : (NewHandler os chi lib openAPICfg logger repo g).2 = g := by
    unfold NewHandler
    simp only
    repeat' split
    all_goals rfl
  refine ⟨hg, by rw [hg], ?_⟩
  intro handler hres w
  rw [hg]
  have hdoc : handler.swaggerDoc = GetOpenAPISpec := by
    unfold NewHandler at hres
    simp only at hres
    repeat' split at hres
    all_goals first
      | (simp only [Outcome.returned.injEq, Option.some.injEq] at hres
         rw [← hres.1])
      | simp at hres
  rw [hdoc]
  rfl

theorem NewHandler_leaves_OpenAPISpecPath_witness :
    (NewHandler exampleOS exampleChi testLibraries
        { SpecPath := "/tmp/openapi.yaml", APIPrefix := "/api" } (some {})
        (none : Option (DB (List Effect))) Package.init).2.OpenAPISpecPath
      = "openapi/openapi.yaml"
      ∧ ∀ handler : Router (List Effect),
          (NewHandler exampleOS exampleChi testLibraries
            { SpecPath := "/tmp/openapi.yaml", APIPrefix := "/api" } (some {})
            (none : Option (DB (List Effect))) Package.init).1 = .returned (some handler) none →
          statusCode (handler.swaggerDoc exampleOS Package.init []) = some 500 :=
  have w := NewHandler_leaves_OpenAPISpecPath exampleOS exampleChi testLibraries
    { SpecPath := "/tmp/openapi.yaml", APIPrefix := "/api" } (some {})
    (none : Option (DB (List Effect))) Package.init
  ⟨w.2.1, fun handler hres => by
    have h := w.2.2 handler hres []
    rw [w.1] at h
    rw [h]
    decide⟩

/-- C27: for every id and `UserRequest`, when the scan of the update's row fails
with an error that is or wraps a PostgreSQL error of code "23505", the store's
`UpdateUser` returns a nil user and an error that wraps it with the text
"failed to update user: …": it is neither `ErrNotFound` nor `ErrUserAlreadyExists`,
and `errors.Is` finds neither sentinel in it; `PutUser` over the store client then
yields the 500 variant "Internal server error". -/
theorem update_unique_violation_is_500 {π : Type} (d : db π) (ctx : Context)
    (u : UserRequest) (id : Nat) (p p1 : π) (e : GoError) (sev msg : String)
    (hq : d.pool.QueryRow ctx db.updateQuery
      [.string u.FirstName, .string u.LastName, .Email u.Email, .uint id] p
        = (.scanError e, p1))
    (hpg : GoError.PgError sev "23505" msg ∈ e.chain) :
    (d.UpdateUser ctx u id p).user = none
      ∧ (d.UpdateUser ctx u id p).err
          = some (.wrapError ("failed to update user: " ++ e.Error) e)
      ∧ GoError.wrapError ("failed to update user: " ++ e.Error) e ≠ .ErrNotFound
      ∧ GoError.wrapError ("failed to update user: " ++ e.Error) e ≠ .ErrUserAlreadyExists
      ∧ errorsIs (.wrapError ("failed to update user: " ++ e.Error) e) .ErrNotFound = false
      ∧ errorsIs (.wrapError ("failed to update user: " ++ e.Error) e) .ErrUserAlreadyExists
          = false
      ∧ (UserHandler.PutUser ⟨some d.toDB⟩ ctx { Id := id, Body := some u } p).outcome
          = .returned (some (.PutUser500JSONResponse
              { Error := some "Internal server error" })) none := by
  have hno := sentinel_not_mem_chain_of_PgError e sev "23505" msg hpg
  have hrows : errorsIs e .sqlErrNoRows = false := (errorsIs_eq_false_iff _ _).2 hno.2.2
  have hnf : errorsIs (.wrapError ("failed to update user: " ++ e.Error) e) .ErrNotFound
      = false := by
    have := (errorsIs_eq_false_iff e .ErrNotFound).2 hno.1
    simp [errorsIs, this]
  have hae : errorsIs (.wrapError ("failed to update user: " ++ e.Error) e)
      .ErrUserAlreadyExists = false := by
    have := (errorsIs_eq_false_iff e .ErrUserAlreadyExists).2 hno.2.1
    simp [errorsIs, this]
  have hrun := UpdateUser_scanError d ctx u id p p1 e hq
  rw [hrows] at hrun
  have hcall : d.toDB.UpdateUser ctx u id p
      = ((none, some (.wrapError ("failed to update user: " ++ e.Error) e)), p1) := by
    simp [db.toDB, hrun]
  have hev := PutUser_eval_error ⟨some d.toDB⟩ d.toDB ctx id u p p1 none _ rfl hcall
  rw [hnf] at hev
  refine ⟨by rw [hrun]; rfl, by rw [hrun]; rfl, fun h => GoError.noConfusion h,
    fun h => GoError.noConfusion h, hnf, hae, ?_⟩
  rw [hev]
  rfl

theorem update_unique_violation_is_500_witness :
    ((db.mk (MockPool (.scanError UsersTable.uniqueViolation))).UpdateUser ⟨0⟩
        johnUpdatedRequest 1 []).user = none
      ∧ (UserHandler.PutUser
          ⟨some (db.mk (MockPool (.scanError UsersTable.uniqueViolation))).toDB⟩ ⟨0⟩
          { Id := 1, Body := some johnUpdatedRequest } []).outcome
        = .returned (some (.PutUser500JSONResponse { Error := some "Internal server error" }))
            none :=
  have w := update_unique_violation_is_500
    (db.mk (MockPool (.scanError UsersTable.uniqueViolation))) ⟨0⟩ johnUpdatedRequest 1 []
    [⟨⟨0⟩, db.updateQuery, [.string "John", .string "Doe Updated",
      .Email "john.updated@example.com", .uint 1]⟩]
    UsersTable.uniqueViolation "ERROR" "duplicate key value violates unique constraint"
    rfl (by simp [GoError.chain, UsersTable.uniqueViolation])
  ⟨w.1, w.2.2.2.2.2.2⟩

/-- C21: on the API routes of `NewHandler` (with a logger), a POST /users or PUT
/users/{id} whose JSON body is an object carrying an `email` member that is no
valid email address (the empty string, when it is none) does not decode:
`Email.UnmarshalJSON` fails, the strict wrapper answers through the request error
handler with status 400 and returns. The store is as before and the only event is
the logged error: the user handler is not invoked and the store is not called.
(The PUT is taken with an id that binds; with an id that does not bind, whatever
the body, the answer is 400 as well, with store and events as before.) -/
theorem invalid_email_is_400_without_handler {σ : Type} (lib : Libraries) (j : EncodingJSON)
    (logger : Logger) (repo : Option (DB σ)) (x : Exchange σ) (rPost rPut : Request)
    (id : Nat) (members members' : List (Option Field × JSONMember)) (e e' : String)
    (hread : j.Read rPost.Body = .object members)
    (hmem : (some Field.email, JSONMember.string e) ∈ members)
    (hinv : j.isValidEmail e = false)
    (hbind : lib.BindStyledParameterWithOptions rPut.id = .ok id)
    (hread' : j.Read rPut.Body = .object members')
    (hmem' : (some Field.email, JSONMember.string e') ∈ members')
    (hinv' : j.isValidEmail e' = false) :
    (∃ err, (NewHandler.Route (lib.withJSON j) (some logger) repo).PostUser x rPost
        = { x with events := x.events ++ [.loggerError "request validation error" err],
                   w := httpError x.w "Invalid request" 400 })
      ∧ (∃ err, (NewHandler.Route (lib.withJSON j) (some logger) repo).PutUser
            (lib.withJSON j) x rPut
        = { x with events := x.events ++ [.loggerError "request validation error" err],
                   w := httpError x.w "Invalid request" 400 })
      ∧ statusCode ((NewHandler.Route (lib.withJSON j) (some logger) repo).PostUser
          { x with w := [] } rPost).w = some 400
      ∧ statusCode ((NewHandler.Route (lib.withJSON j) (some logger) repo).PutUser
          (lib.withJSON j) { x with w := [] } rPut).w = some 400
      ∧ ((NewHandler.Route (lib.withJSON j) (some logger) repo).PostUser x rPost).store
          = x.store
      ∧ ((NewHandler.Route (lib.withJSON j) (some logger) repo).PutUser
          (lib.withJSON j) x rPut).store = x.store
      ∧ (∀ (r : Request) (err : GoError),
          lib.BindStyledParameterWithOptions r.id = .error err →
          statusCode ((NewHandler.Route (lib.withJSON j) (some logger) repo).PutUser
              (lib.withJSON j) { x with w := [] } r).w = some 400
            ∧ ((NewHandler.Route (lib.withJSON j) (some logger) repo).PutUser
                (lib.withJSON j) x r).store = x.store
            ∧ ((NewHandler.Route (lib.withJSON j) (some logger) repo).PutUser
                (lib.withJSON j) x r).events = x.events) := by
  have hunbound : ∀ (r : Request) (err : GoError),
      lib.BindStyledParameterWithOptions r.id = .error err →
      statusCode ((NewHandler.Route (lib.withJSON j) (some logger) repo).PutUser
          (lib.withJSON j) { x with w := [] } r).w = some 400
        ∧ ((NewHandler.Route (lib.withJSON j) (some logger) repo).PutUser
            (lib.withJSON j) x r).store = x.store
        ∧ ((NewHandler.Route (lib.withJSON j) (some logger) repo).PutUser
            (lib.withJSON j) x r).events = x.events := by
    intro r err hr
    have hr' : (lib.withJSON j).BindStyledParameterWithOptions r.id = .error err := hr
    rw [NewHandler.Route, HandlerFromMux,
      PutUser_bind_error (lib.withJSON j) _ _ x r err rfl hr',
      PutUser_bind_error (lib.withJSON j) _ _ { x with w := [] } r err rfl hr']
    exact ⟨rfl, rfl, rfl⟩
  rcases DecodeUserRequest_invalid_email j rPost.Body e members hread hmem hinv with ⟨err, herr⟩
  rcases DecodeUserRequest_invalid_email j rPut.Body e' members' hread' hmem' hinv' with
    ⟨err', herr'⟩
  have hd : (lib.withJSON j).DecodeUserRequest rPost.Body = .error err := herr
  have hd' : (lib.withJSON j).DecodeUserRequest rPut.Body = .error err' := herr'
  have hb : (lib.withJSON j).BindStyledParameterWithOptions rPut.id = .ok id := hbind
  rw [Route_PostUser_decode_error (lib.withJSON j) logger repo x rPost err hd,
    Route_PutUser_decode_error (lib.withJSON j) logger repo x rPut id err' hb hd',
    Route_PostUser_decode_error (lib.withJSON j) logger repo _ rPost err hd,
    Route_PutUser_decode_error (lib.withJSON j) logger repo _ rPut id err' hb hd']
  exact ⟨⟨_, rfl⟩, ⟨_, rfl⟩, rfl, rfl, rfl, rfl, hunbound⟩

theorem invalid_email_is_400_without_handler_witness :
    statusCode (tableRoute.PostUser emptyTableExchange ⟨⟨0⟩, "", emptyEmailBody⟩).w = some 400
      ∧ (tableRoute.PostUser emptyTableExchange ⟨⟨0⟩, "", emptyEmailBody⟩).store
          = emptyTableExchange.store
      ∧ (tableRoute.PutUser (testLibraries.withJSON testJSON) emptyTableExchange
          ⟨⟨0⟩, "1", emptyEmailBody⟩).store = emptyTableExchange.store :=
  have w := invalid_email_is_400_without_handler testLibraries testJSON {}
    (some tableStore.toDB) emptyTableExchange ⟨⟨0⟩, "", emptyEmailBody⟩
    ⟨⟨0⟩, "1", emptyEmailBody⟩ 1
    [(some .email, .string ""), (some .first_name, .string "John"),
      (some .last_name, .string "Doe")]
    [(some .email, .string ""), (some .first_name, .string "John"),
      (some .last_name, .string "Doe")]
    "" "" (by decide) (by decide) (by decide) rfl (by decide) (by decide) (by decide)
  ⟨w.2.2.1, w.2.2.2.2.1, w.2.2.2.2.2.1⟩

/-- C22, as stated, fails: a POST /users whose body has the empty string as
first_name (and a valid email) is not rejected. It decodes, the user handler is
invoked, the store's `CreateUser` is called with the empty first name, the row is
written and the answer is 201. -/
theorem empty_first_name_reaches_the_store_counterexample :
    statusCode (tableRoute.PostUser emptyTableExchange ⟨⟨0⟩, "", emptyFirstNameBody⟩).w
        = some 201
      ∧ (tableRoute.PostUser emptyTableExchange ⟨⟨0⟩, "", emptyFirstNameBody⟩).events
        = [.invoke "PostUser",
            .effect (.CreateUser ⟨0⟩
              { FirstName := "", LastName := "Doe", Email := "john.doe@example.com" })]
      ∧ (tableRoute.PostUser emptyTableExchange ⟨⟨0⟩, "", emptyFirstNameBody⟩).store.rows
        = [{ Id := 1, FirstName := "", LastName := "Doe", Email := "john.doe@example.com",
             CreatedAt := fixedTime, UpdatedAt := fixedTime }] := by
  refine ⟨by decide, by decide, by decide⟩

/-- C22, amended: the names are not checked, at the boundary, in the handler or
in the store client. On the API routes of `NewHandler` over a store, for every
request:
* a body that is a JSON object decodes exactly when each of its members decodes,
  in whatever order they come: a first_name or last_name member that is a string
  (any string, the empty one included) or `null`, an email member that is a valid
  address; the request it decodes to has the strings of its members, and the empty
  string for a name that is missing or `null`;
* a POST /users, or a PUT /users/{id} whose id parses, with a body that decodes to
  a request `b`, whatever the names of `b`: the user handler is invoked with `b`,
  the store's `CreateUser` (or `UpdateUser`, with the id) is called with `b`, and
  the handler does not answer with its 400 variant;
* a POST /users, or a PUT /users/{id} whose id parses, is rejected at the boundary,
  with the plain text 400 and without the handler or the store, when its body does
  not decode, and only then. -/
theorem names_are_not_validated {σ : Type} (lib : Libraries) (j : EncodingJSON)
    (logger : Logger) (repo : DB σ) (x : Exchange σ) (r : Request) (id : Nat) :
    (∀ members, j.Read r.Body = .object members →
        (members.all (memberDecodes j) = true →
          (lib.withJSON j).DecodeUserRequest r.Body
            = .ok (members.foldl memberStored { Email := "", FirstName := "", LastName := "" }))
        ∧ (members.all (memberDecodes j) = false →
          ∃ err, (lib.withJSON j).DecodeUserRequest r.Body = .error err))
      ∧ (∀ s, memberDecodes j (some .first_name, .string s) = true
          ∧ memberDecodes j (some .last_name, .string s) = true)
      ∧ (∀ b, (lib.withJSON j).DecodeUserRequest r.Body = .ok b →
          (NewHandler.Route (lib.withJSON j) (some logger) (some repo)).PostUser x r
              = (NewHandler.ownStrictHandler (some logger) (some repo)).respond r "PostUser"
                  (PostUserResponseObject.VisitPostUserResponse (lib.withJSON j)) x
                  (UserHandler.PostUser { repo := some repo } r.ctx { Body := some b } x.store)
            ∧ Event.invoke "PostUser"
                ∈ ((NewHandler.Route (lib.withJSON j) (some logger) (some repo)).PostUser
                    x r).events
            ∧ Event.effect (.CreateUser r.ctx b)
                ∈ ((NewHandler.Route (lib.withJSON j) (some logger) (some repo)).PostUser
                    x r).events
            ∧ (∀ e err,
                (UserHandler.PostUser { repo := some repo } r.ctx { Body := some b }
                    x.store).outcome
                  ≠ .returned (some (.PostUser400JSONResponse e)) err))
      ∧ (∀ err, (lib.withJSON j).DecodeUserRequest r.Body = .error err →
          (NewHandler.Route (lib.withJSON j) (some logger) (some repo)).PostUser x r
            = { x with
                events := x.events ++ [.loggerError "request validation error"
                  (.wrapError ("can't decode JSON body: " ++ err.Error) err)],
                w := httpError x.w "Invalid request" 400 })
      ∧ (lib.BindStyledParameterWithOptions r.id = .ok id →
          ∀ b, (lib.withJSON j).DecodeUserRequest r.Body = .ok b →
          (NewHandler.Route (lib.withJSON j) (some logger) (some repo)).PutUser
                (lib.withJSON j) x r
              = (NewHandler.ownStrictHandler (some logger) (some repo)).respond r "PutUser"
                  (PutUserResponseObject.VisitPutUserResponse (lib.withJSON j)) x
                  (UserHandler.PutUser { repo := some repo } r.ctx
                    { Id := id, Body := some b } x.store)
            ∧ Event.invoke "PutUser"
                ∈ ((NewHandler.Route (lib.withJSON j) (some logger) (some repo)).PutUser
                    (lib.withJSON j) x r).events
            ∧ Event.effect (.UpdateUser r.ctx b id)
                ∈ ((NewHandler.Route (lib.withJSON j) (some logger) (some repo)).PutUser
                    (lib.withJSON j) x r).events
            ∧ (∀ e err,
                (UserHandler.PutUser { repo := some repo } r.ctx
                    { Id := id, Body := some b } x.store).outcome
                  ≠ .returned (some (.PutUser400JSONResponse e)) err))
      ∧ (lib.BindStyledParameterWithOptions r.id = .ok id →
          ∀ err, (lib.withJSON j).DecodeUserRequest r.Body = .error err →
          (NewHandler.Route (lib.withJSON j) (some logger) (some repo)).PutUser
              (lib.withJSON j) x r
            = { x with
                events := x.events ++ [.loggerError "request validation error"
                  (.wrapError ("can't decode JSON body: " ++ err.Error) err)],
                w := httpError x.w "Invalid request" 400 }) := by
  refine ⟨?_, fun s => ⟨rfl, rfl⟩, ?_, ?_, ?_, ?_⟩
  · intro members hread
    constructor
    · intro hall
      show DecodeUserRequest j r.Body = _
      simp only [DecodeUserRequest, hread]
      exact unmarshalMembers_decodes j members _ hall
    · intro hall
      show ∃ err, DecodeUserRequest j r.Body = .error err
      simp only [DecodeUserRequest, hread]
      exact unmarshalMembers_refuses j members _ hall
  · intro b hd
    have hPost := Route_PostUser_decode_ok (lib.withJSON j) (some logger) (some repo) x r b hd
    rcases respond_events (some logger) (some repo) r "PostUser"
      (PostUserResponseObject.VisitPostUserResponse (lib.withJSON j)) x
      (UserHandler.PostUser { repo := some repo } r.ctx { Body := some b } x.store)
      with ⟨rest, hrest⟩
    refine ⟨hPost, ?_, ?_, fun e err => PostUser_with_body_not_400 _ r.ctx b x.store e err⟩
    · rw [hPost, hrest]
      simp
    · rw [hPost, hrest]
      have := PostUser_trace_mem repo r.ctx b x.store
      simp only [List.mem_append, List.mem_cons, List.mem_map]
      exact Or.inl (Or.inr (Or.inr ⟨_, this, rfl⟩))
  · intro err hd
    exact Route_PostUser_decode_error (lib.withJSON j) logger (some repo) x r err hd
  · intro hbind b hd
    have hb : (lib.withJSON j).BindStyledParameterWithOptions r.id = .ok id := hbind
    have hPut := Route_PutUser_decode_ok (lib.withJSON j) (some logger) (some repo) x r id b
      hb hd
    rcases respond_events (some logger) (some repo) r "PutUser"
      (PutUserResponseObject.VisitPutUserResponse (lib.withJSON j)) x
      (UserHandler.PutUser { repo := some repo } r.ctx { Id := id, Body := some b } x.store)
      with ⟨rest, hrest⟩
    refine ⟨hPut, ?_, ?_, fun e err => PutUser_with_body_not_400 _ r.ctx id b x.store e err⟩
    · rw [hPut, hrest]
      simp
    · rw [hPut, hrest]
      have := PutUser_trace_mem repo r.ctx id b x.store
      simp only [List.mem_append, List.mem_cons, List.mem_map]
      exact Or.inl (Or.inr (Or.inr ⟨_, this, rfl⟩))
  · intro hbind err hd
    have hb : (lib.withJSON j).BindStyledParameterWithOptions r.id = .ok id := hbind
    exact Route_PutUser_decode_error (lib.withJSON j) logger (some repo) x r id err hb hd

theorem names_are_not_validated_witness :
    (testLibraries.withJSON testJSON).DecodeUserRequest emptyNamesBody
        = .ok { FirstName := "", LastName := "", Email := "john.doe@example.com" }
      ∧ Event.effect (.CreateUser ⟨0⟩
            { FirstName := "", LastName := "", Email := "john.doe@example.com" })
          ∈ (tableRoute.PostUser emptyTableExchange ⟨⟨0⟩, "", emptyNamesBody⟩).events
      ∧ Event.effect (.UpdateUser ⟨0⟩
            { FirstName := "", LastName := "", Email := "john.doe@example.com" } 1)
          ∈ (tableRoute.PutUser (testLibraries.withJSON testJSON) emptyTableExchange
              ⟨⟨0⟩, "1", emptyNamesBody⟩).events
      ∧ statusCode (tableRoute.PostUser emptyTableExchange ⟨⟨0⟩, "", "no JSON"⟩).w
        = some 400 :=
  have hd : (testLibraries.withJSON testJSON).DecodeUserRequest emptyNamesBody
      = .ok { FirstName := "", LastName := "", Email := "john.doe@example.com" } :=
    ((names_are_not_validated testLibraries testJSON {} tableStore.toDB emptyTableExchange
      ⟨⟨0⟩, "", emptyNamesBody⟩ 1).1
        [(some Field.email, .string "john.doe@example.com"),
          (some Field.first_name, .string ""), (some Field.last_name, .string "")]
        (by decide)).1 (by decide)
  ⟨hd,
    ((names_are_not_validated testLibraries testJSON {} tableStore.toDB emptyTableExchange
      ⟨⟨0⟩, "", emptyNamesBody⟩ 1).2.2.1 _ hd).2.2.1,
    ((names_are_not_validated testLibraries testJSON {} tableStore.toDB emptyTableExchange
      ⟨⟨0⟩, "1", emptyNamesBody⟩ 1).2.2.2.2.1 rfl _ hd).2.2.1,
    by
      unfold tableRoute
      rw [(names_are_not_validated testLibraries testJSON {} tableStore.toDB
        emptyTableExchange ⟨⟨0⟩, "", "no JSON"⟩ 1).2.2.2.1 (.errorString "EOF") rfl]
      decide⟩

/-- C26: through the strict wrapper on the API routes of `NewHandler` (with a
logger), for POST /users and PUT /users/{id}: if decoding the body fails (as it
does for an empty body), the wrapper calls the request error handler, which
answers 400 with the text "Invalid request", and `PostUser`/`PutUser` are not
called (the store is as before, the only event is the logged error); otherwise the
wrapper calls them with a non-nil `Body`, the decoded request. With a non-nil
`Body` the handler never returns its 400 variant, so its "Missing request body"
branch is not reached over HTTP. -/
theorem strict_wrapper_never_passes_nil_body {σ : Type} (lib : Libraries) (logger : Logger)
    (repo : Option (DB σ)) (x : Exchange σ) (rPostBad rPostGood rPutBad rPutGood : Request)
    (errPost errPut : GoError) (bPost bPut : UserRequest) (idBad idGood : Nat)
    (hPostBad : lib.DecodeUserRequest rPostBad.Body = .error errPost)
    (hPostGood : lib.DecodeUserRequest rPostGood.Body = .ok bPost)
    (hbindBad : lib.BindStyledParameterWithOptions rPutBad.id = .ok idBad)
    (hPutBad : lib.DecodeUserRequest rPutBad.Body = .error errPut)
    (hbindGood : lib.BindStyledParameterWithOptions rPutGood.id = .ok idGood)
    (hPutGood : lib.DecodeUserRequest rPutGood.Body = .ok bPut) :
    (NewHandler.Route lib (some logger) repo).PostUser x rPostBad
        = { x with
            events := x.events ++ [.loggerError "request validation error"
              (.wrapError ("can't decode JSON body: " ++ errPost.Error) errPost)],
            w := httpError x.w "Invalid request" 400 }
      ∧ (NewHandler.Route lib (some logger) repo).PutUser lib x rPutBad
        = { x with
            events := x.events ++ [.loggerError "request validation error"
              (.wrapError ("can't decode JSON body: " ++ errPut.Error) errPut)],
            w := httpError x.w "Invalid request" 400 }
      ∧ statusCode (httpError [] "Invalid request" 400) = some 400
      ∧ sentBody (httpError [] "Invalid request" 400) = [.text ("Invalid request" ++ "\n")]
      ∧ (NewHandler.Route lib (some logger) repo).PostUser x rPostGood
        = (NewHandler.ownStrictHandler (some logger) repo).respond rPostGood "PostUser"
            (PostUserResponseObject.VisitPostUserResponse lib) x
            (UserHandler.PostUser { repo := repo } rPostGood.ctx { Body := some bPost } x.store)
      ∧ (NewHandler.Route lib (some logger) repo).PutUser lib x rPutGood
        = (NewHandler.ownStrictHandler (some logger) repo).respond rPutGood "PutUser"
            (PutUserResponseObject.VisitPutUserResponse lib) x
            (UserHandler.PutUser { repo := repo } rPutGood.ctx
              { Id := idGood, Body := some bPut } x.store)
      ∧ (∀ (e : Error) (err : Option GoError),
          (UserHandler.PostUser { repo := repo } rPostGood.ctx { Body := some bPost }
            x.store).outcome ≠ .returned (some (.PostUser400JSONResponse e)) err)
      ∧ (∀ (e : Error) (err : Option GoError),
          (UserHandler.PutUser { repo := repo } rPutGood.ctx
            { Id := idGood, Body := some bPut } x.store).outcome
            ≠ .returned (some (.PutUser400JSONResponse e)) err) :=
  ⟨Route_PostUser_decode_error lib logger repo x rPostBad errPost hPostBad,
    Route_PutUser_decode_error lib logger repo x rPutBad idBad errPut hbindBad hPutBad,
    rfl, rfl,
    Route_PostUser_decode_ok lib (some logger) repo x rPostGood bPost hPostGood,
    Route_PutUser_decode_ok lib (some logger) repo x rPutGood idGood bPut hbindGood hPutGood,
    fun e err => PostUser_with_body_not_400 _ _ _ _ e err,
    fun e err => PutUser_with_body_not_400 _ _ _ _ _ e err⟩

theorem strict_wrapper_never_passes_nil_body_witness :
    (testRoute.PostUser freshExchange ⟨⟨0⟩, "", ""⟩).w = httpError [] "Invalid request" 400
      ∧ (testRoute.PostUser freshExchange ⟨⟨0⟩, "", ""⟩).store = []
      ∧ (testRoute.PutUser testLibraries freshExchange ⟨⟨0⟩, "1", ""⟩).w
          = httpError [] "Invalid request" 400
      ∧ (testRoute.PostUser freshExchange ⟨⟨0⟩, "", "body"⟩).store
          = [.CreateUser ⟨0⟩ johnDoeRequest]
      ∧ (testRoute.PutUser testLibraries freshExchange ⟨⟨0⟩, "1", "body"⟩).store
          = [.UpdateUser ⟨0⟩ johnDoeRequest 1] :=
  have w := strict_wrapper_never_passes_nil_body testLibraries {}
    (some (MockUserRepository (some johnDoe) none)) freshExchange
    ⟨⟨0⟩, "", ""⟩ ⟨⟨0⟩, "", "body"⟩ ⟨⟨0⟩, "1", ""⟩ ⟨⟨0⟩, "1", "body"⟩
    (.errorString "EOF") (.errorString "EOF") johnDoeRequest johnDoeRequest 1 1
    rfl rfl rfl rfl rfl rfl
  ⟨congrArg Exchange.w w.1, congrArg Exchange.store w.1, congrArg Exchange.w w.2.1,
    (congrArg Exchange.store w.2.2.2.2.1).trans rfl,
    (congrArg Exchange.store w.2.2.2.2.2.1).trans rfl⟩

end GoUsers
